import Mathlib

/-!
# ThermoForge: volumetric field bake and query engine

A shallow embedding of `UThermoForgeSubsystem`
(`Source/ThermoForge/Private/ThermoForgeSubsystem.cpp`) and of the result
struct of `ThermoForgeSubsystem.h`.

Conventions of the embedding.

* `float` and `double` values are elements of an arbitrary ordered field `K`
  with a floor function (exact arithmetic: no rounding, no NaN, no infinity).
  Every definition is computable; at `K = ℚ` it evaluates on concrete inputs.
* `int32` values are `Int`.  The `int32` arithmetic of the bake (the results of
  the lambdas `FloorDiv0` and `CeilDiv0`, the index range, the dimensions, the
  cell count, the linear index, the cell index of `Center`) and the linear index
  of a hit pass through `wrapInt32`; `FloorToInt` and `CeilToInt` themselves are
  the exact integer floor and ceiling.
* Object pointers: a pointer to a field asset is the long package name of the
  asset (objects are found by that name in `CreateAndSaveFieldAsset`), a weak
  pointer to a source component is a key into the table of live components,
  a null pointer is `none`.
* Engine services and the members of classes whose source is not part of the
  subsystem file are parameters: transcendental functions and rotation
  conversions (`Engine`), the line trace (`UWorld.LineTraceSingleByChannel`),
  the package save (`SavePackage`), the climate curve and the altitude adjustment
  (`UThermoForgeProjectSettings`), the getters of a volume
  (`AThermoForgeVolume`).
-/

namespace ThermoForge

/-! ## Engine math -/

/-- Engine vector `FVector`. -/
structure FVector (K : Type) where
  X : K
  Y : K
  Z : K
deriving DecidableEq

/-- Engine integer vector `FIntVector` (components are `int32`). -/
structure FIntVector where
  X : Int
  Y : Int
  Z : Int
deriving DecidableEq

/-- Engine quaternion `FQuat`. -/
structure FQuat (K : Type) where
  X : K
  Y : K
  Z : K
  W : K
deriving DecidableEq

/-- Engine rotator `FRotator` (degrees). -/
structure FRotator (K : Type) where
  Pitch : K
  Yaw : K
  Roll : K
deriving DecidableEq

/-- Engine functions and constants that have no rational counterpart, taken as
parameters: `FMath::Cos`, `FMath::Exp`, `FMath::Sqrt`, the constant `PI`,
`TNumericLimits<double>::Max()`, `FRotator::Quaternion()` and
`FQuat::Rotator()`. -/
structure Engine (K : Type) where
  PI : K
  Cos : K → K
  Exp : K → K
  Sqrt : K → K
  DoubleMax : K
  Quaternion : FRotator K → FQuat K
  Rotator : FQuat K → FRotator K

/-- Two's-complement wrap of an integer into the `int32` range. -/
def wrapInt32 (n : Int) : Int :=
  (n + 2147483648) % 4294967296 - 2147483648

namespace FMath

variable {K : Type} [LinearOrderedField K] [FloorRing K]

/-- `FMath::Max`. -/
def Max {α : Type} [LinearOrder α] (A B : α) : α := if B < A then A else B

/-- `FMath::Min`. -/
def Min {α : Type} [LinearOrder α] (A B : α) : α := if A < B then A else B

/-- `FMath::Clamp(X, MinValue, MaxValue)`, which is `Max(Min(X, MaxValue), MinValue)`. -/
def Clamp {α : Type} [LinearOrder α] (X MinValue MaxValue : α) : α :=
  Max (Min X MaxValue) MinValue

/-- `FMath::Lerp(A, B, Alpha)`, which is `A + Alpha * (B - A)`. -/
def Lerp (A B Alpha : K) : K := A + Alpha * (B - A)

/-- `FMath::FloorToInt`. -/
def FloorToInt (x : K) : Int := Int.floor x

/-- `FMath::CeilToInt`. -/
def CeilToInt (x : K) : Int := Int.ceil x

/-- `FMath::FloorToFloat`. -/
def FloorToFloat (x : K) : K := ((Int.floor x : Int) : K)

/-- `FMath::Fmod(X, Y)`: `X - trunc(X / Y) * Y`, truncation toward zero. -/
def Fmod (X Y : K) : K :=
  let q := X / Y
  let t : Int := if 0 ≤ q then Int.floor q else Int.ceil q
  X - (t : K) * Y

end FMath

namespace FVector

variable {K : Type} [LinearOrderedField K] [FloorRing K]

/-- Component-wise sum. -/
def add (a b : FVector K) : FVector K := ⟨a.X + b.X, a.Y + b.Y, a.Z + b.Z⟩

/-- Component-wise difference. -/
def sub (a b : FVector K) : FVector K := ⟨a.X - b.X, a.Y - b.Y, a.Z - b.Z⟩

/-- Component-wise product. -/
def mul (a b : FVector K) : FVector K := ⟨a.X * b.X, a.Y * b.Y, a.Z * b.Z⟩

/-- Negation (`-V`). -/
def neg (a : FVector K) : FVector K := ⟨-a.X, -a.Y, -a.Z⟩

/-- Product with a scalar (`V * s`). -/
def scale (a : FVector K) (s : K) : FVector K := ⟨a.X * s, a.Y * s, a.Z * s⟩

/-- Quotient by a scalar (`V / s`). -/
def divScalar (a : FVector K) (s : K) : FVector K := ⟨a.X / s, a.Y / s, a.Z / s⟩

/-- Cross product (`A ^ B`). -/
def cross (a b : FVector K) : FVector K :=
  ⟨a.Y * b.Z - a.Z * b.Y, a.Z * b.X - a.X * b.Z, a.X * b.Y - a.Y * b.X⟩

/-- `FVector::DistSquared`. -/
def DistSquared (a b : FVector K) : K :=
  (b.X - a.X) * (b.X - a.X) + (b.Y - a.Y) * (b.Y - a.Y) + (b.Z - a.Z) * (b.Z - a.Z)

/-- `FVector::Distance`, the square root of `DistSquared`. -/
def Distance (E : Engine K) (a b : FVector K) : K := E.Sqrt (DistSquared a b)

/-- `FVector::Normalize()` with the engine tolerance `1e-8`: scale by the
inverse square root of the squared length when that exceeds the tolerance,
otherwise leave the vector unchanged. -/
def Normalize (E : Engine K) (v : FVector K) : FVector K :=
  let SquareSum := v.X * v.X + v.Y * v.Y + v.Z * v.Z
  if SquareSum > 1 / 100000000 then scale v (1 / E.Sqrt SquareSum) else v

/-- `FVector::ZeroVector`. -/
def ZeroVector : FVector K := ⟨0, 0, 0⟩

end FVector

namespace FQuat

variable {K : Type} [LinearOrderedField K] [FloorRing K]

/-- `FQuat::Identity`. -/
def Identity : FQuat K := ⟨0, 0, 0, 1⟩

/-- `FQuat::Inverse()` of a normalised quaternion: the conjugate. -/
def Inverse (q : FQuat K) : FQuat K := ⟨-q.X, -q.Y, -q.Z, q.W⟩

/-- `FQuat::RotateVector(V)`: with `Q = (X, Y, Z)` and `T = 2 * (Q ^ V)`, the
result is `V + W * T + Q ^ T`. -/
def RotateVector (q : FQuat K) (V : FVector K) : FVector K :=
  let Q : FVector K := ⟨q.X, q.Y, q.Z⟩
  let T := FVector.scale (FVector.cross Q V) 2
  FVector.add (FVector.add V (FVector.scale T q.W)) (FVector.cross Q T)

/-- `FQuat::UnrotateVector(V)`: rotation by the inverse quaternion. -/
def UnrotateVector (q : FQuat K) (V : FVector K) : FVector K :=
  RotateVector (Inverse q) V

end FQuat

/-- Engine transform `FTransform`: rotation, translation, scale. -/
structure FTransform (K : Type) where
  Rotation : FQuat K
  Translation : FVector K
  Scale3D : FVector K
deriving DecidableEq

namespace FTransform

variable {K : Type} [LinearOrderedField K] [FloorRing K]

/-- `FTransform::GetSafeScaleReciprocal` with the engine tolerance `1e-8`. -/
def GetSafeScaleReciprocal (s : FVector K) : FVector K :=
  let r := fun (c : K) => if |c| ≤ 1 / 100000000 then 0 else 1 / c
  ⟨r s.X, r s.Y, r s.Z⟩

/-- `FTransform::TransformPosition(V)`: `Rotation * (Scale3D * V) + Translation`. -/
def TransformPosition (T : FTransform K) (V : FVector K) : FVector K :=
  FVector.add (FQuat.RotateVector T.Rotation (FVector.mul T.Scale3D V)) T.Translation

/-- `FTransform::InverseTransformPosition(V)`:
`Rotation⁻¹ * (V - Translation) * SafeReciprocal(Scale3D)`. -/
def InverseTransformPosition (T : FTransform K) (V : FVector K) : FVector K :=
  FVector.mul (FQuat.UnrotateVector T.Rotation (FVector.sub V T.Translation))
    (GetSafeScaleReciprocal T.Scale3D)

/-- `FTransform::Inverse()`. -/
def Inverse (T : FTransform K) : FTransform K :=
  let InvRotation := FQuat.Inverse T.Rotation
  let InvScale3D := GetSafeScaleReciprocal T.Scale3D
  let InvTranslation :=
    FQuat.RotateVector InvRotation (FVector.mul InvScale3D (FVector.neg T.Translation))
  ⟨InvRotation, InvTranslation, InvScale3D⟩

/-- `FTransform::Identity`. -/
def Identity : FTransform K := ⟨FQuat.Identity, FVector.ZeroVector, ⟨1, 1, 1⟩⟩

end FTransform

/-- Engine box `FBox`. -/
structure FBox (K : Type) where
  Min : FVector K
  Max : FVector K
  IsValid : Bool
deriving DecidableEq

namespace FBox

variable {K : Type} [LinearOrderedField K] [FloorRing K]

/-- `FBox(ForceInit)`: the empty (invalid) box. -/
def ForceInit : FBox K := ⟨FVector.ZeroVector, FVector.ZeroVector, false⟩

/-- `FBox::operator+=(const FVector&)`: grow the box to include a point. -/
def addPoint (B : FBox K) (P : FVector K) : FBox K :=
  if B.IsValid then
    ⟨⟨FMath.Min B.Min.X P.X, FMath.Min B.Min.Y P.Y, FMath.Min B.Min.Z P.Z⟩,
     ⟨FMath.Max B.Max.X P.X, FMath.Max B.Max.Y P.Y, FMath.Max B.Max.Z P.Z⟩, true⟩
  else
    ⟨P, P, true⟩

end FBox

/-- Engine time stamp `FDateTime`, through the two accessors the subsystem
reads: `GetDayOfYear()` and `GetTimeOfDay().GetTotalSeconds()`. -/
structure FDateTime (K : Type) where
  DayOfYear : Int
  TimeOfDayTotalSeconds : K
deriving DecidableEq

/-! ## Data model -/

/-- Engine `UPhysicalMaterial`, through the one member the subsystem reads. -/
structure UPhysicalMaterial (K : Type) where
  Density : K

/-- Engine `UBodySetup`, through the one member the subsystem reads. -/
structure UBodySetup (K : Type) where
  PhysMaterial : Option (UPhysicalMaterial K)

/-- Engine `UPrimitiveComponent`, through `BodyInstance.GetSimplePhysicalMaterial()`
and `GetBodySetup()`. -/
structure UPrimitiveComponent (K : Type) where
  SimplePhysicalMaterial : Option (UPhysicalMaterial K)
  BodySetup : Option (UBodySetup K)

/-- Engine `FHitResult`, through `PhysMaterial.Get()` and `GetComponent()`. -/
structure FHitResult (K : Type) where
  PhysMaterial : Option (UPhysicalMaterial K)
  Component : Option (UPrimitiveComponent K)

/-- Project settings `UThermoForgeProjectSettings` (declared in
`ThermoForgeProjectSettings.h`).  The configuration values are fields; the
member functions `GetAmbientCelsiusAt` (the climate curve) and
`AdjustForAltitude` are parameters. -/
structure UThermoForgeProjectSettings (K : Type) where
  bTraceComplex : Bool
  TraceChannel : Nat
  bUsePhysicsMaterialForDensity : Bool
  bTreatMissingPhysMatAsAir : Bool
  AirDensityKgM3 : K
  UnknownHitDensityKgM3 : K
  FaceThicknessFactor : K
  AttenuationCoefficient : K
  DefaultCellSizeCm : K
  SolarGainScaleC : K
  PreviewWeatherAlpha : K
  WinterAverageC : K
  SummerAverageC : K
  WinterDayNightDeltaC : K
  SummerDayNightDeltaC : K
  GetAmbientCelsiusAt : Bool → K → K → K
  AdjustForAltitude : K → K → K

/-- Baked field `UThermoForgeFieldAsset` (declared in `ThermoForgeFieldAsset.h`):
the members `CreateAndSaveFieldAsset` writes. -/
structure UThermoForgeFieldAsset (K : Type) where
  Dim : FIntVector
  CellSizeCm : K
  OriginWS : FVector K
  GridRotation : FRotator K
  SkyView01 : List K
  WallPermeability01 : List K
  Indoorness01 : List K
deriving DecidableEq

/-- Volume actor `AThermoForgeVolume` (declared in `ThermoForgeVolume.h`).
`BakedField` is a pointer to a field asset; `ActorTransform`, `GridFrame`,
`WorldBounds`, `EffectiveCellSize` and `EffectiveGridOrigin` are the values of
the getters `GetActorTransform()`, `GetGridFrame()`, `GetWorldBounds()`,
`GetEffectiveCellSize()` and `GetEffectiveGridOrigin()`; `Name` is `GetName()`. -/
structure AThermoForgeVolume (K : Type) where
  Name : String
  bUnbounded : Bool
  BoxExtent : FVector K
  ActorTransform : FTransform K
  BakedField : Option String
  GridFrame : FTransform K
  WorldBounds : FBox K
  EffectiveCellSize : K
  EffectiveGridOrigin : FVector K
deriving DecidableEq

/-- Heat source `UThermoForgeSourceComponent` (declared in
`ThermoForgeSourceComponent.h`): the enabled flag, `SampleAt`,
`GetOwnerLocationSafe()` and whether `GetWorld()` is non-null. -/
structure UThermoForgeSourceComponent (K : Type) where
  bEnabled : Bool
  SampleAt : FVector K → K
  GetOwnerLocationSafe : FVector K
  HasWorld : Bool

/-- Result struct `FThermoForgeGridHit` (`ThermoForgeSubsystem.h`, lines 13-45). -/
structure FThermoForgeGridHit (K : Type) where
  bFound : Bool
  Volume : Option (AThermoForgeVolume K)
  GridIndex : FIntVector
  LinearIndex : Int
  CellCenterWS : FVector K
  DistanceSq : K
  CellSizeCm : K
  QueryTimeUTC : FDateTime K
  CurrentTempC : K
deriving DecidableEq

/-- Engine `UWorld`: the volumes in the order `TActorIterator<AThermoForgeVolume>`
visits them, and the line trace
`LineTraceSingleByChannel(Hit, Start, End, Channel, Params)`, which yields the
hit, if any, for a start, an end, a channel and the trace-complex flag. -/
structure UWorld (K : Type) where
  Volumes : List (AThermoForgeVolume K)
  LineTraceSingleByChannel : FVector K → FVector K → Nat → Bool → Option (FHitResult K)

/-- State seen by `UThermoForgeSubsystem`: `GetWorld()`, `GetSettings()`, the
member `SourceSet` (weak pointers, in iteration order), the live source
components the weak pointers resolve to, and the loaded field assets by long
package name. -/
structure UThermoForgeSubsystem (K : Type) where
  World : Option (UWorld K)
  Settings : Option (UThermoForgeProjectSettings K)
  SourceSet : List Nat
  SourceObjects : Nat → Option (UThermoForgeSourceComponent K)
  Assets : String → Option (UThermoForgeFieldAsset K)

section Model

variable {K : Type} [LinearOrderedField K] [FloorRing K]

/-- The default-constructed `FThermoForgeGridHit` (header, member initialisers);
`FDateTime(0)` is day 1 of the year at 00:00. -/
def FThermoForgeGridHit.Default (E : Engine K) : FThermoForgeGridHit K :=
  { bFound := false, Volume := none, GridIndex := ⟨0, 0, 0⟩, LinearIndex := -1,
    CellCenterWS := FVector.ZeroVector, DistanceSq := E.DoubleMax, CellSizeCm := 0,
    QueryTimeUTC := ⟨1, 0⟩, CurrentTempC := 0 }

/-- Modelled from the spec: `UThermoForgeProjectSettings::DensityToPermeability`
(declared in `ThermoForgeProjectSettings.h`) is
`permeability = exp(-k * density * Lfrac)` clamped to [0,1], `k` being the
configured attenuation coefficient. -/
def UThermoForgeProjectSettings.DensityToPermeability (E : Engine K)
    (S : UThermoForgeProjectSettings K) (rho Lfrac : K) : K :=
  FMath.Clamp (E.Exp (-S.AttenuationCoefficient * rho * Lfrac)) 0 1

/-- Modelled from the spec: `UThermoForgeFieldAsset::GetGridFrame` (declared in
`ThermoForgeFieldAsset.h`) exposes the frame of the field, its world-space
origin and its grid rotation, with unit scale. -/
def UThermoForgeFieldAsset.GetGridFrame (E : Engine K) (F : UThermoForgeFieldAsset K) :
    FTransform K :=
  ⟨E.Quaternion F.GridRotation, F.OriginWS, ⟨1, 1, 1⟩⟩

/-- Modelled from the spec: `scalarAt(field, axis, linearIndex)` with bounds
validated against the stored data (`ThermoForgeFieldAsset.h`); an index outside
the array yields the given fallback. -/
def UThermoForgeFieldAsset.scalarAt (arr : List K) (fallback : K) (Idx : Int) : K :=
  if 0 ≤ Idx ∧ Idx.toNat < arr.length then arr.getD Idx.toNat fallback else fallback

/-- Modelled from the spec: `UThermoForgeFieldAsset::GetSkyViewByLinearIdx`, the
bounds-validated read of the sky-openness array (fallback 0). -/
def UThermoForgeFieldAsset.GetSkyViewByLinearIdx (F : UThermoForgeFieldAsset K) (Idx : Int) : K :=
  UThermoForgeFieldAsset.scalarAt F.SkyView01 0 Idx

/-- Modelled from the spec: `UThermoForgeFieldAsset::GetWallPermByLinearIdx`, the
bounds-validated read of the wall-permeability array (fallback 1). -/
def UThermoForgeFieldAsset.GetWallPermByLinearIdx (F : UThermoForgeFieldAsset K) (Idx : Int) : K :=
  UThermoForgeFieldAsset.scalarAt F.WallPermeability01 1 Idx

/-! ## Occlusion sampler (`ThermoForgeSubsystem.cpp`, lines 79-156) -/

/-- `TF_ResolvePhysicalMaterial` (lines 80-93). -/
def TF_ResolvePhysicalMaterial (Hit : FHitResult K) : Option (UPhysicalMaterial K) :=
  match Hit.PhysMaterial with
  | some PM => some PM
  | none =>
    match Hit.Component with
    | some PC =>
      match PC.SimplePhysicalMaterial with
      | some PM => some PM
      | none =>
        match PC.BodySetup with
        | some BS =>
          match BS.PhysMaterial with
          | some PM => some PM
          | none => none
        | none => none
    | none => none

/-- `TF_GetHitDensityKgM3` (lines 95-108). -/
def TF_GetHitDensityKgM3 (Hit : FHitResult K) (S : Option (UThermoForgeProjectSettings K)) : K :=
  match S with
  | none => 1
  | some S =>
    match (if S.bUsePhysicsMaterialForDensity then TF_ResolvePhysicalMaterial Hit else none) with
    | some PM => FMath.Max 0 PM.Density
    | none => if S.bTreatMissingPhysMatAsAir then S.AirDensityKgM3 else S.UnknownHitDensityKgM3

/-- `UThermoForgeSubsystem::TraceAmbientRay01` (lines 111-131). -/
def TraceAmbientRay01 (E : Engine K) (Sub : UThermoForgeSubsystem K)
    (P Dir : FVector K) (MaxLen : K) : K :=
  match Sub.World, Sub.Settings with
  | some W, some S =>
    match W.LineTraceSingleByChannel P (FVector.add P (FVector.scale Dir MaxLen))
        S.TraceChannel S.bTraceComplex with
    | none => 1
    | some Hit =>
      let rho := TF_GetHitDensityKgM3 Hit (some S)
      let Lfrac := S.FaceThicknessFactor
      S.DensityToPermeability E rho Lfrac
  | _, _ => 1

/-- `UThermoForgeSubsystem::OcclusionBetween` (lines 133-156). -/
def OcclusionBetween (E : Engine K) (Sub : UThermoForgeSubsystem K)
    (A B : FVector K) (CellSizeCm : K) : K :=
  match Sub.World, Sub.Settings with
  | some W, some S =>
    match W.LineTraceSingleByChannel A B S.TraceChannel S.bTraceComplex with
    | none => 1
    | some Hit =>
      let rho := TF_GetHitDensityKgM3 Hit (some S)
      let Dist := FVector.Distance E A B
      let Cell := FMath.Max 1 CellSizeCm
      let Lfrac := (Dist / Cell) * S.FaceThicknessFactor
      S.DensityToPermeability E rho Lfrac
  | _, _ => 1

/-! ## Spatial query engine (`ThermoForgeSubsystem.cpp`, lines 309-412) -/

/-- `UThermoForgeSubsystem::VolumeContainsPoint` (lines 309-320). -/
def VolumeContainsPoint (Vol : AThermoForgeVolume K) (WorldLocation : FVector K) : Bool :=
  if Vol.bUnbounded then true
  else
    let T := Vol.ActorTransform
    let L := T.InverseTransformPosition WorldLocation
    let Min := FVector.neg Vol.BoxExtent
    let Max := Vol.BoxExtent
    decide ((L.X ≥ Min.X ∧ L.X ≤ Max.X)
      ∧ (L.Y ≥ Min.Y ∧ L.Y ≤ Max.Y)
      ∧ (L.Z ≥ Min.Z ∧ L.Z ≤ Max.Z))

/-- The world-space centre of the cell `(ix, iy, iz)` of a field as
`ComputeNearestInVolume` reconstructs it (lines 349-350): the point
`((ix + 0.5) * Cell, (iy + 0.5) * Cell, (iz + 0.5) * Cell)` through the frame of
the field. -/
def FieldCellCenterWS (E : Engine K) (Field : UThermoForgeFieldAsset K) (ix iy iz : Int) :
    FVector K :=
  let Cell := Field.CellSizeCm
  let Frame := Field.GetGridFrame E
  Frame.TransformPosition
    ⟨((ix : K) + 1 / 2) * Cell, ((iy : K) + 1 / 2) * Cell, ((iz : K) + 1 / 2) * Cell⟩

/-- `UThermoForgeSubsystem::ComputeNearestInVolume` (lines 322-362).  The
`bool` result and the out-parameter are one `Option`: `none` is `false`,
`some Hit` is `true` with `OutHit = Hit`; the members the function does not
assign keep their default-constructed values. -/
def ComputeNearestInVolume (E : Engine K) (Sub : UThermoForgeSubsystem K)
    (Vol : AThermoForgeVolume K) (WorldLocation : FVector K) :
    Option (FThermoForgeGridHit K) :=
  match Vol.BakedField.bind Sub.Assets with
  | none => none
  | some Field =>
    let D := Field.Dim
    if D.X ≤ 0 ∨ D.Y ≤ 0 ∨ D.Z ≤ 0 then none
    else
      let Cell := Field.CellSizeCm
      if Cell ≤ 0 then none
      else
        let Frame := Field.GetGridFrame E
        let InvFrame := Frame.Inverse
        let LocalGrid := FVector.divScalar (InvFrame.TransformPosition WorldLocation) Cell
        let ix := FMath.Clamp (FMath.FloorToInt (LocalGrid.X + 1 / 2)) 0 (D.X - 1)
        let iy := FMath.Clamp (FMath.FloorToInt (LocalGrid.Y + 1 / 2)) 0 (D.Y - 1)
        let iz := FMath.Clamp (FMath.FloorToInt (LocalGrid.Z + 1 / 2)) 0 (D.Z - 1)
        let Nx := D.X
        let Ny := D.Y
        let Linear :=
          wrapInt32 (wrapInt32 (ix + wrapInt32 (iy * Nx)) + wrapInt32 (wrapInt32 (iz * Nx) * Ny))
        let CellCenterWS := FieldCellCenterWS E Field ix iy iz
        let DistSq := FVector.DistSquared CellCenterWS WorldLocation
        some { FThermoForgeGridHit.Default E with
          bFound := true
          Volume := some Vol
          GridIndex := ⟨ix, iy, iz⟩
          LinearIndex := Linear
          CellCenterWS := CellCenterWS
          DistanceSq := DistSq
          CellSizeCm := Cell }

/-- One iteration of the first loop of `QueryNearestBakedGridPoint`
(lines 375-393) on the pair `(Best, FoundInContaining)`. -/
def QueryContainingStep (E : Engine K) (Sub : UThermoForgeSubsystem K)
    (WorldLocation : FVector K) (QueryTimeUTC : FDateTime K)
    (st : FThermoForgeGridHit K × Bool) (Vol : AThermoForgeVolume K) :
    FThermoForgeGridHit K × Bool :=
  if (Vol.BakedField.bind Sub.Assets).isNone then st
  else if !VolumeContainsPoint Vol WorldLocation then st
  else
    match ComputeNearestInVolume E Sub Vol WorldLocation with
    | some Hit0 =>
      let Hit := { Hit0 with QueryTimeUTC := QueryTimeUTC }
      if !st.2 ∨ Hit.DistanceSq < st.1.DistanceSq then (Hit, true) else st
    | none => st

/-- One iteration of the second loop of `QueryNearestBakedGridPoint`
(lines 397-411) on `Best`. -/
def QueryAnyStep (E : Engine K) (Sub : UThermoForgeSubsystem K)
    (WorldLocation : FVector K) (QueryTimeUTC : FDateTime K)
    (Best : FThermoForgeGridHit K) (Vol : AThermoForgeVolume K) : FThermoForgeGridHit K :=
  if (Vol.BakedField.bind Sub.Assets).isNone then Best
  else
    match ComputeNearestInVolume E Sub Vol WorldLocation with
    | some Hit0 =>
      let Hit := { Hit0 with QueryTimeUTC := QueryTimeUTC }
      if !Best.bFound ∨ Hit.DistanceSq < Best.DistanceSq then Hit else Best
    | none => Best

/-- The selection part of `QueryNearestBakedGridPoint` (lines 368-412): the
value of `Best` when the temperature block is reached. -/
def QuerySelect (E : Engine K) (Sub : UThermoForgeSubsystem K)
    (WorldLocation : FVector K) (QueryTimeUTC : FDateTime K) : FThermoForgeGridHit K :=
  let Best := FThermoForgeGridHit.Default E
  match Sub.World with
  | none => Best
  | some World =>
    let st := World.Volumes.foldl (QueryContainingStep E Sub WorldLocation QueryTimeUTC)
      (Best, false)
    if !st.2 then World.Volumes.foldl (QueryAnyStep E Sub WorldLocation QueryTimeUTC) st.1
    else st.1

/-! ## Temperature composer (`ThermoForgeSubsystem.cpp`, lines 414-539) -/

/-- The nearest-field scan of `ComputeCurrentTemperatureAt` (lines 490-505): the
value of the local `Best` after the loop over all volumes. -/
def ComposeNearest (E : Engine K) (Sub : UThermoForgeSubsystem K) (WorldPos : FVector K) :
    FThermoForgeGridHit K :=
  let Best := FThermoForgeGridHit.Default E
  match Sub.World with
  | none => Best
  | some World =>
    World.Volumes.foldl
      (fun Best Vol =>
        if (Vol.BakedField.bind Sub.Assets).isNone then Best
        else
          match ComputeNearestInVolume E Sub Vol WorldPos with
          | none => Best
          | some Hit => if !Best.bFound ∨ Hit.DistanceSq < Best.DistanceSq then Hit else Best)
      Best

/-- The pair `(Sky, WallPerm)` read by `ComputeCurrentTemperatureAt`
(lines 486-512). -/
def ComposeSkyWall (E : Engine K) (Sub : UThermoForgeSubsystem K) (WorldPos : FVector K) :
    K × K :=
  let Sky : K := 0
  let WallPerm : K := 1
  let Best := ComposeNearest E Sub WorldPos
  if Best.bFound then
    match Best.Volume with
    | some V =>
      match V.BakedField.bind Sub.Assets with
      | some Field =>
        (FMath.Clamp (Field.GetSkyViewByLinearIdx Best.LinearIndex) 0 1,
         FMath.Clamp (Field.GetWallPermByLinearIdx Best.LinearIndex) 0 1)
      | none => (Sky, WallPerm)
    | none => (Sky, WallPerm)
  else (Sky, WallPerm)

/-- The solar term of `ComputeCurrentTemperatureAt` (line 518). -/
def ComposeSolar (S : UThermoForgeProjectSettings K) (Sky WeatherAlpha01 : K) : K :=
  S.SolarGainScaleC * Sky * (1 - FMath.Clamp WeatherAlpha01 0 1)

/-- The source loop of `ComputeCurrentTemperatureAt` (lines 521-536): the value
of `SourceSum` after the loop over `SourceSet`. -/
def ComposeSourceSum (E : Engine K) (Sub : UThermoForgeSubsystem K)
    (S : UThermoForgeProjectSettings K) (WorldPos : FVector K) (WallPerm : K) : K :=
  Sub.SourceSet.foldl
    (fun SourceSum W =>
      match Sub.SourceObjects W with
      | none => SourceSum
      | some Sc =>
        if !Sc.bEnabled then SourceSum
        else
          let Intensity := Sc.SampleAt WorldPos
          if Intensity = 0 then SourceSum
          else
            let CellSize := S.DefaultCellSizeCm
            let Occ := OcclusionBetween E Sub WorldPos Sc.GetOwnerLocationSafe CellSize
            SourceSum + Intensity * Occ * WallPerm)
    0

/-- `UThermoForgeSubsystem::ComputeCurrentTemperatureAt` (lines 480-539). -/
def ComputeCurrentTemperatureAt (E : Engine K) (Sub : UThermoForgeSubsystem K)
    (WorldPos : FVector K) (bWinter : Bool) (TimeHours WeatherAlpha01 : K) : K :=
  match Sub.Settings with
  | none => 0
  | some S =>
    let SkyWall := ComposeSkyWall E Sub WorldPos
    let Sky := SkyWall.1
    let WallPerm := SkyWall.2
    let AmbientC := S.GetAmbientCelsiusAt bWinter TimeHours WorldPos.Z
    let Solar := ComposeSolar S Sky WeatherAlpha01
    let SourceSum := ComposeSourceSum E Sub S WorldPos WallPerm
    AmbientC + Solar + SourceSum

/-- The hour of day of `QueryNearestBakedGridPoint` (lines 423-426): the UTC
seconds of the day over 3600, wrapped into [0, 24). -/
def QueryTimeHours (T : FDateTime K) : K :=
  let SecUTC := T.TimeOfDayTotalSeconds
  let h := SecUTC / 3600
  let r := FMath.Fmod h 24
  if r < 0 then r + 24 else r

/-- The seasonal position `SeasonAlpha01` of `QueryNearestBakedGridPoint`
(lines 430-433). -/
def SeasonAlpha01 (E : Engine K) (DOY : Int) : K :=
  let Wrap01 := fun (x : K) => x - FMath.FloorToFloat x
  let YearPos := Wrap01 (((DOY : K) - 355) / 365)
  1 / 2 * (1 - E.Cos (2 * E.PI * YearPos))

/-- The blended baseline total `BaselineTotalC` (lines 437-439). -/
def QueryBaselineTotalC (E : Engine K) (Sub : UThermoForgeSubsystem K)
    (Best : FThermoForgeGridHit K) : K :=
  let WeatherAlfa : K :=
    match Sub.Settings with
    | some S => S.PreviewWeatherAlpha
    | none => 3 / 10
  let TimeHours := QueryTimeHours Best.QueryTimeUTC
  let BaseWinter := ComputeCurrentTemperatureAt E Sub Best.CellCenterWS true TimeHours WeatherAlfa
  let BaseSummer := ComputeCurrentTemperatureAt E Sub Best.CellCenterWS false TimeHours WeatherAlfa
  FMath.Lerp BaseWinter BaseSummer (SeasonAlpha01 E Best.QueryTimeUTC.DayOfYear)

/-- The blended baseline ambient `BaselineAmbientC` (lines 442-444). -/
def QueryBaselineAmbientC (E : Engine K) (Sub : UThermoForgeSubsystem K)
    (Best : FThermoForgeGridHit K) : K :=
  let TimeHours := QueryTimeHours Best.QueryTimeUTC
  let AmbWinter : K :=
    match Sub.Settings with
    | some S => S.GetAmbientCelsiusAt true TimeHours Best.CellCenterWS.Z
    | none => 0
  let AmbSummer : K :=
    match Sub.Settings with
    | some S => S.GetAmbientCelsiusAt false TimeHours Best.CellCenterWS.Z
    | none => 0
  FMath.Lerp AmbWinter AmbSummer (SeasonAlpha01 E Best.QueryTimeUTC.DayOfYear)

/-- The desired ambient `DesiredAmbientC` (lines 447-462). -/
def QueryDesiredAmbientC (E : Engine K) (Sub : UThermoForgeSubsystem K)
    (Best : FThermoForgeGridHit K) : K :=
  let S := Sub.Settings
  let TimeHours := QueryTimeHours Best.QueryTimeUTC
  let Alpha := SeasonAlpha01 E Best.QueryTimeUTC.DayOfYear
  let WinterAvg : K := match S with | some S => S.WinterAverageC | none => 5
  let SummerAvg : K := match S with | some S => S.SummerAverageC | none => 28
  let WinterDelta : K := match S with | some S => S.WinterDayNightDeltaC | none => 8
  let SummerDelta : K := match S with | some S => S.SummerDayNightDeltaC | none => 10
  let AvgC := FMath.Lerp WinterAvg SummerAvg Alpha
  let DeltaC := FMath.Lerp WinterDelta SummerDelta Alpha
  let Phase := (TimeHours - 12) / 24
  let CosWave := E.Cos (2 * E.PI * Phase)
  let DesiredAmbientSeaC := AvgC + 1 / 2 * DeltaC * CosWave
  match S with
  | some S => S.AdjustForAltitude DesiredAmbientSeaC Best.CellCenterWS.Z
  | none => DesiredAmbientSeaC

/-- `UThermoForgeSubsystem::QueryNearestBakedGridPoint` (lines 366-472). -/
def QueryNearestBakedGridPoint (E : Engine K) (Sub : UThermoForgeSubsystem K)
    (WorldLocation : FVector K) (QueryTimeUTC : FDateTime K) : FThermoForgeGridHit K :=
  let Best := QuerySelect E Sub WorldLocation QueryTimeUTC
  if Best.bFound then
    let BaselineTotalC := QueryBaselineTotalC E Sub Best
    let BaselineAmbientC := QueryBaselineAmbientC E Sub Best
    let DesiredAmbientC := QueryDesiredAmbientC E Sub Best
    let AmbientDelta := DesiredAmbientC - BaselineAmbientC
    { Best with CurrentTempC := BaselineTotalC + AmbientDelta }
  else Best

/-! ## Field baker (`ThermoForgeSubsystem.cpp`, lines 159-307 and 543-593) -/

/-- The table `base` of hemisphere directions (lines 168-172). -/
def HemiBase : List (FVector K) :=
  [ ⟨0, 0, 1⟩, ⟨1 / 2, 0, 866 / 1000⟩, ⟨-(1 / 2), 0, 866 / 1000⟩,
    ⟨0, 1 / 2, 866 / 1000⟩, ⟨0, -(1 / 2), 866 / 1000⟩,
    ⟨707 / 1000, 707 / 1000, 0⟩, ⟨-(707 / 1000), 707 / 1000, 0⟩,
    ⟨707 / 1000, -(707 / 1000), 0⟩, ⟨-(707 / 1000), -(707 / 1000), 0⟩,
    ⟨923 / 1000, 0, 382 / 1000⟩, ⟨-(923 / 1000), 0, 382 / 1000⟩,
    ⟨0, 923 / 1000, 382 / 1000⟩ ]

/-- The array `HemiDirs` (lines 166-175): the table, each entry normalised. -/
def HemiDirs (E : Engine K) : List (FVector K) :=
  HemiBase.map (FVector.Normalize E)

/-- The lambda `FloorDiv0` (line 211): the floor of the quotient, returned as
`int32`. -/
def FloorDiv0 (X Step : K) : Int := wrapInt32 (FMath.FloorToInt (X / Step))

/-- The lambda `CeilDiv0` (line 212): the ceiling of the quotient, returned as
`int32`. -/
def CeilDiv0 (X Step : K) : Int := wrapInt32 (FMath.CeilToInt (X / Step))

/-- The box `GridBox` (lines 194-208): the eight corners of the world bounds,
taken into grid space through the inverse frame. -/
def BakeGridBox (V : AThermoForgeVolume K) : FBox K :=
  let Frame := V.GridFrame
  let InvFrame := Frame.Inverse
  let Bounds := V.WorldBounds
  let Corners : List (FVector K) :=
    [ ⟨Bounds.Min.X, Bounds.Min.Y, Bounds.Min.Z⟩,
      ⟨Bounds.Min.X, Bounds.Min.Y, Bounds.Max.Z⟩,
      ⟨Bounds.Min.X, Bounds.Max.Y, Bounds.Min.Z⟩,
      ⟨Bounds.Min.X, Bounds.Max.Y, Bounds.Max.Z⟩,
      ⟨Bounds.Max.X, Bounds.Min.Y, Bounds.Min.Z⟩,
      ⟨Bounds.Max.X, Bounds.Min.Y, Bounds.Max.Z⟩,
      ⟨Bounds.Max.X, Bounds.Max.Y, Bounds.Min.Z⟩,
      ⟨Bounds.Max.X, Bounds.Max.Y, Bounds.Max.Z⟩ ]
  Corners.foldl (fun GridBox c => GridBox.addPoint (InvFrame.TransformPosition c)) FBox.ForceInit

/-- The index range of a volume in grid space (lines 214-226): the first
indices `ix0, iy0, iz0`, the last indices `ix1, iy1, iz1` and `Dim`. -/
structure BakeRange where
  ix0 : Int
  iy0 : Int
  iz0 : Int
  ix1 : Int
  iy1 : Int
  iz1 : Int
  Dim : FIntVector

/-- The index range computed for a volume (lines 214-226), in `int32`. -/
def BakeIndexRange (V : AThermoForgeVolume K) : BakeRange :=
  let GridBox := BakeGridBox V
  let Cell := V.EffectiveCellSize
  let ix0 := FloorDiv0 GridBox.Min.X Cell
  let iy0 := FloorDiv0 GridBox.Min.Y Cell
  let iz0 := FloorDiv0 GridBox.Min.Z Cell
  let ix1 := wrapInt32 (CeilDiv0 GridBox.Max.X Cell - 1)
  let iy1 := wrapInt32 (CeilDiv0 GridBox.Max.Y Cell - 1)
  let iz1 := wrapInt32 (CeilDiv0 GridBox.Max.Z Cell - 1)
  { ix0 := ix0, iy0 := iy0, iz0 := iz0, ix1 := ix1, iy1 := iy1, iz1 := iz1,
    Dim := ⟨FMath.Max 0 (wrapInt32 (wrapInt32 (ix1 - ix0) + 1)),
            FMath.Max 0 (wrapInt32 (wrapInt32 (iy1 - iy0) + 1)),
            FMath.Max 0 (wrapInt32 (wrapInt32 (iz1 - iz0) + 1))⟩ }

/-- The cell count `N = Nx * Ny * Nz` in `int32` (line 229). -/
def BakeCellCount (Dim : FIntVector) : Int :=
  wrapInt32 (wrapInt32 (Dim.X * Dim.Y) * Dim.Z)

/-- The lambda `Index` (line 235) in `int32`: `(z * Ny + y) * Nx + x`. -/
def Index (Nx Ny : Int) (x y z : Int) : Int :=
  wrapInt32 (wrapInt32 (wrapInt32 (wrapInt32 (z * Ny) + y) * Nx) + x)

/-- The lambda `Center` (lines 238-246): the world-space centre of a cell; the
sums `ix0 + x`, `iy0 + y`, `iz0 + z` are `int32`. -/
def Center (V : AThermoForgeVolume K) (R : BakeRange) (x y z : Int) : FVector K :=
  let Cell := V.EffectiveCellSize
  let CenterLS : FVector K :=
    ⟨(((wrapInt32 (R.ix0 + x) : Int) : K) + 1 / 2) * Cell,
     (((wrapInt32 (R.iy0 + y) : Int) : K) + 1 / 2) * Cell,
     (((wrapInt32 (R.iz0 + z) : Int) : K) + 1 / 2) * Cell⟩
  V.GridFrame.TransformPosition CenterLS

/-- The sky openness of a cell (lines 262-266). -/
def BakeSkyOpenness (E : Engine K) (Sub : UThermoForgeSubsystem K) (P : FVector K) : K :=
  let RayLen : K := 100000
  let openness := (HemiDirs E).foldl (fun o d => o + TraceAmbientRay01 E Sub P d RayLen) 0
  let openness := openness / ((HemiDirs E).length : K)
  FMath.Clamp openness 0 1

/-- The six axis neighbours of a cell in the order of the arrays `nx`, `ny`,
`nz` (lines 271-273). -/
def BakeNeighbors (x y z : Int) : List (Int × Int × Int) :=
  [(x - 1, y, z), (x + 1, y, z), (x, y - 1, z), (x, y + 1, z), (x, y, z - 1), (x, y, z + 1)]

/-- The neighbour loop (lines 270-284): the pair `(sumPerm, cnt)` after it. -/
def BakeWallLoop (E : Engine K) (Sub : UThermoForgeSubsystem K) (V : AThermoForgeVolume K)
    (R : BakeRange) (x y z : Int) : K × Int :=
  let Nx := R.Dim.X
  let Ny := R.Dim.Y
  let Nz := R.Dim.Z
  let Cell := V.EffectiveCellSize
  let P := Center V R x y z
  (BakeNeighbors x y z).foldl
    (fun (acc : K × Int) (n : Int × Int × Int) =>
      let xx := n.1
      let yy := n.2.1
      let zz := n.2.2
      if xx < 0 ∨ yy < 0 ∨ zz < 0 ∨ xx ≥ Nx ∨ yy ≥ Ny ∨ zz ≥ Nz then acc
      else
        let Q := Center V R xx yy zz
        let perm := OcclusionBetween E Sub P Q Cell
        (acc.1 + FMath.Clamp perm 0 1, acc.2 + 1))
    (0, 0)

/-- The wall permeability `wallPerm` of a cell (lines 270-285). -/
def BakeWallPerm (E : Engine K) (Sub : UThermoForgeSubsystem K) (V : AThermoForgeVolume K)
    (R : BakeRange) (x y z : Int) : K :=
  let acc := BakeWallLoop E Sub V R x y z
  let sumPerm := acc.1
  let cnt := acc.2
  if cnt > 0 then sumPerm / (cnt : K) else 1

/-- The three arrays `Sky`, `Wall`, `Indoor` of a bake. -/
structure BakeArrays (K : Type) where
  Sky : List K
  Wall : List K
  Indoor : List K

/-- The body of the cell loop (lines 258-289) for the cell `(x, y, z)`. -/
def BakeCellStep (E : Engine K) (Sub : UThermoForgeSubsystem K) (V : AThermoForgeVolume K)
    (R : BakeRange) (A : BakeArrays K) (x y z : Int) : BakeArrays K :=
  let idx := Index R.Dim.X R.Dim.Y x y z
  let P := Center V R x y z
  let Sky := A.Sky.set idx.toNat (BakeSkyOpenness E Sub P)
  let Wall := A.Wall.set idx.toNat (BakeWallPerm E Sub V R x y z)
  let Indoor := A.Indoor.set idx.toNat
    ((1 - Sky.getD idx.toNat 0) * (1 - Wall.getD idx.toNat 0))
  { Sky := Sky, Wall := Wall, Indoor := Indoor }

/-- The cell loop (lines 248-290): three zeroed arrays of `N` entries, then the
loops over `z`, `y`, `x` in that nesting. -/
def BakeCells (E : Engine K) (Sub : UThermoForgeSubsystem K) (V : AThermoForgeVolume K)
    (R : BakeRange) : BakeArrays K :=
  let N := BakeCellCount R.Dim
  let A0 : BakeArrays K :=
    { Sky := List.replicate N.toNat 0, Wall := List.replicate N.toNat 0,
      Indoor := List.replicate N.toNat 0 }
  (List.range R.Dim.Z.toNat).foldl
    (fun A (z : Nat) => (List.range R.Dim.Y.toNat).foldl
      (fun A (y : Nat) => (List.range R.Dim.X.toNat).foldl
        (fun A (x : Nat) => BakeCellStep E Sub V R A (x : Int) (y : Int) (z : Int)) A) A) A0

/-- The cells `(x, y, z)` in the order in which the loops over `z`, `y`, `x`
(lines 254-256) visit them. -/
def BakeCellOrder (Dim : FIntVector) : List (Int × Int × Int) :=
  (List.range Dim.Z.toNat).flatMap
    (fun (z : Nat) => (List.range Dim.Y.toNat).flatMap
      (fun (y : Nat) => (List.range Dim.X.toNat).map
        (fun (x : Nat) => ((x : Int), (y : Int), (z : Int)))))

/-- The long package name of the field asset of a volume (line 550). -/
def FieldPackageName (VolName : String) : String :=
  "/Game/ThermoForge/Bakes/" ++ VolName ++ "_Field"

/-- `UThermoForgeSubsystem::CreateAndSaveFieldAsset` (lines 543-593) for a
non-null volume.  The object `Saved` is the asset found under the package name, or
a new one; either way all seven members are assigned (lines 565-571), so the
loaded asset under that name is the record of the arguments.  `SavePackage` is the
result of `UPackage::SavePackage` for a package name and the object to save.  The
result is the table of loaded assets after the call and the returned pointer. -/
def CreateAndSaveFieldAsset (SavePackage : String → UThermoForgeFieldAsset K → Bool)
    (Assets : String → Option (UThermoForgeFieldAsset K)) (Volume : AThermoForgeVolume K)
    (Dim : FIntVector) (Cell : K) (FieldOriginWS : FVector K) (GridRotation : FRotator K)
    (SkyView01 WallPerm01 Indoor01 : List K) :
    (String → Option (UThermoForgeFieldAsset K)) × Option String :=
  let PackageName := FieldPackageName Volume.Name
  let Saved : UThermoForgeFieldAsset K :=
    { Dim := Dim, CellSizeCm := Cell, OriginWS := FieldOriginWS, GridRotation := GridRotation,
      SkyView01 := SkyView01, WallPermeability01 := WallPerm01, Indoorness01 := Indoor01 }
  let Assets1 := fun name => if name = PackageName then some Saved else Assets name
  let bOk := SavePackage PackageName Saved
  if !bOk then (Assets1, none) else (Assets1, some PackageName)

/-- One iteration of the loop over the volumes in `KickstartSamplingFromVolumes`
(lines 185-304) in an editor build, with world `W` and settings present: the
volume and the table of loaded assets after the iteration. -/
def BakeVolume (E : Engine K) (Sub : UThermoForgeSubsystem K)
    (SavePackage : String → UThermoForgeFieldAsset K → Bool)
    (Assets : String → Option (UThermoForgeFieldAsset K)) (V : AThermoForgeVolume K) :
    AThermoForgeVolume K × (String → Option (UThermoForgeFieldAsset K)) :=
  let Frame := V.GridFrame
  let Cell := V.EffectiveCellSize
  let R := BakeIndexRange V
  let Dim := R.Dim
  let N := BakeCellCount Dim
  if N ≤ 0 then (V, Assets)
  else
    let FieldOriginWS := Frame.TransformPosition
      ⟨(R.ix0 : K) * Cell, (R.iy0 : K) * Cell, (R.iz0 : K) * Cell⟩
    let A := BakeCells E Sub V R
    match CreateAndSaveFieldAsset SavePackage Assets V Dim Cell FieldOriginWS
        (E.Rotator Frame.Rotation) A.Sky A.Wall A.Indoor with
    | (Assets1, some Saved) => ({ V with BakedField := some Saved }, Assets1)
    | (Assets1, none) => (V, Assets1)

/-- `UThermoForgeSubsystem::KickstartSamplingFromVolumes` (lines 159-307) in an
editor build: the state after the bake. -/
def KickstartSamplingFromVolumes (E : Engine K) (Sub : UThermoForgeSubsystem K)
    (SavePackage : String → UThermoForgeFieldAsset K → Bool) : UThermoForgeSubsystem K :=
  match Sub.World, Sub.Settings with
  | some W, some _ =>
    let st := W.Volumes.foldl
      (fun (st : List (AThermoForgeVolume K) × (String → Option (UThermoForgeFieldAsset K))) V =>
        let r := BakeVolume E Sub SavePackage st.2 V
        (st.1 ++ [r.1], r.2))
      ([], Sub.Assets)
    { Sub with World := some { W with Volumes := st.1 }, Assets := st.2 }
  | _, _ => Sub

/-! ## Source registry (`ThermoForgeSubsystem.cpp`, lines 36-77 and 625-642) -/

/-- `UThermoForgeSubsystem::CompactSources` (lines 625-642): drop the weak pointers
that no longer resolve and those whose component has no world. -/
def CompactSources (Sub : UThermoForgeSubsystem K) : UThermoForgeSubsystem K :=
  { Sub with
    SourceSet := Sub.SourceSet.filter
      (fun W =>
        match Sub.SourceObjects W with
        | none => false
        | some S => S.HasWorld) }

/-- `UThermoForgeSubsystem::RegisterSource` (lines 42-48) on the registry; the
pointer is `none` when null, `IsValid` holds when it resolves to a live component,
`TSet::Add` keeps one entry per pointer.  The broadcast of `OnSourcesChanged` is not
part of the state. -/
def RegisterSource (Sub : UThermoForgeSubsystem K) (Source : Option Nat) :
    UThermoForgeSubsystem K :=
  match Source with
  | none => Sub
  | some W =>
    if (Sub.SourceObjects W).isNone then Sub
    else
      CompactSources
        { Sub with SourceSet := if W ∈ Sub.SourceSet then Sub.SourceSet else Sub.SourceSet ++ [W] }

/-- `UThermoForgeSubsystem::UnregisterSource` (lines 50-56) on the registry. -/
def UnregisterSource (Sub : UThermoForgeSubsystem K) (Source : Option Nat) :
    UThermoForgeSubsystem K :=
  match Source with
  | none => Sub
  | some W => CompactSources { Sub with SourceSet := Sub.SourceSet.filter (fun W2 => W2 ≠ W) }

/-- `UThermoForgeSubsystem::GetSourceCount` (lines 63-69). -/
def GetSourceCount (Sub : UThermoForgeSubsystem K) : Int :=
  Sub.SourceSet.foldl
    (fun Count W => if (Sub.SourceObjects W).isSome then Count + 1 else Count) 0

/-- `UThermoForgeSubsystem::GetAllSources` (lines 71-77): the weak pointers of the
registry that resolve, in iteration order. -/
def GetAllSources (Sub : UThermoForgeSubsystem K) : List Nat :=
  Sub.SourceSet.foldl
    (fun OutSources W => if (Sub.SourceObjects W).isSome then OutSources ++ [W] else OutSources)
    []

/-- `UThermoForgeSubsystem::Deinitialize` (lines 36-40). -/
def Deinitialize (Sub : UThermoForgeSubsystem K) : UThermoForgeSubsystem K :=
  { Sub with SourceSet := [] }

end Model

/-! ## Concrete inputs -/

/-- An engine over the rationals for concrete evaluations.  The values the
evaluations below depend on are `Quaternion` at the zero rotator (the identity
quaternion), `Rotator` at the identity quaternion (the zero rotator) and `Cos`
at 0 (which is 1). -/
def exampleEngine : Engine ℚ :=
  { PI := 3, Cos := fun _ => 1, Exp := fun _ => 1, Sqrt := fun x => x,
    DoubleMax := 1000000000000, Quaternion := fun _ => FQuat.Identity,
    Rotator := fun _ => ⟨0, 0, 0⟩ }

/-- A baked field of `Dx * Dy * Dz` cells of size 100 with the given origin,
unrotated, with the given sky-openness and wall-permeability arrays. -/
def exampleField (Origin : FVector ℚ) (Dx Dy Dz : Int) (Sky Wall : List ℚ) :
    UThermoForgeFieldAsset ℚ :=
  { Dim := ⟨Dx, Dy, Dz⟩, CellSizeCm := 100, OriginWS := Origin, GridRotation := ⟨0, 0, 0⟩,
    SkyView01 := Sky, WallPermeability01 := Wall, Indoorness01 := [] }

/-- A volume with the given name, unbounded flag, box extent and position,
referencing the field asset of its own name. -/
def exampleVolume (Name : String) (bUnbounded : Bool) (Extent Pos : FVector ℚ) :
    AThermoForgeVolume ℚ :=
  { Name := Name, bUnbounded := bUnbounded, BoxExtent := Extent,
    ActorTransform := ⟨FQuat.Identity, Pos, ⟨1, 1, 1⟩⟩,
    BakedField := some (FieldPackageName Name),
    GridFrame := FTransform.Identity,
    WorldBounds := ⟨FVector.sub Pos Extent, FVector.add Pos Extent, true⟩,
    EffectiveCellSize := 100, EffectiveGridOrigin := ⟨0, 0, 0⟩ }

/-- Settings with a unit solar gain, clear weather, a zero climate curve and no
altitude adjustment. -/
def exampleSettings : UThermoForgeProjectSettings ℚ :=
  { bTraceComplex := false, TraceChannel := 0, bUsePhysicsMaterialForDensity := true,
    bTreatMissingPhysMatAsAir := true, AirDensityKgM3 := 1, UnknownHitDensityKgM3 := 1000,
    FaceThicknessFactor := 1, AttenuationCoefficient := 1, DefaultCellSizeCm := 100,
    SolarGainScaleC := 1, PreviewWeatherAlpha := 0, WinterAverageC := 5, SummerAverageC := 28,
    WinterDayNightDeltaC := 8, SummerDayNightDeltaC := 10,
    GetAmbientCelsiusAt := fun _ _ _ => 0, AdjustForAltitude := fun t _ => t }

/-- A state with one unbounded volume `A` that holds a field of 2 x 1 x 1 cells
of size 100 at the world origin (sky openness 1/4 in cell 0 and 3/4 in cell 1),
no sources, and a world in which no ray hits anything. -/
def exampleOneVolume : UThermoForgeSubsystem ℚ :=
  { World := some
      { Volumes := [exampleVolume "A" true ⟨100, 50, 50⟩ ⟨100, 50, 50⟩],
        LineTraceSingleByChannel := fun _ _ _ _ => none },
    Settings := some exampleSettings,
    SourceSet := [],
    SourceObjects := fun _ => none,
    Assets := fun name =>
      if name = FieldPackageName "A" then some (exampleField ⟨0, 0, 0⟩ 2 1 1 [1 / 4, 3 / 4] [1, 1])
      else none }

/-- The volume `A` of `exampleOneVolume`. -/
def exampleVolumeA : AThermoForgeVolume ℚ :=
  exampleVolume "A" true ⟨100, 50, 50⟩ ⟨100, 50, 50⟩

/-- The bounded volume `A` of `exampleTwoVolumes`: the box [0,200] x [0,100] x [0,100]. -/
def exampleBoundedA : AThermoForgeVolume ℚ :=
  exampleVolume "A" false ⟨100, 50, 50⟩ ⟨100, 50, 50⟩

/-- The bounded volume `B` of `exampleTwoVolumes`: a box of half-extent 10 around
(1000, 0, 0). -/
def exampleBoundedB : AThermoForgeVolume ℚ :=
  exampleVolume "B" false ⟨10, 10, 10⟩ ⟨1000, 0, 0⟩

/-- A state with two bounded volumes.  `A` holds 2 x 1 x 1 cells at the origin
(cell centres (50, 50, 50) and (150, 50, 50)); `B` holds one cell whose centre is
(10, 50, 50), outside the box of `B`.  No sources, no ray hits. -/
def exampleTwoVolumes : UThermoForgeSubsystem ℚ :=
  { World := some
      { Volumes := [exampleBoundedA, exampleBoundedB],
        LineTraceSingleByChannel := fun _ _ _ _ => none },
    Settings := some exampleSettings,
    SourceSet := [],
    SourceObjects := fun _ => none,
    Assets := fun name =>
      if name = FieldPackageName "A" then
        some (exampleField ⟨0, 0, 0⟩ 2 1 1 [1 / 4, 3 / 4] [1, 1])
      else if name = FieldPackageName "B" then
        some (exampleField ⟨-40, 0, 0⟩ 1 1 1 [1 / 2] [1])
      else none }

/-- A query time: day 355 of the year, 12:00 UTC.  At this time both cosines of
the query are taken at 0 (`YearPos = 0` and `Phase = 0`), where the cosine is 1. -/
def exampleNoon : FDateTime ℚ := ⟨355, 43200⟩

/-- A state without any volume, with one enabled source at the origin whose
temperature delta is 2 everywhere; no ray hits. -/
def exampleNoField : UThermoForgeSubsystem ℚ :=
  { World := some { Volumes := [], LineTraceSingleByChannel := fun _ _ _ _ => none },
    Settings := some exampleSettings,
    SourceSet := [7],
    SourceObjects := fun k =>
      if k = 7 then
        some { bEnabled := true, SampleAt := fun _ => 2, GetOwnerLocationSafe := ⟨0, 0, 0⟩,
               HasWorld := true }
      else none,
    Assets := fun _ => none }

/-- A state whose world reports a hit on a material of density 2 for every ray;
no volumes, no sources. -/
def exampleAllHit : UThermoForgeSubsystem ℚ :=
  { World := some
      { Volumes := [],
        LineTraceSingleByChannel := fun _ _ _ _ =>
          some { PhysMaterial := some ⟨2⟩, Component := none } },
    Settings := some exampleSettings,
    SourceSet := [],
    SourceObjects := fun _ => none,
    Assets := fun _ => none }

/-- An engine over the rationals whose `Exp` is the crude rational stand-in
`x + 3 / 2` (the other members are those of `exampleEngine`); it makes the clamp of
`DensityToPermeability` visible on concrete inputs. -/
def exampleEngineLinearExp : Engine ℚ :=
  { exampleEngine with Exp := fun x => x + 3 / 2 }

/-- A bounded volume whose box [0,200] x [0,200] x [0,100] gives a grid of
2 x 2 x 1 cells of size 100. -/
def exampleWallVolume : AThermoForgeVolume ℚ :=
  exampleVolume "W" false ⟨100, 100, 50⟩ ⟨100, 100, 50⟩

/-- A state with `exampleWallVolume`, not yet baked, in a world where a ray between
two points of equal Y hits a material of density 2 and every other ray is free. -/
def exampleWalls : UThermoForgeSubsystem ℚ :=
  { World := some
      { Volumes := [{ exampleWallVolume with BakedField := none }],
        LineTraceSingleByChannel := fun A B _ _ =>
          if A.Y = B.Y then some { PhysMaterial := some ⟨2⟩, Component := none } else none },
    Settings := some exampleSettings,
    SourceSet := [],
    SourceObjects := fun _ => none,
    Assets := fun _ => none }

/-- The field of an earlier bake of `exampleWallVolume`: 2 x 2 x 1 cells, every
sky openness 1/2, every wall permeability 1/4, every indoor-ness 3/8. -/
def exampleOldField : UThermoForgeFieldAsset ℚ :=
  { Dim := ⟨2, 2, 1⟩, CellSizeCm := 100, OriginWS := ⟨0, 0, 0⟩, GridRotation := ⟨0, 0, 0⟩,
    SkyView01 := [1 / 2, 1 / 2, 1 / 2, 1 / 2],
    WallPermeability01 := [1 / 4, 1 / 4, 1 / 4, 1 / 4],
    Indoorness01 := [3 / 8, 3 / 8, 3 / 8, 3 / 8] }

/-- A state after an earlier bake: `exampleWallVolume` references the loaded asset
`exampleOldField` under its package name; the scene is now empty (no ray hits
anything), there are no sources. -/
def exampleRebake : UThermoForgeSubsystem ℚ :=
  { World := some
      { Volumes := [exampleWallVolume],
        LineTraceSingleByChannel := fun _ _ _ _ => none },
    Settings := some exampleSettings,
    SourceSet := [],
    SourceObjects := fun _ => none,
    Assets := fun name => if name = FieldPackageName "W" then some exampleOldField else none }

/-- A flat volume: its box has no extent along X (X from 100 to 100), so its grid
has dimension 0 on the X axis; it references no field. -/
def exampleFlatVolume : AThermoForgeVolume ℚ :=
  { exampleVolume "F" false ⟨0, 50, 50⟩ ⟨100, 50, 50⟩ with BakedField := none }

/-- A state with the flat volume followed by `exampleWallVolume`, neither baked, in
an empty scene (no ray hits anything); no sources, no loaded assets. -/
def exampleFlatThenWall : UThermoForgeSubsystem ℚ :=
  { World := some
      { Volumes := [exampleFlatVolume, { exampleWallVolume with BakedField := none }],
        LineTraceSingleByChannel := fun _ _ _ _ => none },
    Settings := some exampleSettings,
    SourceSet := [],
    SourceObjects := fun _ => none,
    Assets := fun _ => none }

/-- The hit of `ComputeNearestInVolume` in `exampleRebake` for the point
(150, 150, 50): the cell (1, 1, 0) of the 2 x 2 x 1 field, linear index 3. -/
def exampleHit : FThermoForgeGridHit ℚ :=
  { FThermoForgeGridHit.Default exampleEngine with
    bFound := true
    Volume := some exampleWallVolume
    GridIndex := ⟨1, 1, 0⟩
    LinearIndex := 3
    CellCenterWS := ⟨150, 150, 50⟩
    DistanceSq := 0
    CellSizeCm := 100 }

/-- A registry state with one entry, the weak pointer 7, whose component is alive
and enabled but no longer attached to a world; the pointer 9 resolves to a live,
world-attached component that was never registered.  No volumes, no ray hits. -/
def exampleDetached : UThermoForgeSubsystem ℚ :=
  { World := some { Volumes := [], LineTraceSingleByChannel := fun _ _ _ _ => none },
    Settings := some exampleSettings,
    SourceSet := [7],
    SourceObjects := fun k =>
      if k = 7 then
        some { bEnabled := true, SampleAt := fun _ => 2, GetOwnerLocationSafe := ⟨0, 0, 0⟩,
               HasWorld := false }
      else if k = 9 then
        some { bEnabled := true, SampleAt := fun _ => 1, GetOwnerLocationSafe := ⟨0, 0, 0⟩,
               HasWorld := true }
      else none,
    Assets := fun _ => none }

/-- An empty registry in which the weak pointer 7 resolves to a live,
world-attached component. -/
def exampleEmptyRegistry : UThermoForgeSubsystem ℚ :=
  { exampleNoField with SourceSet := [] }

/-- An engine over the rationals whose `Cos` is 1 at 0 and -1 elsewhere (the other
members are those of `exampleEngine`, so `PI` is 3): it agrees with the cosine at
the two arguments 0 and `-PI` at which the query at 00:00 and at 12:00 takes it,
and stays within [-1, 1]. -/
def exampleEngineTwoValueCos : Engine ℚ :=
  { exampleEngine with Cos := fun x => if x = 0 then 1 else -1 }

/-- A query time: day 172 of the year, 00:00 UTC. -/
def exampleMidnight : FDateTime ℚ := ⟨172, 0⟩

/-- A query time: day 172 of the year, 12:00 UTC. -/
def exampleMidday : FDateTime ℚ := ⟨172, 43200⟩

/-- A volume whose box [0, 429496729800] x [0, 100] x [0, 100] is 4294967298
cells of size 100 long on X, more than an `int32` holds. -/
def exampleHugeVolume : AThermoForgeVolume ℚ :=
  exampleVolume "H" false ⟨214748364900, 50, 50⟩ ⟨214748364900, 50, 50⟩

/-- A state with one unbounded volume `G` whose loaded field has the dimensions
65536 x 65536 x 1 (cell size 100, origin at the world origin) and empty arrays: the
product of the dimensions, 2^32, is more than an `int32` holds.  No sources, no ray
hits. -/
def exampleOverflow : UThermoForgeSubsystem ℚ :=
  { World := some
      { Volumes := [exampleVolume "G" true ⟨100, 100, 50⟩ ⟨100, 100, 50⟩],
        LineTraceSingleByChannel := fun _ _ _ _ => none },
    Settings := some exampleSettings,
    SourceSet := [],
    SourceObjects := fun _ => none,
    Assets := fun name =>
      if name = FieldPackageName "G" then some (exampleField ⟨0, 0, 0⟩ 65536 65536 1 [] [])
      else none }

/-- The field the bake of `exampleWallVolume` writes in the empty scene of
`exampleRebake`: 2 x 2 x 1 cells, every cell with sky openness 1, wall permeability
1 and indoorness 0. -/
def exampleNewField : UThermoForgeFieldAsset ℚ :=
  { exampleOldField with
    SkyView01 := [1, 1, 1, 1], WallPermeability01 := [1, 1, 1, 1],
    Indoorness01 := [0, 0, 0, 0] }

/-- The state `exampleRebake` after its bake with a successful save. -/
def exampleBaked : UThermoForgeSubsystem ℚ :=
  KickstartSamplingFromVolumes exampleEngine exampleRebake (fun _ _ => true)

/-! ## Definitions that follow the wording of the claims -/

section ClaimWords

variable {K : Type} [LinearOrderedField K] [FloorRing K]

/-- A volume is usable when it has a baked field with all dimensions > 0 and
cell size > 0 (wording of the containment-policy claim). -/
def UsableVolume (Sub : UThermoForgeSubsystem K) (Vol : AThermoForgeVolume K) : Bool :=
  match Vol.BakedField.bind Sub.Assets with
  | none => false
  | some F => decide (0 < F.Dim.X ∧ 0 < F.Dim.Y ∧ 0 < F.Dim.Z ∧ 0 < F.CellSizeCm)

/-- The volumes a query can see: those of the world, none without a world. -/
def WorldVolumes (Sub : UThermoForgeSubsystem K) : List (AThermoForgeVolume K) :=
  match Sub.World with
  | none => []
  | some W => W.Volumes

/-- The enabled sources of the registry: the live components the weak pointers of
`SourceSet` resolve to whose enabled flag is set, in iteration order. -/
def EnabledSources (Sub : UThermoForgeSubsystem K) : List (UThermoForgeSourceComponent K) :=
  Sub.SourceSet.filterMap
    (fun W =>
      match Sub.SourceObjects W with
      | none => none
      | some Sc => if Sc.bEnabled then some Sc else none)

/-- The source term in the wording of the composition claims: the sum over the
enabled sources of delta at the position * line-of-sight occlusion * wall
permeability. -/
def SourceTerm (E : Engine K) (Sub : UThermoForgeSubsystem K)
    (S : UThermoForgeProjectSettings K) (WorldPos : FVector K) (WallPerm : K) : K :=
  ((EnabledSources Sub).map
    (fun Sc => Sc.SampleAt WorldPos
      * OcclusionBetween E Sub WorldPos Sc.GetOwnerLocationSafe S.DefaultCellSizeCm
      * WallPerm)).sum

/-- The axis neighbours of a cell that lie inside the grid bounds (wording of the
wall-permeability claim). -/
def InBoundsNeighbors (Dim : FIntVector) (x y z : Int) : List (Int × Int × Int) :=
  (BakeNeighbors x y z).filter
    (fun n => decide ((0 ≤ n.1 ∧ n.1 < Dim.X) ∧ (0 ≤ n.2.1 ∧ n.2.1 < Dim.Y)
      ∧ (0 ≤ n.2.2 ∧ n.2.2 < Dim.Z)))

/-- The between-points permeabilities, each clamped to [0, 1], from the centre of a
cell to the centres of its in-bounds axis neighbours (wording of the
wall-permeability claim). -/
def NeighborPermeabilities (E : Engine K) (Sub : UThermoForgeSubsystem K)
    (V : AThermoForgeVolume K) (R : BakeRange) (x y z : Int) : List K :=
  (InBoundsNeighbors R.Dim x y z).map
    (fun n => FMath.Clamp
      (OcclusionBetween E Sub (Center V R x y z) (Center V R n.1 n.2.1 n.2.2)
        V.EffectiveCellSize) 0 1)

/-- A weak pointer resolves to a live component that is attached to a world
(wording of the registry claims). -/
def LiveAttached (Sub : UThermoForgeSubsystem K) (W : Nat) : Bool :=
  match Sub.SourceObjects W with
  | none => false
  | some S => S.HasWorld

/-- An integer is an `int32` value. -/
@[reducible] def InInt32 (n : Int) : Prop := -2147483648 ≤ n ∧ n ≤ 2147483647

/-- No `int32` value of the index range of one axis overflows (lines 211-226): the
floor of `min / cell`, the ceiling of `max / cell`, the last index (that ceiling
minus 1), the difference of the last and the first index, and that difference
plus 1 are `int32` values. -/
@[reducible] def AxisInInt32 (mn mx Cell : K) : Prop :=
  InInt32 (Int.floor (mn / Cell)) ∧ InInt32 (Int.ceil (mx / Cell)) ∧
  InInt32 (Int.ceil (mx / Cell) - 1) ∧
  InInt32 (Int.ceil (mx / Cell) - 1 - Int.floor (mn / Cell)) ∧
  InInt32 (Int.ceil (mx / Cell) - 1 - Int.floor (mn / Cell) + 1)

end ClaimWords

/-! ## Theorems -/

section Proofs

variable {K : Type} [LinearOrderedField K] [FloorRing K]

omit [FloorRing K] in
/-- A loop that keeps the first candidate of strictly smallest key: the state
is not-found exactly when no element has a candidate, and a found state is
built from a candidate of least key. -/
theorem foldl_keep_least {α β σ : Type} (g : α → Option β) (key : β → K)
    (found : σ → Bool) (skey : σ → K) (mk : β → σ) (step : σ → α → σ)
    (hmkf : ∀ h, found (mk h) = true) (hmkk : ∀ h, skey (mk h) = key h)
    (hnone : ∀ st a, g a = none → step st a = st)
    (hsome : ∀ st a h, g a = some h →
      step st a = if found st = false ∨ key h < skey st then mk h else st)
    (s0 : σ) (h0 : found s0 = false) (l : List α) :
    (found (l.foldl step s0) = false → l.foldl step s0 = s0 ∧ ∀ a ∈ l, g a = none) ∧
    (found (l.foldl step s0) = true → ∃ a ∈ l, ∃ h, g a = some h ∧ l.foldl step s0 = mk h ∧
      ∀ a2 ∈ l, ∀ h2, g a2 = some h2 → key h ≤ key h2) := by
  induction l using List.reverseRecOn with
  | nil => simp [h0]
  | append_singleton l a ih =>
    rw [List.foldl_append, List.foldl_cons, List.foldl_nil]
    obtain ⟨ihF, ihT⟩ := ih
    cases hga : g a with
    | none =>
      rw [hnone _ _ hga]
      constructor
      · intro hf
        obtain ⟨e, hall⟩ := ihF hf
        refine ⟨e, ?_⟩
        intro a2 ha2
        rcases List.mem_append.1 ha2 with h | h
        · exact hall a2 h
        · rw [List.mem_singleton.1 h]; exact hga
      · intro hf
        obtain ⟨a1, ha1, h1, hg1, e1, hmin⟩ := ihT hf
        refine ⟨a1, List.mem_append_left _ ha1, h1, hg1, e1, ?_⟩
        intro a2 ha2 h2 hg2
        rcases List.mem_append.1 ha2 with h | h
        · exact hmin a2 h h2 hg2
        · rw [List.mem_singleton.1 h, hga] at hg2; cases hg2
    | some h =>
      rw [hsome _ _ h hga]
      cases hfr : found (l.foldl step s0) with
      | false =>
        obtain ⟨_, hall⟩ := ihF hfr
        simp only [true_or, if_true]
        constructor
        · intro hf; rw [hmkf] at hf; cases hf
        · intro _
          refine ⟨a, by simp, h, hga, rfl, ?_⟩
          intro a2 ha2 h2 hg2
          rcases List.mem_append.1 ha2 with hm | hm
          · rw [hall a2 hm] at hg2; cases hg2
          · rw [List.mem_singleton.1 hm, hga] at hg2
            cases hg2; exact le_refl _
      | true =>
        obtain ⟨a1, ha1, h1, hg1, e1, hmin⟩ := ihT hfr
        by_cases hlt : key h < skey (l.foldl step s0)
        · simp only [hlt, or_true, if_true]
          constructor
          · intro hf; rw [hmkf] at hf; cases hf
          · intro _
            refine ⟨a, by simp, h, hga, rfl, ?_⟩
            intro a2 ha2 h2 hg2
            rcases List.mem_append.1 ha2 with hm | hm
            · have := hmin a2 hm h2 hg2
              rw [e1, hmkk] at hlt
              exact le_trans (le_of_lt hlt) this
            · rw [List.mem_singleton.1 hm, hga] at hg2
              cases hg2; exact le_refl _
        · have hcond : ¬ (true = false ∨ key h < skey (l.foldl step s0)) := by
            simp [hlt]
          rw [if_neg hcond]
          constructor
          · intro hf; rw [hfr] at hf; cases hf
          · intro _
            refine ⟨a1, List.mem_append_left _ ha1, h1, hg1, e1, ?_⟩
            intro a2 ha2 h2 hg2
            rcases List.mem_append.1 ha2 with hm | hm
            · exact hmin a2 hm h2 hg2
            · rw [List.mem_singleton.1 hm, hga] at hg2
              cases hg2
              rw [e1, hmkk] at hlt
              exact not_lt.1 hlt

/-! ### Nearest-cell lookup -/

/-- `ComputeNearestInVolume` succeeds exactly on the usable volumes. -/
theorem ComputeNearestInVolume_isSome (E : Engine K) (Sub : UThermoForgeSubsystem K)
    (Vol : AThermoForgeVolume K) (p : FVector K) :
    (ComputeNearestInVolume E Sub Vol p).isSome = UsableVolume Sub Vol := by
  unfold ComputeNearestInVolume UsableVolume
  cases hF : Vol.BakedField.bind Sub.Assets with
  | none => simp
  | some F =>
    simp only
    by_cases hD : F.Dim.X ≤ 0 ∨ F.Dim.Y ≤ 0 ∨ F.Dim.Z ≤ 0
    · rw [if_pos hD]
      simp only [Option.isSome_none]
      symm
      rw [decide_eq_false_iff_not]
      rintro ⟨h1, h2, h3, _⟩
      rcases hD with h | h | h <;> omega
    · rw [if_neg hD]
      by_cases hC : F.CellSizeCm ≤ 0
      · rw [if_pos hC]
        simp only [Option.isSome_none]
        symm
        rw [decide_eq_false_iff_not]
        rintro ⟨_, _, _, h4⟩
        exact absurd h4 (not_lt.2 hC)
      · rw [if_neg hC]
        simp only [Option.isSome_some]
        symm
        rw [decide_eq_true_iff]
        push_neg at hD hC
        exact ⟨hD.1, hD.2.1, hD.2.2, hC⟩

/-- A hit of `ComputeNearestInVolume` is found and names the volume it was
computed for. -/
theorem ComputeNearestInVolume_some (E : Engine K) (Sub : UThermoForgeSubsystem K)
    (Vol : AThermoForgeVolume K) (p : FVector K) (h : FThermoForgeGridHit K)
    (hc : ComputeNearestInVolume E Sub Vol p = some h) :
    h.bFound = true ∧ h.Volume = some Vol := by
  unfold ComputeNearestInVolume at hc
  cases hF : Vol.BakedField.bind Sub.Assets with
  | none => rw [hF] at hc; cases hc
  | some F =>
    rw [hF] at hc
    simp only at hc
    split_ifs at hc
    cases hc
    exact ⟨rfl, rfl⟩

/-- C1, the code at the failing input: in a field of 2 x 1 x 1 cells of size 100
at the origin, for the point (60, 50, 50) `ComputeNearestInVolume` returns the cell
(1, 0, 0), whose centre (150, 50, 50) is at squared distance 8100, although the
centre (50, 50, 50) of the cell (0, 0, 0) of the same field is at squared distance
100: the returned cell is not a nearest cell. -/
theorem C1_ComputeNearestInVolume_returns_farther_cell :
    (ComputeNearestInVolume exampleEngine exampleOneVolume exampleVolumeA ⟨60, 50, 50⟩).map
        (fun h => (h.GridIndex, h.CellCenterWS.X, h.CellCenterWS.Y, h.CellCenterWS.Z,
          h.DistanceSq))
      = some (⟨1, 0, 0⟩, 150, 50, 50, 8100)
    ∧ FVector.DistSquared
        (FieldCellCenterWS exampleEngine (exampleField ⟨0, 0, 0⟩ 2 1 1 [1 / 4, 3 / 4] [1, 1]) 0 0 0)
        ⟨60, 50, 50⟩ = 100 := by
  decide!

/-! ### Two-pass containment policy -/

/-- The first loop of the query is a keep-least loop over the candidates of the
containing volumes. -/
theorem QueryContainingStep_none (E : Engine K) (Sub : UThermoForgeSubsystem K)
    (p : FVector K) (t : FDateTime K) (st : FThermoForgeGridHit K × Bool)
    (V : AThermoForgeVolume K)
    (hg : (if VolumeContainsPoint V p = true then ComputeNearestInVolume E Sub V p else none)
      = none) :
    QueryContainingStep E Sub p t st V = st := by
  unfold QueryContainingStep
  by_cases hc : VolumeContainsPoint V p = true
  · rw [if_pos hc] at hg
    simp [hc, hg]
  · simp [hc]

/-- The first loop of the query on a volume with a candidate. -/
theorem QueryContainingStep_some (E : Engine K) (Sub : UThermoForgeSubsystem K)
    (p : FVector K) (t : FDateTime K) (st : FThermoForgeGridHit K × Bool)
    (V : AThermoForgeVolume K) (h : FThermoForgeGridHit K)
    (hg : (if VolumeContainsPoint V p = true then ComputeNearestInVolume E Sub V p else none)
      = some h) :
    QueryContainingStep E Sub p t st V =
      if st.2 = false ∨ h.DistanceSq < st.1.DistanceSq
      then (({ h with QueryTimeUTC := t, bFound := true } : FThermoForgeGridHit K), true)
      else st := by
  by_cases hc : VolumeContainsPoint V p = true
  · rw [if_pos hc] at hg
    have hb := (ComputeNearestInVolume_some E Sub V p h hg).1
    have hu : (V.BakedField.bind Sub.Assets).isNone = false := by
      have := ComputeNearestInVolume_isSome E Sub V p
      rw [hg] at this
      unfold UsableVolume at this
      cases hF : V.BakedField.bind Sub.Assets with
      | none => rw [hF] at this; simp at this
      | some F => rfl
    unfold QueryContainingStep
    simp only [hu, hc, hg, Bool.not_true, Bool.false_eq_true, if_false, Bool.not_eq_true']
    cases h
    simp only at hb
    subst hb
    rfl
  · rw [if_neg hc] at hg; cases hg

/-- The second loop of the query on a volume without a candidate. -/
theorem QueryAnyStep_none (E : Engine K) (Sub : UThermoForgeSubsystem K)
    (p : FVector K) (t : FDateTime K) (Best : FThermoForgeGridHit K)
    (V : AThermoForgeVolume K) (hg : ComputeNearestInVolume E Sub V p = none) :
    QueryAnyStep E Sub p t Best V = Best := by
  unfold QueryAnyStep
  simp [hg]

/-- The second loop of the query on a volume with a candidate. -/
theorem QueryAnyStep_some (E : Engine K) (Sub : UThermoForgeSubsystem K)
    (p : FVector K) (t : FDateTime K) (Best : FThermoForgeGridHit K)
    (V : AThermoForgeVolume K) (h : FThermoForgeGridHit K)
    (hg : ComputeNearestInVolume E Sub V p = some h) :
    QueryAnyStep E Sub p t Best V =
      if Best.bFound = false ∨ h.DistanceSq < Best.DistanceSq
      then ({ h with QueryTimeUTC := t, bFound := true } : FThermoForgeGridHit K)
      else Best := by
  have hb := (ComputeNearestInVolume_some E Sub V p h hg).1
  have hu : (V.BakedField.bind Sub.Assets).isNone = false := by
    have := ComputeNearestInVolume_isSome E Sub V p
    rw [hg] at this
    unfold UsableVolume at this
    cases hF : V.BakedField.bind Sub.Assets with
    | none => rw [hF] at this; simp at this
    | some F => rfl
  unfold QueryAnyStep
  simp only [hu, hg, Bool.false_eq_true, if_false, Bool.not_eq_true']
  cases h
  simp only at hb
  subst hb
  rfl

/-- A usable volume has a candidate hit. -/
theorem ComputeNearestInVolume_of_usable (E : Engine K) (Sub : UThermoForgeSubsystem K)
    (V : AThermoForgeVolume K) (p : FVector K) (hu : UsableVolume Sub V = true) :
    ∃ h, ComputeNearestInVolume E Sub V p = some h := by
  have := ComputeNearestInVolume_isSome E Sub V p
  rw [hu] at this
  exact Option.isSome_iff_exists.1 this

/-- A volume with a candidate hit is usable. -/
theorem usable_of_ComputeNearestInVolume (E : Engine K) (Sub : UThermoForgeSubsystem K)
    (V : AThermoForgeVolume K) (p : FVector K) (h : FThermoForgeGridHit K)
    (hc : ComputeNearestInVolume E Sub V p = some h) : UsableVolume Sub V = true := by
  have := ComputeNearestInVolume_isSome E Sub V p
  rw [hc] at this
  exact this.symm

/-- The selection of the query: the least candidate among the usable containing
volumes when there is one, else the least candidate among all usable volumes,
else the default-constructed hit. -/
theorem QuerySelect_spec (E : Engine K) (Sub : UThermoForgeSubsystem K)
    (p : FVector K) (t : FDateTime K) :
    ((∃ V ∈ WorldVolumes Sub, UsableVolume Sub V = true ∧ VolumeContainsPoint V p = true) →
      ∃ V ∈ WorldVolumes Sub, ∃ h, VolumeContainsPoint V p = true ∧
        ComputeNearestInVolume E Sub V p = some h ∧
        QuerySelect E Sub p t = { h with QueryTimeUTC := t, bFound := true } ∧
        ∀ V2 ∈ WorldVolumes Sub, VolumeContainsPoint V2 p = true →
          ∀ h2, ComputeNearestInVolume E Sub V2 p = some h2 → h.DistanceSq ≤ h2.DistanceSq) ∧
    ((¬ ∃ V ∈ WorldVolumes Sub, UsableVolume Sub V = true ∧ VolumeContainsPoint V p = true) →
      (∃ V ∈ WorldVolumes Sub, UsableVolume Sub V = true) →
      ∃ V ∈ WorldVolumes Sub, ∃ h, ComputeNearestInVolume E Sub V p = some h ∧
        QuerySelect E Sub p t = { h with QueryTimeUTC := t, bFound := true } ∧
        ∀ V2 ∈ WorldVolumes Sub,
          ∀ h2, ComputeNearestInVolume E Sub V2 p = some h2 → h.DistanceSq ≤ h2.DistanceSq) ∧
    ((∀ V ∈ WorldVolumes Sub, UsableVolume Sub V = false) →
      QuerySelect E Sub p t = FThermoForgeGridHit.Default E) := by
  unfold QuerySelect WorldVolumes
  cases hW : Sub.World with
  | none => simp
  | some W =>
    simp only
    have P1 := foldl_keep_least
      (fun V => if VolumeContainsPoint V p = true then ComputeNearestInVolume E Sub V p else none)
      (fun h => h.DistanceSq) (fun st : FThermoForgeGridHit K × Bool => st.2)
      (fun st => st.1.DistanceSq)
      (fun h => (({ h with QueryTimeUTC := t, bFound := true } : FThermoForgeGridHit K), true))
      (QueryContainingStep E Sub p t) (fun _ => rfl) (fun _ => rfl)
      (fun st a hg => QueryContainingStep_none E Sub p t st a hg)
      (fun st a h hg => QueryContainingStep_some E Sub p t st a h hg)
      (FThermoForgeGridHit.Default E, false) rfl W.Volumes
    have P2 := foldl_keep_least
      (fun V => ComputeNearestInVolume E Sub V p)
      (fun h => h.DistanceSq) (fun st : FThermoForgeGridHit K => st.bFound)
      (fun st => st.DistanceSq)
      (fun h => ({ h with QueryTimeUTC := t, bFound := true } : FThermoForgeGridHit K))
      (QueryAnyStep E Sub p t) (fun _ => rfl) (fun _ => rfl)
      (fun st a hg => QueryAnyStep_none E Sub p t st a hg)
      (fun st a h hg => QueryAnyStep_some E Sub p t st a h hg)
      (FThermoForgeGridHit.Default E) rfl W.Volumes
    simp only at P1 P2
    obtain ⟨P1F, P1T⟩ := P1
    obtain ⟨P2F, P2T⟩ := P2
    cases hst : (List.foldl (QueryContainingStep E Sub p t)
        (FThermoForgeGridHit.Default E, false) W.Volumes).2 with
    | true =>
      obtain ⟨V, hV, h, hg, he, hmin⟩ := P1T hst
      have hc : VolumeContainsPoint V p = true := by
        by_contra hc; rw [if_neg hc] at hg; cases hg
      rw [if_pos hc] at hg
      have hu := usable_of_ComputeNearestInVolume E Sub V p h hg
      simp only [Bool.not_true, Bool.false_eq_true, if_false]
      refine ⟨?_, ?_, ?_⟩
      · intro _
        refine ⟨V, hV, h, hc, hg, by rw [he], ?_⟩
        intro V2 hV2 hc2 h2 hg2
        exact hmin V2 hV2 h2 (by rw [if_pos hc2]; exact hg2)
      · intro hno
        exact absurd ⟨V, hV, hu, hc⟩ hno
      · intro hall
        rw [hall V hV] at hu; cases hu
    | false =>
      obtain ⟨he, hall1⟩ := P1F hst
      simp only [Bool.not_false, if_true]
      rw [he]
      simp only
      refine ⟨?_, ?_, ?_⟩
      · rintro ⟨V, hV, hu, hc⟩
        obtain ⟨h, hg⟩ := ComputeNearestInVolume_of_usable E Sub V p hu
        have := hall1 V hV
        rw [if_pos hc, hg] at this
        cases this
      · rintro _ ⟨V, hV, hu⟩
        obtain ⟨h, hg⟩ := ComputeNearestInVolume_of_usable E Sub V p hu
        cases hb : (List.foldl (QueryAnyStep E Sub p t)
            (FThermoForgeGridHit.Default E) W.Volumes).bFound with
        | false =>
          have := (P2F hb).2 V hV
          rw [hg] at this; cases this
        | true =>
          obtain ⟨V1, hV1, h1, hg1, he1, hmin1⟩ := P2T hb
          exact ⟨V1, hV1, h1, hg1, he1, hmin1⟩
      · intro hall
        cases hb : (List.foldl (QueryAnyStep E Sub p t)
            (FThermoForgeGridHit.Default E) W.Volumes).bFound with
        | false => exact (P2F hb).1
        | true =>
          obtain ⟨V1, hV1, h1, hg1, _, _⟩ := P2T hb
          have hu := usable_of_ComputeNearestInVolume E Sub V1 p h1 hg1
          rw [hall V1 hV1] at hu; cases hu

/-- The temperature block of the query changes `CurrentTempC` only. -/
theorem QueryNearestBakedGridPoint_fields (E : Engine K) (Sub : UThermoForgeSubsystem K)
    (p : FVector K) (t : FDateTime K) :
    (QueryNearestBakedGridPoint E Sub p t).bFound = (QuerySelect E Sub p t).bFound ∧
    (QueryNearestBakedGridPoint E Sub p t).Volume = (QuerySelect E Sub p t).Volume ∧
    (QueryNearestBakedGridPoint E Sub p t).GridIndex = (QuerySelect E Sub p t).GridIndex ∧
    (QueryNearestBakedGridPoint E Sub p t).LinearIndex = (QuerySelect E Sub p t).LinearIndex ∧
    (QueryNearestBakedGridPoint E Sub p t).CellCenterWS = (QuerySelect E Sub p t).CellCenterWS ∧
    (QueryNearestBakedGridPoint E Sub p t).DistanceSq = (QuerySelect E Sub p t).DistanceSq ∧
    (QueryNearestBakedGridPoint E Sub p t).QueryTimeUTC = (QuerySelect E Sub p t).QueryTimeUTC := by
  unfold QueryNearestBakedGridPoint
  simp only
  split_ifs <;> simp

/-- C2: `QueryNearestBakedGridPoint` follows the two-pass containment policy.
With the volumes of the world, a volume being usable when it has a baked field
with all dimensions > 0 and cell size > 0:
(1) the result is not-found exactly when no usable volume exists;
(2) if some usable volume contains the point (`VolumeContainsPoint`), the result
is found and is the candidate cell of a usable containing volume whose squared
distance is minimal among the candidates of the usable containing volumes;
(3) if no usable volume contains the point and a usable volume exists, the result
is found and is the candidate cell of a usable volume whose squared distance is
minimal among the candidates of all usable volumes;
(4) in particular, if `V0` is the only usable volume that contains the point, the
result names `V0`, whatever the candidate distances of the other volumes. -/
theorem C2_query_two_pass_containment_policy (E : Engine K) (Sub : UThermoForgeSubsystem K)
    (p : FVector K) (t : FDateTime K) :
    ((QueryNearestBakedGridPoint E Sub p t).bFound = false ↔
      ∀ V ∈ WorldVolumes Sub, UsableVolume Sub V = false) ∧
    ((∃ V ∈ WorldVolumes Sub, UsableVolume Sub V = true ∧ VolumeContainsPoint V p = true) →
      ∃ V ∈ WorldVolumes Sub, ∃ h, UsableVolume Sub V = true ∧ VolumeContainsPoint V p = true ∧
        ComputeNearestInVolume E Sub V p = some h ∧
        (QueryNearestBakedGridPoint E Sub p t).bFound = true ∧
        (QueryNearestBakedGridPoint E Sub p t).Volume = some V ∧
        (QueryNearestBakedGridPoint E Sub p t).GridIndex = h.GridIndex ∧
        (QueryNearestBakedGridPoint E Sub p t).LinearIndex = h.LinearIndex ∧
        (QueryNearestBakedGridPoint E Sub p t).CellCenterWS = h.CellCenterWS ∧
        (QueryNearestBakedGridPoint E Sub p t).DistanceSq = h.DistanceSq ∧
        ∀ V2 ∈ WorldVolumes Sub, UsableVolume Sub V2 = true → VolumeContainsPoint V2 p = true →
          ∀ h2, ComputeNearestInVolume E Sub V2 p = some h2 → h.DistanceSq ≤ h2.DistanceSq) ∧
    ((¬ ∃ V ∈ WorldVolumes Sub, UsableVolume Sub V = true ∧ VolumeContainsPoint V p = true) →
      (∃ V ∈ WorldVolumes Sub, UsableVolume Sub V = true) →
      ∃ V ∈ WorldVolumes Sub, ∃ h, UsableVolume Sub V = true ∧
        ComputeNearestInVolume E Sub V p = some h ∧
        (QueryNearestBakedGridPoint E Sub p t).bFound = true ∧
        (QueryNearestBakedGridPoint E Sub p t).Volume = some V ∧
        (QueryNearestBakedGridPoint E Sub p t).GridIndex = h.GridIndex ∧
        (QueryNearestBakedGridPoint E Sub p t).LinearIndex = h.LinearIndex ∧
        (QueryNearestBakedGridPoint E Sub p t).CellCenterWS = h.CellCenterWS ∧
        (QueryNearestBakedGridPoint E Sub p t).DistanceSq = h.DistanceSq ∧
        ∀ V2 ∈ WorldVolumes Sub, UsableVolume Sub V2 = true →
          ∀ h2, ComputeNearestInVolume E Sub V2 p = some h2 → h.DistanceSq ≤ h2.DistanceSq) ∧
    (∀ V0 ∈ WorldVolumes Sub, UsableVolume Sub V0 = true → VolumeContainsPoint V0 p = true →
      (∀ V ∈ WorldVolumes Sub, UsableVolume Sub V = true → VolumeContainsPoint V p = true →
        V = V0) →
      (QueryNearestBakedGridPoint E Sub p t).bFound = true ∧
      (QueryNearestBakedGridPoint E Sub p t).Volume = some V0) := by
  obtain ⟨fF, fV, fG, fL, fC, fD, _⟩ := QueryNearestBakedGridPoint_fields E Sub p t
  obtain ⟨S1, S2, S3⟩ := QuerySelect_spec E Sub p t
  have part2 : (∃ V ∈ WorldVolumes Sub, UsableVolume Sub V = true ∧
        VolumeContainsPoint V p = true) →
      ∃ V ∈ WorldVolumes Sub, ∃ h, UsableVolume Sub V = true ∧ VolumeContainsPoint V p = true ∧
        ComputeNearestInVolume E Sub V p = some h ∧
        (QueryNearestBakedGridPoint E Sub p t).bFound = true ∧
        (QueryNearestBakedGridPoint E Sub p t).Volume = some V ∧
        (QueryNearestBakedGridPoint E Sub p t).GridIndex = h.GridIndex ∧
        (QueryNearestBakedGridPoint E Sub p t).LinearIndex = h.LinearIndex ∧
        (QueryNearestBakedGridPoint E Sub p t).CellCenterWS = h.CellCenterWS ∧
        (QueryNearestBakedGridPoint E Sub p t).DistanceSq = h.DistanceSq ∧
        ∀ V2 ∈ WorldVolumes Sub, UsableVolume Sub V2 = true → VolumeContainsPoint V2 p = true →
          ∀ h2, ComputeNearestInVolume E Sub V2 p = some h2 → h.DistanceSq ≤ h2.DistanceSq := by
    intro hex
    obtain ⟨V, hV, h, hc, hg, he, hmin⟩ := S1 hex
    have hv := (ComputeNearestInVolume_some E Sub V p h hg).2
    refine ⟨V, hV, h, usable_of_ComputeNearestInVolume E Sub V p h hg, hc, hg, ?_, ?_, ?_, ?_,
      ?_, ?_, ?_⟩
    · rw [fF, he]
    · rw [fV, he]; exact hv
    · rw [fG, he]
    · rw [fL, he]
    · rw [fC, he]
    · rw [fD, he]
    · intro V2 hV2 _ hc2 h2 hg2
      exact hmin V2 hV2 hc2 h2 hg2
  have part3 : (¬ ∃ V ∈ WorldVolumes Sub, UsableVolume Sub V = true ∧
        VolumeContainsPoint V p = true) →
      (∃ V ∈ WorldVolumes Sub, UsableVolume Sub V = true) →
      ∃ V ∈ WorldVolumes Sub, ∃ h, UsableVolume Sub V = true ∧
        ComputeNearestInVolume E Sub V p = some h ∧
        (QueryNearestBakedGridPoint E Sub p t).bFound = true ∧
        (QueryNearestBakedGridPoint E Sub p t).Volume = some V ∧
        (QueryNearestBakedGridPoint E Sub p t).GridIndex = h.GridIndex ∧
        (QueryNearestBakedGridPoint E Sub p t).LinearIndex = h.LinearIndex ∧
        (QueryNearestBakedGridPoint E Sub p t).CellCenterWS = h.CellCenterWS ∧
        (QueryNearestBakedGridPoint E Sub p t).DistanceSq = h.DistanceSq ∧
        ∀ V2 ∈ WorldVolumes Sub, UsableVolume Sub V2 = true →
          ∀ h2, ComputeNearestInVolume E Sub V2 p = some h2 → h.DistanceSq ≤ h2.DistanceSq := by
    intro hno hex
    obtain ⟨V, hV, h, hg, he, hmin⟩ := S2 hno hex
    have hv := (ComputeNearestInVolume_some E Sub V p h hg).2
    refine ⟨V, hV, h, usable_of_ComputeNearestInVolume E Sub V p h hg, hg, ?_, ?_, ?_, ?_,
      ?_, ?_, ?_⟩
    · rw [fF, he]
    · rw [fV, he]; exact hv
    · rw [fG, he]
    · rw [fL, he]
    · rw [fC, he]
    · rw [fD, he]
    · intro V2 hV2 _ h2 hg2
      exact hmin V2 hV2 h2 hg2
  refine ⟨?_, part2, part3, ?_⟩
  · constructor
    · intro hnf V hV
      by_contra hu
      have hu : UsableVolume Sub V = true := by
        cases hq : UsableVolume Sub V with
        | true => rfl
        | false => exact absurd hq hu
      by_cases hex : ∃ V ∈ WorldVolumes Sub, UsableVolume Sub V = true ∧
          VolumeContainsPoint V p = true
      · obtain ⟨_, _, _, _, _, _, hb, _⟩ := part2 hex
        rw [hnf] at hb; cases hb
      · obtain ⟨_, _, _, _, _, hb, _⟩ := part3 hex ⟨V, hV, hu⟩
        rw [hnf] at hb; cases hb
    · intro hall
      rw [fF, S3 hall]
      rfl
  · intro V0 hV0 hu0 hc0 huniq
    obtain ⟨V, hV, h, hu, hc, _, hb, hv, _⟩ := part2 ⟨V0, hV0, hu0, hc0⟩
    rw [huniq V hV hu hc] at hv
    exact ⟨hb, hv⟩

/-- C2, witness: in `exampleTwoVolumes` the point (10, 50, 50) lies in the box of
`A` only; the candidate of `B` is at squared distance 0 and the candidate of `A`
at squared distance 1600, and the query returns `A`. -/
theorem C2_query_two_pass_containment_policy_witness :
    (ComputeNearestInVolume exampleEngine exampleTwoVolumes exampleBoundedB ⟨10, 50, 50⟩).map
        (fun h => h.DistanceSq) = some 0 ∧
    (ComputeNearestInVolume exampleEngine exampleTwoVolumes exampleBoundedA ⟨10, 50, 50⟩).map
        (fun h => h.DistanceSq) = some 1600 ∧
    (QueryNearestBakedGridPoint exampleEngine exampleTwoVolumes ⟨10, 50, 50⟩ exampleNoon).bFound
      = true ∧
    (QueryNearestBakedGridPoint exampleEngine exampleTwoVolumes ⟨10, 50, 50⟩ exampleNoon).Volume
      = some exampleBoundedA :=
  ⟨by decide!, by decide!,
   (C2_query_two_pass_containment_policy exampleEngine exampleTwoVolumes ⟨10, 50, 50⟩
      exampleNoon).2.2.2 exampleBoundedA (by simp [WorldVolumes, exampleTwoVolumes])
      (by decide!) (by decide!)
      (by
        intro V hV hu hc
        simp only [WorldVolumes, exampleTwoVolumes, List.mem_cons, List.mem_singleton,
          List.not_mem_nil, or_false] at hV
        rcases hV with rfl | rfl
        · rfl
        · exact absurd hc (by decide!))⟩

/-! ### Temperature of a hit -/

/-- C3, the code at the failing input: in `exampleOneVolume` (one field of
2 x 1 x 1 cells, sky openness 1/4 in cell 0 and 3/4 in cell 1) the query at
(10, 50, 50) finds cell (0, 0, 0) with linear index 0 and centre (50, 50, 50), whose
baked sky openness is 1/4; the composition at that centre looks the cell up
again, finds linear index 1, and the sky openness that enters the solar term is
3/4, the value of the other cell.  The stored temperature is 9 + 3/4 (desired
ambient 9, solar term 3/4), not 9 + 1/4. -/
theorem C3_query_temperature_uses_other_cell :
    (QueryNearestBakedGridPoint exampleEngine exampleOneVolume ⟨10, 50, 50⟩ exampleNoon).bFound
      = true ∧
    (QueryNearestBakedGridPoint exampleEngine exampleOneVolume ⟨10, 50, 50⟩ exampleNoon).Volume
      = some exampleVolumeA ∧
    (QueryNearestBakedGridPoint exampleEngine exampleOneVolume ⟨10, 50, 50⟩ exampleNoon).GridIndex
      = ⟨0, 0, 0⟩ ∧
    (QueryNearestBakedGridPoint exampleEngine exampleOneVolume ⟨10, 50, 50⟩
      exampleNoon).LinearIndex = 0 ∧
    (exampleVolumeA.BakedField.bind exampleOneVolume.Assets).map
      (fun F => (FMath.Clamp (F.GetSkyViewByLinearIdx 0) 0 1,
        FMath.Clamp (F.GetWallPermByLinearIdx 0) 0 1)) = some (1 / 4, 1) ∧
    (ComposeNearest exampleEngine exampleOneVolume
      (QueryNearestBakedGridPoint exampleEngine exampleOneVolume ⟨10, 50, 50⟩
        exampleNoon).CellCenterWS).LinearIndex = 1 ∧
    ComposeSkyWall exampleEngine exampleOneVolume
      (QueryNearestBakedGridPoint exampleEngine exampleOneVolume ⟨10, 50, 50⟩
        exampleNoon).CellCenterWS = (3 / 4, 1) ∧
    (QueryNearestBakedGridPoint exampleEngine exampleOneVolume ⟨10, 50, 50⟩
      exampleNoon).CurrentTempC = 9 + 3 / 4 := by
  decide!

/-! ### Composition without a field -/

omit [FloorRing K] in
/-- The source loop adds, to its start value, the source term of the claims. -/
theorem foldl_source_sum (E : Engine K) (Sub : UThermoForgeSubsystem K)
    (S : UThermoForgeProjectSettings K) (p : FVector K) (wall : K) (l : List Nat) (acc : K) :
    l.foldl
      (fun SourceSum W =>
        match Sub.SourceObjects W with
        | none => SourceSum
        | some Sc =>
          if !Sc.bEnabled then SourceSum
          else
            let Intensity := Sc.SampleAt p
            if Intensity = 0 then SourceSum
            else
              let CellSize := S.DefaultCellSizeCm
              let Occ := OcclusionBetween E Sub p Sc.GetOwnerLocationSafe CellSize
              SourceSum + Intensity * Occ * wall)
      acc
    = acc + ((l.filterMap
        (fun W =>
          match Sub.SourceObjects W with
          | none => none
          | some Sc => if Sc.bEnabled then some Sc else none)).map
        (fun Sc => Sc.SampleAt p
          * OcclusionBetween E Sub p Sc.GetOwnerLocationSafe S.DefaultCellSizeCm * wall)).sum := by
  induction l generalizing acc with
  | nil => simp
  | cons W l ih =>
    rw [List.foldl_cons, ih]
    cases hW : Sub.SourceObjects W with
    | none => simp [List.filterMap_cons, hW]
    | some Sc =>
      cases hE : Sc.bEnabled with
      | false => simp [List.filterMap_cons, hW, hE]
      | true =>
        by_cases hI : Sc.SampleAt p = 0
        · simp [List.filterMap_cons, hW, hE, hI]
        · simp [List.filterMap_cons, hW, hE, hI, add_assoc]

omit [FloorRing K] in
/-- The source loop of `ComputeCurrentTemperatureAt` computes the source term. -/
theorem ComposeSourceSum_eq (E : Engine K) (Sub : UThermoForgeSubsystem K)
    (S : UThermoForgeProjectSettings K) (p : FVector K) (wall : K) :
    ComposeSourceSum E Sub S p wall = SourceTerm E Sub S p wall := by
  unfold ComposeSourceSum SourceTerm EnabledSources
  rw [foldl_source_sum]
  simp

/-- The nearest-field scan is a keep-least loop: its result is found exactly
when a usable volume exists. -/
theorem ComposeNearest_spec (E : Engine K) (Sub : UThermoForgeSubsystem K) (p : FVector K) :
    ((ComposeNearest E Sub p).bFound = false →
      ComposeNearest E Sub p = FThermoForgeGridHit.Default E ∧
      ∀ V ∈ WorldVolumes Sub, UsableVolume Sub V = false) ∧
    ((ComposeNearest E Sub p).bFound = true →
      ∃ V ∈ WorldVolumes Sub, ∃ h, ComputeNearestInVolume E Sub V p = some h ∧
        ComposeNearest E Sub p = h ∧
        ∀ V2 ∈ WorldVolumes Sub, ∀ h2, ComputeNearestInVolume E Sub V2 p = some h2 →
          h.DistanceSq ≤ h2.DistanceSq) := by
  unfold ComposeNearest WorldVolumes
  cases hW : Sub.World with
  | none =>
    simp only [List.not_mem_nil, false_implies, implies_true, and_true, true_and]
    intro h
    simp [FThermoForgeGridHit.Default] at h
  | some W =>
    simp only
    have P := foldl_keep_least
      (fun V => ComputeNearestInVolume E Sub V p)
      (fun h => h.DistanceSq) (fun st : FThermoForgeGridHit K => st.bFound)
      (fun st => st.DistanceSq)
      (fun h => ({ h with bFound := true } : FThermoForgeGridHit K))
      (fun Best Vol =>
        if (Vol.BakedField.bind Sub.Assets).isNone then Best
        else
          match ComputeNearestInVolume E Sub Vol p with
          | none => Best
          | some Hit => if !Best.bFound ∨ Hit.DistanceSq < Best.DistanceSq then Hit else Best)
      (fun _ => rfl) (fun _ => rfl)
      (by
        intro st a hg
        simp [hg])
      (by
        intro st a h hg
        replace hg : ComputeNearestInVolume E Sub a p = some h := hg
        have hb := (ComputeNearestInVolume_some E Sub a p h hg).1
        have hu : (a.BakedField.bind Sub.Assets).isNone = false := by
          have := ComputeNearestInVolume_isSome E Sub a p
          rw [hg] at this
          unfold UsableVolume at this
          cases hF : a.BakedField.bind Sub.Assets with
          | none => rw [hF] at this; simp at this
          | some F => rfl
        simp only [hu, hg, Bool.false_eq_true, if_false, Bool.not_eq_true']
        cases h
        simp only at hb
        subst hb
        rfl)
      (FThermoForgeGridHit.Default E) rfl W.Volumes
    simp only at P
    obtain ⟨PF, PT⟩ := P
    constructor
    · intro hf
      obtain ⟨he, hall⟩ := PF hf
      refine ⟨he, ?_⟩
      intro V hV
      cases hu : UsableVolume Sub V with
      | false => rfl
      | true =>
        obtain ⟨h, hg⟩ := ComputeNearestInVolume_of_usable E Sub V p hu
        rw [hall V hV] at hg; cases hg
    · intro hf
      obtain ⟨V, hV, h, hg, he, hmin⟩ := PT hf
      have hb := (ComputeNearestInVolume_some E Sub V p h hg).1
      refine ⟨V, hV, h, hg, ?_, hmin⟩
      rw [he]
      cases h
      simp only at hb
      subst hb
      rfl

/-- Without a usable volume the composition reads the defaults `Sky = 0` and
`WallPerm = 1`. -/
theorem ComposeSkyWall_without_field (E : Engine K) (Sub : UThermoForgeSubsystem K)
    (p : FVector K) (hno : ∀ V ∈ WorldVolumes Sub, UsableVolume Sub V = false) :
    ComposeSkyWall E Sub p = (0, 1) := by
  have hb : (ComposeNearest E Sub p).bFound = false := by
    cases hq : (ComposeNearest E Sub p).bFound with
    | false => rfl
    | true =>
      obtain ⟨V, hV, h, hg, _, _⟩ := (ComposeNearest_spec E Sub p).2 hq
      have hu := usable_of_ComputeNearestInVolume E Sub V p h hg
      rw [hno V hV] at hu; cases hu
  unfold ComposeSkyWall
  simp [hb]

/-- C4, counterexample: in `exampleNoField` (no volume, unit solar gain, clear
weather, zero climate curve, one source of delta 2 in free line of sight)
`ComputeCurrentTemperatureAt` returns 2, whereas the composition with the defaults
sky = 1 and wallPermeability = 1 is 0 + 1 * 1 * (1 - 0) + 2 = 3. -/
theorem C4_counterexample_default_sky_is_not_one :
    (∀ V ∈ WorldVolumes exampleNoField, UsableVolume exampleNoField V = false) ∧
    ComputeCurrentTemperatureAt exampleEngine exampleNoField ⟨0, 0, 0⟩ true 12 0 = 2 ∧
    exampleSettings.GetAmbientCelsiusAt true 12 0
      + exampleSettings.SolarGainScaleC * 1 * (1 - FMath.Clamp 0 0 1)
      + SourceTerm exampleEngine exampleNoField exampleSettings ⟨0, 0, 0⟩ 1 = 3 ∧
    ComputeCurrentTemperatureAt exampleEngine exampleNoField ⟨0, 0, 0⟩ true 12 0 ≠
      exampleSettings.GetAmbientCelsiusAt true 12 0
      + exampleSettings.SolarGainScaleC * 1 * (1 - FMath.Clamp 0 0 1)
      + SourceTerm exampleEngine exampleNoField exampleSettings ⟨0, 0, 0⟩ 1 := by
  refine ⟨?_, by decide!, by decide!, by decide!⟩
  intro V hV
  simp [WorldVolumes, exampleNoField] at hV

/-- C4, amended: when no volume has a usable baked field (and settings exist),
`ComputeCurrentTemperatureAt` composes with the defaults sky = 0 and
wallPermeability = 1: for every position, season flag, hour and weatherAlpha the
result is ambient + solarGainScale * 0 * (1 - clamp(weatherAlpha, 0, 1)) + the sum
over the enabled sources of delta at the position * line-of-sight occlusion * 1;
the solar term vanishes. -/
theorem C4_compose_without_field_defaults (E : Engine K) (Sub : UThermoForgeSubsystem K)
    (S : UThermoForgeProjectSettings K) (p : FVector K) (bWinter : Bool)
    (TimeHours WeatherAlpha01 : K) (hS : Sub.Settings = some S)
    (hno : ∀ V ∈ WorldVolumes Sub, UsableVolume Sub V = false) :
    ComputeCurrentTemperatureAt E Sub p bWinter TimeHours WeatherAlpha01 =
      S.GetAmbientCelsiusAt bWinter TimeHours p.Z
      + S.SolarGainScaleC * 0 * (1 - FMath.Clamp WeatherAlpha01 0 1)
      + SourceTerm E Sub S p 1 := by
  unfold ComputeCurrentTemperatureAt
  rw [hS]
  simp only
  rw [ComposeSkyWall_without_field E Sub p hno, ComposeSourceSum_eq]
  rfl

/-- C4, witness of the amended claim: in `exampleNoField` the composition is the
ambient 0, no solar term, and the source term 2. -/
theorem C4_compose_without_field_defaults_witness :
    ComputeCurrentTemperatureAt exampleEngine exampleNoField ⟨0, 0, 0⟩ true 12 0 =
      exampleSettings.GetAmbientCelsiusAt true 12 0
      + exampleSettings.SolarGainScaleC * 0 * (1 - FMath.Clamp 0 0 1)
      + SourceTerm exampleEngine exampleNoField exampleSettings ⟨0, 0, 0⟩ 1 ∧
    SourceTerm exampleEngine exampleNoField exampleSettings ⟨0, 0, 0⟩ 1 = 2 :=
  ⟨C4_compose_without_field_defaults exampleEngine exampleNoField exampleSettings ⟨0, 0, 0⟩
      true 12 0 rfl (by intro V hV; simp [WorldVolumes, exampleNoField] at hV),
   by decide!⟩

/-! ### Phase correction -/

/-- The composition with settings present: ambient + solar + sources. -/
theorem ComputeCurrentTemperatureAt_some (E : Engine K) (Sub : UThermoForgeSubsystem K)
    (S : UThermoForgeProjectSettings K) (hS : Sub.Settings = some S) (p : FVector K)
    (bWinter : Bool) (TimeHours w : K) :
    ComputeCurrentTemperatureAt E Sub p bWinter TimeHours w =
      S.GetAmbientCelsiusAt bWinter TimeHours p.Z
      + ComposeSolar S (ComposeSkyWall E Sub p).1 w
      + ComposeSourceSum E Sub S p (ComposeSkyWall E Sub p).2 := by
  unfold ComputeCurrentTemperatureAt
  rw [hS]

/-- The selection of the query does not read the settings. -/
theorem QuerySelect_settings (E : Engine K) (Sub : UThermoForgeSubsystem K)
    (S2 : Option (UThermoForgeProjectSettings K)) (p : FVector K) (t : FDateTime K) :
    QuerySelect E { Sub with Settings := S2 } p t = QuerySelect E Sub p t := rfl

/-- The scalars read by the composition do not depend on the settings. -/
theorem ComposeSkyWall_settings (E : Engine K) (Sub : UThermoForgeSubsystem K)
    (S2 : Option (UThermoForgeProjectSettings K)) (p : FVector K) :
    ComposeSkyWall E { Sub with Settings := S2 } p = ComposeSkyWall E Sub p := rfl

omit [FloorRing K] in
/-- The occlusion between two points does not read the climate curve. -/
theorem OcclusionBetween_ambient (E : Engine K) (Sub : UThermoForgeSubsystem K)
    (S : UThermoForgeProjectSettings K) (hS : Sub.Settings = some S)
    (g : Bool → K → K → K) (A B : FVector K) (c : K) :
    OcclusionBetween E { Sub with Settings := some { S with GetAmbientCelsiusAt := g } } A B c
      = OcclusionBetween E Sub A B c := by
  unfold OcclusionBetween
  rw [hS]
  cases Sub.World <;> rfl

omit [FloorRing K] in
/-- The source loop does not read the climate curve. -/
theorem ComposeSourceSum_ambient (E : Engine K) (Sub : UThermoForgeSubsystem K)
    (S : UThermoForgeProjectSettings K) (hS : Sub.Settings = some S)
    (g : Bool → K → K → K) (p : FVector K) (wall : K) :
    ComposeSourceSum E { Sub with Settings := some { S with GetAmbientCelsiusAt := g } }
        { S with GetAmbientCelsiusAt := g } p wall
      = ComposeSourceSum E Sub S p wall := by
  unfold ComposeSourceSum
  simp only [OcclusionBetween_ambient E Sub S hS g]

/-- The desired ambient does not read the climate curve. -/
theorem QueryDesiredAmbientC_ambient (E : Engine K) (Sub : UThermoForgeSubsystem K)
    (S : UThermoForgeProjectSettings K) (hS : Sub.Settings = some S)
    (g : Bool → K → K → K) (Best : FThermoForgeGridHit K) :
    QueryDesiredAmbientC E { Sub with Settings := some { S with GetAmbientCelsiusAt := g } } Best
      = QueryDesiredAmbientC E Sub Best := by
  unfold QueryDesiredAmbientC
  rw [hS]

/-- C5: in `QueryNearestBakedGridPoint` the phase correction changes only the
ambient component.  For every found hit, with `Best` the selected cell:
(1) `CurrentTempC = BaselineTotalC + (DesiredAmbientC - BaselineAmbientC)`;
(2) with settings present this equals `DesiredAmbientC + Solar + SourceSum`, where
`Solar` and `SourceSum` are the solar and source terms that
`ComputeCurrentTemperatureAt` computes at the cell centre of the hit;
(3) hence the temperature does not depend on the climate curve: replacing
`GetAmbientCelsiusAt` by any other function leaves `CurrentTempC` unchanged. -/
theorem C5_phase_correction_changes_only_ambient (E : Engine K)
    (Sub : UThermoForgeSubsystem K) (p : FVector K) (t : FDateTime K)
    (hf : (QueryNearestBakedGridPoint E Sub p t).bFound = true) :
    (QueryNearestBakedGridPoint E Sub p t).CurrentTempC =
        QueryBaselineTotalC E Sub (QuerySelect E Sub p t)
        + (QueryDesiredAmbientC E Sub (QuerySelect E Sub p t)
            - QueryBaselineAmbientC E Sub (QuerySelect E Sub p t)) ∧
    (∀ S, Sub.Settings = some S →
      (QueryNearestBakedGridPoint E Sub p t).CurrentTempC =
        QueryDesiredAmbientC E Sub (QuerySelect E Sub p t)
        + ComposeSolar S
            (ComposeSkyWall E Sub (QueryNearestBakedGridPoint E Sub p t).CellCenterWS).1
            S.PreviewWeatherAlpha
        + ComposeSourceSum E Sub S (QueryNearestBakedGridPoint E Sub p t).CellCenterWS
            (ComposeSkyWall E Sub (QueryNearestBakedGridPoint E Sub p t).CellCenterWS).2) ∧
    (∀ S g, Sub.Settings = some S →
      (QueryNearestBakedGridPoint E
          { Sub with Settings := some { S with GetAmbientCelsiusAt := g } } p t).CurrentTempC
        = (QueryNearestBakedGridPoint E Sub p t).CurrentTempC) := by
  obtain ⟨fF, _, _, _, fC, _, _⟩ := QueryNearestBakedGridPoint_fields E Sub p t
  have hb : (QuerySelect E Sub p t).bFound = true := by rw [← fF]; exact hf
  have h1 : (QueryNearestBakedGridPoint E Sub p t).CurrentTempC =
      QueryBaselineTotalC E Sub (QuerySelect E Sub p t)
      + (QueryDesiredAmbientC E Sub (QuerySelect E Sub p t)
          - QueryBaselineAmbientC E Sub (QuerySelect E Sub p t)) := by
    unfold QueryNearestBakedGridPoint
    simp only [hb, if_true]
  have h2 : ∀ (Sub2 : UThermoForgeSubsystem K) (S : UThermoForgeProjectSettings K)
      (Best : FThermoForgeGridHit K), Sub2.Settings = some S →
      QueryBaselineTotalC E Sub2 Best
        + (QueryDesiredAmbientC E Sub2 Best - QueryBaselineAmbientC E Sub2 Best)
      = QueryDesiredAmbientC E Sub2 Best
        + ComposeSolar S (ComposeSkyWall E Sub2 Best.CellCenterWS).1 S.PreviewWeatherAlpha
        + ComposeSourceSum E Sub2 S Best.CellCenterWS
            (ComposeSkyWall E Sub2 Best.CellCenterWS).2 := by
    intro Sub2 S Best hS
    unfold QueryBaselineTotalC QueryBaselineAmbientC
    simp only [ComputeCurrentTemperatureAt_some E Sub2 S hS, hS, FMath.Lerp]
    ring
  refine ⟨h1, ?_, ?_⟩
  · intro S hS
    rw [h1, h2 Sub S _ hS, fC]
  · intro S g hS
    have hb2 : (QuerySelect E
        { Sub with Settings := some { S with GetAmbientCelsiusAt := g } } p t).bFound = true := by
      rw [QuerySelect_settings]; exact hb
    have h1b : (QueryNearestBakedGridPoint E
        { Sub with Settings := some { S with GetAmbientCelsiusAt := g } } p t).CurrentTempC =
        QueryBaselineTotalC E { Sub with Settings := some { S with GetAmbientCelsiusAt := g } }
          (QuerySelect E { Sub with Settings := some { S with GetAmbientCelsiusAt := g } } p t)
        + (QueryDesiredAmbientC E
            { Sub with Settings := some { S with GetAmbientCelsiusAt := g } }
            (QuerySelect E { Sub with Settings := some { S with GetAmbientCelsiusAt := g } } p t)
          - QueryBaselineAmbientC E
            { Sub with Settings := some { S with GetAmbientCelsiusAt := g } }
            (QuerySelect E
              { Sub with Settings := some { S with GetAmbientCelsiusAt := g } } p t)) := by
      unfold QueryNearestBakedGridPoint
      simp only [hb2, if_true]
    rw [h1b, h1, h2 Sub S _ hS, h2 _ { S with GetAmbientCelsiusAt := g } _ rfl,
      QuerySelect_settings, QueryDesiredAmbientC_ambient E Sub S hS g,
      ComposeSourceSum_ambient E Sub S hS g, ComposeSkyWall_settings]
    rfl

/-- C5, witness: the hit of `exampleOneVolume` at (10, 50, 50) is found; its
temperature 9 + 3/4 is the desired ambient 9 plus the solar term 3/4 plus the
source term 0, and stays the same under the climate curve that is 100
everywhere. -/
theorem C5_phase_correction_changes_only_ambient_witness :
    (QueryNearestBakedGridPoint exampleEngine exampleOneVolume ⟨10, 50, 50⟩ exampleNoon).bFound
      = true ∧
    (QueryNearestBakedGridPoint exampleEngine exampleOneVolume ⟨10, 50, 50⟩
      exampleNoon).CurrentTempC = 9 + 3 / 4 + 0 ∧
    (QueryNearestBakedGridPoint exampleEngine
      { exampleOneVolume with
        Settings := some { exampleSettings with GetAmbientCelsiusAt := fun _ _ _ => 100 } }
      ⟨10, 50, 50⟩ exampleNoon).CurrentTempC
      = (QueryNearestBakedGridPoint exampleEngine exampleOneVolume ⟨10, 50, 50⟩
          exampleNoon).CurrentTempC :=
  ⟨by decide!,
   ((C5_phase_correction_changes_only_ambient exampleEngine exampleOneVolume ⟨10, 50, 50⟩
      exampleNoon (by decide!)).2.1 exampleSettings rfl).trans (by decide!),
   (C5_phase_correction_changes_only_ambient exampleEngine exampleOneVolume ⟨10, 50, 50⟩
      exampleNoon (by decide!)).2.2 exampleSettings (fun _ _ _ => 100) rfl⟩

/-! ### Occlusion sampler -/

omit [FloorRing K] in
/-- `FMath::Clamp(x, 0, 1)` lies in [0, 1]. -/
theorem Clamp_zero_one_mem (x : K) : 0 ≤ FMath.Clamp x 0 1 ∧ FMath.Clamp x 0 1 ≤ 1 := by
  unfold FMath.Clamp FMath.Max FMath.Min
  constructor
  · split_ifs with h1 h2 h2
    · exact le_of_lt h2
    · exact le_refl _
    · exact zero_le_one
    · exact le_refl _
  · split_ifs with h1 h2 h2
    · exact le_of_lt h1
    · exact zero_le_one
    · exact le_refl _
    · exact zero_le_one

omit [FloorRing K] in
/-- The permeability of a density and a path fraction lies in [0, 1]. -/
theorem DensityToPermeability_mem (E : Engine K) (S : UThermoForgeProjectSettings K)
    (rho Lfrac : K) :
    0 ≤ S.DensityToPermeability E rho Lfrac ∧ S.DensityToPermeability E rho Lfrac ≤ 1 :=
  Clamp_zero_one_mem _

omit [FloorRing K] in
/-- `OcclusionBetween` returns a value in [0, 1]. -/
theorem OcclusionBetween_mem (E : Engine K) (Sub : UThermoForgeSubsystem K)
    (A B : FVector K) (c : K) :
    0 ≤ OcclusionBetween E Sub A B c ∧ OcclusionBetween E Sub A B c ≤ 1 := by
  unfold OcclusionBetween
  cases Sub.World with
  | none => simp
  | some W =>
    cases Sub.Settings with
    | none => simp
    | some S =>
      simp only
      cases W.LineTraceSingleByChannel A B S.TraceChannel S.bTraceComplex with
      | none => simp
      | some Hit => exact DensityToPermeability_mem E S _ _

omit [FloorRing K] in
/-- `TraceAmbientRay01` returns a value in [0, 1]. -/
theorem TraceAmbientRay01_mem (E : Engine K) (Sub : UThermoForgeSubsystem K)
    (P Dir : FVector K) (MaxLen : K) :
    0 ≤ TraceAmbientRay01 E Sub P Dir MaxLen ∧ TraceAmbientRay01 E Sub P Dir MaxLen ≤ 1 := by
  unfold TraceAmbientRay01
  cases Sub.World with
  | none => simp
  | some W =>
    cases Sub.Settings with
    | none => simp
    | some S =>
      simp only
      cases W.LineTraceSingleByChannel P (FVector.add P (FVector.scale Dir MaxLen))
          S.TraceChannel S.bTraceComplex with
      | none => simp
      | some Hit => exact DensityToPermeability_mem E S _ _

omit [FloorRing K] in
/-- C6: `OcclusionBetween` and `TraceAmbientRay01` return a value in [0, 1] for
every pair of points or direction, every cell size and length (zero and negative
ones included) and every result of the line trace; they return exactly 1 when
there is no world or no settings, and when the line trace hits nothing. -/
theorem C6_occlusion_in_unit_interval (E : Engine K) (Sub : UThermoForgeSubsystem K)
    (A B P Dir : FVector K) (CellSizeCm MaxLen : K) :
    (0 ≤ OcclusionBetween E Sub A B CellSizeCm ∧ OcclusionBetween E Sub A B CellSizeCm ≤ 1) ∧
    (0 ≤ TraceAmbientRay01 E Sub P Dir MaxLen ∧ TraceAmbientRay01 E Sub P Dir MaxLen ≤ 1) ∧
    (Sub.World = none ∨ Sub.Settings = none →
      OcclusionBetween E Sub A B CellSizeCm = 1 ∧ TraceAmbientRay01 E Sub P Dir MaxLen = 1) ∧
    (∀ W S, Sub.World = some W → Sub.Settings = some S →
      W.LineTraceSingleByChannel A B S.TraceChannel S.bTraceComplex = none →
      OcclusionBetween E Sub A B CellSizeCm = 1) ∧
    (∀ W S, Sub.World = some W → Sub.Settings = some S →
      W.LineTraceSingleByChannel P (FVector.add P (FVector.scale Dir MaxLen))
        S.TraceChannel S.bTraceComplex = none →
      TraceAmbientRay01 E Sub P Dir MaxLen = 1) := by
  refine ⟨OcclusionBetween_mem E Sub A B CellSizeCm, TraceAmbientRay01_mem E Sub P Dir MaxLen,
    ?_, ?_, ?_⟩
  · intro h
    unfold OcclusionBetween TraceAmbientRay01
    rcases h with h | h
    · rw [h]; exact ⟨rfl, rfl⟩
    · rw [h]
      cases Sub.World <;> exact ⟨rfl, rfl⟩
  · intro W S hW hS hT
    unfold OcclusionBetween
    rw [hW, hS]
    simp only [hT]
  · intro W S hW hS hT
    unfold TraceAmbientRay01
    rw [hW, hS]
    simp only [hT]

/-- C6, witness: in `exampleOneVolume` no ray hits and both operations return 1,
also for a zero and a negative cell size; in `exampleAllHit` every ray hits a
material of density 2 and the results stay in [0, 1]. -/
theorem C6_occlusion_in_unit_interval_witness :
    OcclusionBetween exampleEngine exampleOneVolume ⟨0, 0, 0⟩ ⟨100, 0, 0⟩ (-5) = 1 ∧
    TraceAmbientRay01 exampleEngine exampleOneVolume ⟨0, 0, 0⟩ ⟨0, 0, 1⟩ 100000 = 1 ∧
    OcclusionBetween exampleEngineLinearExp exampleAllHit ⟨0, 0, 0⟩ ⟨1 / 2, 0, 0⟩ 0 = 1 ∧
    OcclusionBetween exampleEngineLinearExp exampleAllHit ⟨0, 0, 0⟩ ⟨1, 0, 0⟩ 0 = 0 ∧
    (0 ≤ TraceAmbientRay01 exampleEngineLinearExp exampleAllHit ⟨0, 0, 0⟩ ⟨0, 0, 1⟩ 100000 ∧
      TraceAmbientRay01 exampleEngineLinearExp exampleAllHit ⟨0, 0, 0⟩ ⟨0, 0, 1⟩ 100000 ≤ 1) :=
  ⟨(C6_occlusion_in_unit_interval exampleEngine exampleOneVolume ⟨0, 0, 0⟩ ⟨100, 0, 0⟩
      ⟨0, 0, 0⟩ ⟨0, 0, 1⟩ (-5) 100000).2.2.2.1 _ exampleSettings rfl rfl rfl,
   (C6_occlusion_in_unit_interval exampleEngine exampleOneVolume ⟨0, 0, 0⟩ ⟨100, 0, 0⟩
      ⟨0, 0, 0⟩ ⟨0, 0, 1⟩ (-5) 100000).2.2.2.2 _ exampleSettings rfl rfl rfl,
   by decide!, by decide!,
   (C6_occlusion_in_unit_interval exampleEngineLinearExp exampleAllHit ⟨0, 0, 0⟩ ⟨1, 0, 0⟩
      ⟨0, 0, 0⟩ ⟨0, 0, 1⟩ 0 100000).2.1⟩

/-! ### Linear index and loop order of the bake -/

/-- Inside the `int32` range the wrap is the identity. -/
theorem wrapInt32_eq (n : Int) (h1 : -2147483648 ≤ n) (h2 : n < 2147483648) :
    wrapInt32 n = n := by
  unfold wrapInt32; omega

/-- In-range cells: the flat index is below the cell count and decodes. -/
theorem Index_in_range (Nx Ny Nz x y z : Int) (hN : Nx * Ny * Nz ≤ 2147483647)
    (hx0 : 0 ≤ x) (hx : x < Nx) (hy0 : 0 ≤ y) (hy : y < Ny) (hz0 : 0 ≤ z) (hz : z < Nz) :
    Index Nx Ny x y z = (z * Ny + y) * Nx + x ∧
    0 ≤ (z * Ny + y) * Nx + x ∧ (z * Ny + y) * Nx + x < Nx * Ny * Nz ∧
    ((z * Ny + y) * Nx + x) % Nx = x ∧
    (((z * Ny + y) * Nx + x) / Nx) % Ny = y ∧
    ((z * Ny + y) * Nx + x) / (Nx * Ny) = z := by
  have hNx : 0 < Nx := lt_of_le_of_lt hx0 hx
  have hNy : 0 < Ny := lt_of_le_of_lt hy0 hy
  have hNz : 0 < Nz := lt_of_le_of_lt hz0 hz
  have a1 : 0 ≤ z * Ny := mul_nonneg hz0 (le_of_lt hNy)
  have a2 : z * Ny + y + 1 ≤ Nz * Ny := by
    have : (z + 1) * Ny ≤ Nz * Ny := mul_le_mul_of_nonneg_right (by omega) (le_of_lt hNy)
    have e : (z + 1) * Ny = z * Ny + Ny := by ring
    omega
  have a3 : 0 ≤ (z * Ny + y) * Nx := mul_nonneg (by omega) (le_of_lt hNx)
  have a4 : (z * Ny + y) * Nx + Nx ≤ Nx * Ny * Nz := by
    have : (z * Ny + y + 1) * Nx ≤ (Nz * Ny) * Nx := mul_le_mul_of_nonneg_right a2 (le_of_lt hNx)
    have e1 : (z * Ny + y + 1) * Nx = (z * Ny + y) * Nx + Nx := by ring
    have e2 : (Nz * Ny) * Nx = Nx * Ny * Nz := by ring
    omega
  have a5 : Nz * Ny ≤ Nx * Ny * Nz := by
    have : 1 * (Nz * Ny) ≤ Nx * (Nz * Ny) :=
      mul_le_mul_of_nonneg_right (by omega) (mul_nonneg (le_of_lt hNz) (le_of_lt hNy))
    have e : Nx * (Nz * Ny) = Nx * Ny * Nz := by ring
    omega
  have hdiv : ((z * Ny + y) * Nx + x) / Nx = z * Ny + y := by
    rw [add_comm, Int.add_mul_ediv_right _ _ (ne_of_gt hNx), Int.ediv_eq_zero_of_lt hx0 hx]
    simp
  refine ⟨?_, by omega, by omega, ?_, ?_, ?_⟩
  · unfold Index
    rw [wrapInt32_eq (z * Ny) (by omega) (by omega),
      wrapInt32_eq (z * Ny + y) (by omega) (by omega),
      wrapInt32_eq ((z * Ny + y) * Nx) (by omega) (by omega),
      wrapInt32_eq ((z * Ny + y) * Nx + x) (by omega) (by omega)]
  · rw [add_comm, Int.add_mul_emod_self, Int.emod_eq_of_lt hx0 hx]
  · rw [hdiv, add_comm, Int.add_mul_emod_self, Int.emod_eq_of_lt hy0 hy]
  · have e : (z * Ny + y) * Nx + x = (y * Nx + x) + z * (Nx * Ny) := by ring
    have b1 : 0 ≤ y * Nx + x := add_nonneg (mul_nonneg hy0 (le_of_lt hNx)) hx0
    have b2 : y * Nx + x < Nx * Ny := by
      have : (y + 1) * Nx ≤ Ny * Nx := mul_le_mul_of_nonneg_right (by omega) (le_of_lt hNx)
      have e1 : (y + 1) * Nx = y * Nx + Nx := by ring
      have e2 : Ny * Nx = Nx * Ny := by ring
      omega
    rw [e, Int.add_mul_ediv_right _ _ (ne_of_gt (mul_pos hNx hNy)), Int.ediv_eq_zero_of_lt b1 b2]
    simp

/-- Every slot decodes to an in-range cell whose flat index is the slot. -/
theorem Index_decode (Nx Ny Nz i : Int) (hNx : 1 ≤ Nx) (hNy : 1 ≤ Ny)
    (hN : Nx * Ny * Nz ≤ 2147483647) (hi0 : 0 ≤ i) (hi : i < Nx * Ny * Nz) :
    (0 ≤ i % Nx ∧ i % Nx < Nx) ∧ (0 ≤ (i / Nx) % Ny ∧ (i / Nx) % Ny < Ny) ∧
    (0 ≤ i / (Nx * Ny) ∧ i / (Nx * Ny) < Nz) ∧
    Index Nx Ny (i % Nx) ((i / Nx) % Ny) (i / (Nx * Ny)) = i := by
  have hx0 := Int.emod_nonneg i (ne_of_gt (by omega : (0:Int) < Nx))
  have hx := Int.emod_lt_of_pos i (by omega : (0:Int) < Nx)
  have hy0 := Int.emod_nonneg (i / Nx) (ne_of_gt (by omega : (0:Int) < Ny))
  have hy := Int.emod_lt_of_pos (i / Nx) (by omega : (0:Int) < Ny)
  have hq0 : 0 ≤ i / Nx := Int.ediv_nonneg hi0 (by omega)
  have hq : i / Nx < Ny * Nz := by
    apply Int.ediv_lt_of_lt_mul (by omega)
    have e : Ny * Nz * Nx = Nx * Ny * Nz := by ring
    omega
  have hz0 : 0 ≤ i / Nx / Ny := Int.ediv_nonneg hq0 (by omega)
  have hz : i / Nx / Ny < Nz := by
    apply Int.ediv_lt_of_lt_mul (by omega)
    have e : Nz * Ny = Ny * Nz := by ring
    omega
  have e1 : i / Nx * Nx + i % Nx = i := Int.ediv_add_emod' i Nx
  have e2 : i / Nx / Ny * Ny + i / Nx % Ny = i / Nx := Int.ediv_add_emod' (i / Nx) Ny
  obtain ⟨r1, _, _, _, _, r6⟩ :=
    Index_in_range Nx Ny Nz (i % Nx) (i / Nx % Ny) (i / Nx / Ny) hN hx0 hx hy0 hy hz0 hz
  rw [e2, e1] at r6 r1
  rw [r6]
  exact ⟨⟨hx0, hx⟩, ⟨hy0, hy⟩, ⟨hz0, hz⟩, r1⟩

/-- A row-major enumeration of a rectangle is the range of its size. -/
theorem range_flatMap_affine (n m : Nat) :
    (List.range n).flatMap (fun a => (List.range m).map (fun b => a * m + b))
      = List.range (n * m) := by
  induction n with
  | zero => simp
  | succ n ih =>
    rw [List.range_succ, List.flatMap_append, ih, Nat.succ_mul, List.range_add]
    simp

/-- A row-major enumeration of a box is the range of its size. -/
theorem range_flatMap_flatMap_affine (nx ny nz : Nat) :
    (List.range nz).flatMap (fun z => (List.range ny).flatMap
      (fun y => (List.range nx).map (fun x => (z * ny + y) * nx + x)))
      = List.range (nz * (ny * nx)) := by
  rw [← range_flatMap_affine nz (ny * nx)]
  congr 1
  funext z
  rw [← range_flatMap_affine ny nx, List.map_flatMap]
  congr 1
  funext y
  rw [List.map_map]
  congr 1
  funext x
  simp only [Function.comp]
  ring

/-- A loop over a concatenation of inner loops is the nested loop. -/
theorem foldl_flatMap_eq {α β γ : Type} (f : β → γ → β) (g : α → List γ) (l : List α) (b : β) :
    (l.flatMap g).foldl f b = l.foldl (fun b a => (g a).foldl f b) b := by
  induction l generalizing b with
  | nil => rfl
  | cons a l ih => rw [List.flatMap_cons, List.foldl_append, ih, List.foldl_cons]

/-- A loop of writes at pairwise distinct positions leaves, at the position of each
visited element, the value written for it. -/
theorem foldl_set_getD {α C : Type} (idx : C → Nat) (val : C → α) (d : α) (cells : List C)
    (hnd : (cells.map idx).Nodup) (A : List α) (c : C) (hc : c ∈ cells)
    (hlen : idx c < A.length) :
    ((cells.foldl (fun A c => A.set (idx c) (val c)) A).getD (idx c) d = val c) ∧
    (cells.foldl (fun A c => A.set (idx c) (val c)) A).length = A.length := by
  induction cells using List.reverseRecOn with
  | nil => cases hc
  | append_singleton l a ih =>
    rw [List.foldl_append, List.foldl_cons, List.foldl_nil]
    rw [List.map_append, List.nodup_append] at hnd
    obtain ⟨hl, _, hdis⟩ := hnd
    have hL : ∀ (l : List C), (l.foldl (fun A c => A.set (idx c) (val c)) A).length = A.length := by
      intro l
      induction l using List.reverseRecOn with
      | nil => rfl
      | append_singleton l a ih2 =>
        rw [List.foldl_append, List.foldl_cons, List.foldl_nil, List.length_set, ih2]
    refine ⟨?_, by rw [List.length_set, hL]⟩
    rcases List.mem_append.1 hc with h | h
    · have hne : idx a ≠ idx c := by
        intro e
        exact hdis (List.mem_map_of_mem idx h) (by simp [e])
      have := (ih hl h).1
      rw [List.getD_eq_getElem?_getD] at this ⊢
      rw [List.getElem?_set_ne hne]
      exact this
    · have e : c = a := by simpa using h
      subst e
      rw [List.getD_eq_getElem?_getD, List.getElem?_set]
      simp [hL, hlen]

/-- The cells the loops of the bake visit are the cells inside the grid. -/
theorem mem_BakeCellOrder (Nx Ny Nz : Int) (c : Int × Int × Int) :
    c ∈ BakeCellOrder ⟨Nx, Ny, Nz⟩ ↔
      (0 ≤ c.1 ∧ c.1 < Nx) ∧ (0 ≤ c.2.1 ∧ c.2.1 < Ny) ∧ (0 ≤ c.2.2 ∧ c.2.2 < Nz) := by
  obtain ⟨x, y, z⟩ := c
  simp only [BakeCellOrder, List.mem_flatMap, List.mem_map, List.mem_range, Prod.mk.injEq]
  constructor
  · rintro ⟨k, hk, j, hj, i, hi, rfl, rfl, rfl⟩
    omega
  · rintro ⟨⟨hx0, hx⟩, ⟨hy0, hy⟩, ⟨hz0, hz⟩⟩
    exact ⟨z.toNat, by omega, y.toNat, by omega, x.toNat, by omega, by omega, by omega, by omega⟩

/-- The cell count of the bake is the product of the dimensions when that
product is in the `int32` range. -/
theorem BakeCellCount_eq (Nx Ny Nz : Int) (hNx : 1 ≤ Nx) (hNy : 1 ≤ Ny) (hNz : 1 ≤ Nz)
    (hN : Nx * Ny * Nz ≤ 2147483647) : BakeCellCount ⟨Nx, Ny, Nz⟩ = Nx * Ny * Nz := by
  have h1 : 0 < Nx * Ny := mul_pos (by omega) (by omega)
  have h2 : Nx * Ny * 1 ≤ Nx * Ny * Nz := mul_le_mul_of_nonneg_left hNz (le_of_lt h1)
  have h3 : 0 < Nx * Ny * Nz := mul_pos h1 (by omega)
  unfold BakeCellCount
  simp only
  rw [wrapInt32_eq (Nx * Ny) (by omega) (by omega),
    wrapInt32_eq (Nx * Ny * Nz) (by omega) (by omega)]

/-- The loops of the bake write the slots 0, 1, ..., N - 1 in this order. -/
theorem BakeCellOrder_map_Index (Nx Ny Nz : Int) (hNx : 1 ≤ Nx) (hNy : 1 ≤ Ny) (hNz : 1 ≤ Nz)
    (hN : Nx * Ny * Nz ≤ 2147483647) :
    (BakeCellOrder ⟨Nx, Ny, Nz⟩).map (fun c => Index Nx Ny c.1 c.2.1 c.2.2)
      = (List.range (Nx * Ny * Nz).toNat).map (fun (i : Nat) => (i : Int)) := by
  have step1 : (BakeCellOrder ⟨Nx, Ny, Nz⟩).map (fun c => Index Nx Ny c.1 c.2.1 c.2.2)
      = (BakeCellOrder ⟨Nx, Ny, Nz⟩).map (fun c => (c.2.2 * Ny + c.2.1) * Nx + c.1) := by
    apply List.map_congr_left
    intro c hc
    obtain ⟨⟨hx0, hx⟩, ⟨hy0, hy⟩, ⟨hz0, hz⟩⟩ := (mem_BakeCellOrder Nx Ny Nz c).1 hc
    exact (Index_in_range Nx Ny Nz c.1 c.2.1 c.2.2 hN hx0 hx hy0 hy hz0 hz).1
  rw [step1]
  have eN : (Nx * Ny * Nz).toNat = Nz.toNat * (Ny.toNat * Nx.toNat) := by
    have e1 : (Nx : Int) = (Nx.toNat : Int) := (Int.toNat_of_nonneg (by omega)).symm
    have e2 : (Ny : Int) = (Ny.toNat : Int) := (Int.toNat_of_nonneg (by omega)).symm
    have e3 : (Nz : Int) = (Nz.toNat : Int) := (Int.toNat_of_nonneg (by omega)).symm
    have : Nx * Ny * Nz = ((Nz.toNat * (Ny.toNat * Nx.toNat) : Nat) : Int) := by
      push_cast
      rw [← e1, ← e2, ← e3]
      ring
    rw [this, Int.toNat_natCast]
  rw [eN, ← range_flatMap_flatMap_affine Nx.toNat Ny.toNat Nz.toNat]
  simp only [BakeCellOrder, List.map_flatMap, List.map_map]
  congr 1
  funext z
  congr 1
  funext y
  congr 1
  funext x
  simp only [Function.comp]
  push_cast
  rw [Int.toNat_of_nonneg (by omega : 0 ≤ Nx), Int.toNat_of_nonneg (by omega : 0 ≤ Ny)]

/-- C7: for every grid with dimensions Nx, Ny, Nz >= 1 whose product is within
the `int32` range, the linear index `Index` of the bake,
(x, y, z) -> (z * Ny + y) * Nx + x, restricted to 0 <= x < Nx, 0 <= y < Ny,
0 <= z < Nz, is a bijection onto [0, Nx * Ny * Nz) with inverse
i -> (i mod Nx, (i / Nx) mod Ny, i / (Nx * Ny)):
(1) the index of an in-range cell is the formula, lies in [0, Nx * Ny * Nz), and the
inverse recovers (x, y, z);
(2) the inverse of a slot i in [0, Nx * Ny * Nz) is an in-range cell whose index is i;
(3) the cell count `N` of the bake is Nx * Ny * Nz, and the indices the loops of the
bake write, in loop order, are 0, 1, ..., N - 1: every slot exactly once. -/
theorem C7_linear_index_bijection (Nx Ny Nz : Int) (hNx : 1 ≤ Nx) (hNy : 1 ≤ Ny)
    (hNz : 1 ≤ Nz) (hN : Nx * Ny * Nz ≤ 2147483647) :
    (∀ x y z, 0 ≤ x → x < Nx → 0 ≤ y → y < Ny → 0 ≤ z → z < Nz →
      Index Nx Ny x y z = (z * Ny + y) * Nx + x ∧
      0 ≤ Index Nx Ny x y z ∧ Index Nx Ny x y z < Nx * Ny * Nz ∧
      Index Nx Ny x y z % Nx = x ∧
      (Index Nx Ny x y z / Nx) % Ny = y ∧
      Index Nx Ny x y z / (Nx * Ny) = z) ∧
    (∀ i, 0 ≤ i → i < Nx * Ny * Nz →
      (0 ≤ i % Nx ∧ i % Nx < Nx) ∧ (0 ≤ (i / Nx) % Ny ∧ (i / Nx) % Ny < Ny) ∧
      (0 ≤ i / (Nx * Ny) ∧ i / (Nx * Ny) < Nz) ∧
      Index Nx Ny (i % Nx) ((i / Nx) % Ny) (i / (Nx * Ny)) = i) ∧
    BakeCellCount ⟨Nx, Ny, Nz⟩ = Nx * Ny * Nz ∧
    (BakeCellOrder ⟨Nx, Ny, Nz⟩).map (fun c => Index Nx Ny c.1 c.2.1 c.2.2)
      = (List.range (Nx * Ny * Nz).toNat).map (fun (i : Nat) => (i : Int)) := by
  refine ⟨?_, ?_, BakeCellCount_eq Nx Ny Nz hNx hNy hNz hN,
    BakeCellOrder_map_Index Nx Ny Nz hNx hNy hNz hN⟩
  · intro x y z hx0 hx hy0 hy hz0 hz
    obtain ⟨r1, r2, r3, r4, r5, r6⟩ := Index_in_range Nx Ny Nz x y z hN hx0 hx hy0 hy hz0 hz
    rw [r1]
    exact ⟨rfl, r2, r3, r4, r5, r6⟩
  · intro i hi0 hi
    exact Index_decode Nx Ny Nz i hNx hNy hN hi0 hi

/-- C7, witness: the grid 2 x 3 x 4.  The cell (1, 2, 3) has index 23, the slot 17
decodes to the cell (1, 2, 2), and the loops write the slots 0, ..., 23 in order. -/
theorem C7_linear_index_bijection_witness :
    Index 2 3 1 2 3 = 23 ∧
    Index 2 3 (17 % 2) ((17 / 2) % 3) (17 / (2 * 3)) = 17 ∧
    BakeCellCount ⟨2, 3, 4⟩ = 24 ∧
    (BakeCellOrder ⟨2, 3, 4⟩).map (fun c => Index 2 3 c.1 c.2.1 c.2.2)
      = (List.range (2 * 3 * 4 : Int).toNat).map (fun (i : Nat) => (i : Int)) :=
  ⟨((C7_linear_index_bijection 2 3 4 (by decide) (by decide) (by decide) (by decide)).1
      1 2 3 (by decide) (by decide) (by decide) (by decide) (by decide) (by decide)).1,
   ((C7_linear_index_bijection 2 3 4 (by decide) (by decide) (by decide) (by decide)).2.1
      17 (by decide) (by decide)).2.2.2,
   (C7_linear_index_bijection 2 3 4 (by decide) (by decide) (by decide) (by decide)).2.2.1,
   (C7_linear_index_bijection 2 3 4 (by decide) (by decide) (by decide) (by decide)).2.2.2⟩

/-! ### Index range of the bake -/

/-- The floor of a quotient by the cell size: cell `i0` starts at or before the
minimum, and cell `i0 + 1` starts after it. -/
theorem floor_div_cell (mn Cell : K) (hC : 0 < Cell) :
    ((Int.floor (mn / Cell) : Int) : K) * Cell ≤ mn ∧
    mn < ((Int.floor (mn / Cell) + 1 : Int) : K) * Cell := by
  constructor
  · have h := Int.floor_le (mn / Cell)
    calc ((⌊mn / Cell⌋ : Int) : K) * Cell ≤ mn / Cell * Cell :=
          mul_le_mul_of_nonneg_right h (le_of_lt hC)
      _ = mn := div_mul_cancel₀ mn (ne_of_gt hC)
  · have h := Int.lt_floor_add_one (mn / Cell)
    push_cast
    calc mn = mn / Cell * Cell := (div_mul_cancel₀ mn (ne_of_gt hC)).symm
      _ < ((⌊mn / Cell⌋ : K) + 1) * Cell := mul_lt_mul_of_pos_right h hC

/-- The ceiling of a quotient by the cell size, minus 1: cell `i1` ends at or after
the maximum, and starts before it. -/
theorem ceil_div_cell (mx Cell : K) (hC : 0 < Cell) :
    mx ≤ ((Int.ceil (mx / Cell) - 1 + 1 : Int) : K) * Cell ∧
    ((Int.ceil (mx / Cell) - 1 : Int) : K) * Cell < mx := by
  constructor
  · have h := Int.le_ceil (mx / Cell)
    rw [sub_add_cancel]
    calc mx = mx / Cell * Cell := (div_mul_cancel₀ mx (ne_of_gt hC)).symm
      _ ≤ ((⌈mx / Cell⌉ : Int) : K) * Cell := mul_le_mul_of_nonneg_right h (le_of_lt hC)
  · have h := Int.ceil_lt_add_one (mx / Cell)
    push_cast
    have h2 : (⌈mx / Cell⌉ : K) - 1 < mx / Cell := by linarith
    calc ((⌈mx / Cell⌉ : K) - 1) * Cell < mx / Cell * Cell := mul_lt_mul_of_pos_right h2 hC
      _ = mx := div_mul_cancel₀ mx (ne_of_gt hC)

/-- Without `int32` overflow the lambdas `FloorDiv0` and `CeilDiv0`, the last index
and the count of an axis are the exact floor, ceiling, ceiling minus 1 and
difference plus 1. -/
theorem axis_int32_exact (mn mx Cell : K) (hfit : AxisInInt32 mn mx Cell) :
    FloorDiv0 mn Cell = Int.floor (mn / Cell) ∧
    CeilDiv0 mx Cell = Int.ceil (mx / Cell) ∧
    wrapInt32 (CeilDiv0 mx Cell - 1) = Int.ceil (mx / Cell) - 1 ∧
    wrapInt32 (wrapInt32 (wrapInt32 (CeilDiv0 mx Cell - 1) - FloorDiv0 mn Cell) + 1)
      = Int.ceil (mx / Cell) - 1 - Int.floor (mn / Cell) + 1 := by
  obtain ⟨⟨a1, a2⟩, ⟨b1, b2⟩, ⟨c1, c2⟩, ⟨d1, d2⟩, ⟨e1, e2⟩⟩ := hfit
  have hf : FloorDiv0 mn Cell = Int.floor (mn / Cell) := by
    unfold FloorDiv0 FMath.FloorToInt
    exact wrapInt32_eq _ a1 (by omega)
  have hc : CeilDiv0 mx Cell = Int.ceil (mx / Cell) := by
    unfold CeilDiv0 FMath.CeilToInt
    exact wrapInt32_eq _ b1 (by omega)
  have h1 : wrapInt32 (CeilDiv0 mx Cell - 1) = Int.ceil (mx / Cell) - 1 := by
    rw [hc]; exact wrapInt32_eq _ c1 (by omega)
  refine ⟨hf, hc, h1, ?_⟩
  rw [h1, hf, wrapInt32_eq _ d1 (by omega), wrapInt32_eq _ e1 (by omega)]

/-- C10, counterexample: the box of `exampleHugeVolume` has the grid-space extent
[0, 429496729800] on X with cell size 100.  The ceiling 4294967298 of max / cell
does not fit `int32`: `CeilDiv0` returns 2, the bake takes the X range 0..1 and the
dimensions (2, 1, 1), and the cells 0..1 end at 200, far before the maximum. -/
theorem C10_counterexample_index_range_wraps :
    (BakeGridBox exampleHugeVolume).Min.X = 0 ∧
    (BakeGridBox exampleHugeVolume).Max.X = 429496729800 ∧
    exampleHugeVolume.EffectiveCellSize = 100 ∧
    Int.ceil ((429496729800 : ℚ) / 100) = 4294967298 ∧
    CeilDiv0 (429496729800 : ℚ) 100 = 2 ∧
    (BakeIndexRange exampleHugeVolume).ix0 = 0 ∧
    (BakeIndexRange exampleHugeVolume).ix1 = 1 ∧
    (BakeIndexRange exampleHugeVolume).Dim = ⟨2, 1, 1⟩ ∧
    ¬ ((BakeGridBox exampleHugeVolume).Max.X
        ≤ (((BakeIndexRange exampleHugeVolume).ix1 + 1 : Int) : ℚ) * 100) := by
  decide!

/-- C10, amended: the per-axis index range of the bake is the minimal cover of the
box when no `int32` value of the computation overflows.  For every cell size > 0
and grid-space extent [min, max] with min <= max such that floor(min / cell),
ceil(max / cell), ceil(max / cell) - 1, the difference of the last and the first
index and that difference plus 1 are `int32` values, the indices the code computes,
i0 = `FloorDiv0 min cell` and i1 = `CeilDiv0 max cell - 1` in `int32`, are
floor(min / cell) and ceil(max / cell) - 1 and satisfy i0 * cell <= min and
(i1 + 1) * cell >= max (the cells i0..i1 cover the extent), and no smaller range
does: (i0 + 1) * cell > min and i1 * cell < max; the count i1 - i0 + 1 is not
negative.  For every volume of that cell size whose three axes keep the `int32`
range, the range `BakeIndexRange` computes from the grid-space box `GridBox` has
these four properties on each of the three axes, and the dimension it stores is
max(0, i1 - i0 + 1). -/
theorem C10_bake_index_range_is_minimal_cover (mn mx Cell : K) (hC : 0 < Cell)
    (hmm : mn ≤ mx) (hfit : AxisInInt32 mn mx Cell) :
    (FloorDiv0 mn Cell = Int.floor (mn / Cell) ∧
      wrapInt32 (CeilDiv0 mx Cell - 1) = Int.ceil (mx / Cell) - 1) ∧
    (((FloorDiv0 mn Cell : Int) : K) * Cell ≤ mn ∧
      mx ≤ ((wrapInt32 (CeilDiv0 mx Cell - 1) + 1 : Int) : K) * Cell) ∧
    (mn < ((FloorDiv0 mn Cell + 1 : Int) : K) * Cell ∧
      ((wrapInt32 (CeilDiv0 mx Cell - 1) : Int) : K) * Cell < mx) ∧
    0 ≤ wrapInt32 (CeilDiv0 mx Cell - 1) - FloorDiv0 mn Cell + 1 ∧
    (∀ V : AThermoForgeVolume K, V.EffectiveCellSize = Cell →
      AxisInInt32 (BakeGridBox V).Min.X (BakeGridBox V).Max.X Cell →
      AxisInInt32 (BakeGridBox V).Min.Y (BakeGridBox V).Max.Y Cell →
      AxisInInt32 (BakeGridBox V).Min.Z (BakeGridBox V).Max.Z Cell →
      ((((BakeIndexRange V).ix0 : K) * Cell ≤ (BakeGridBox V).Min.X ∧
          (BakeGridBox V).Max.X ≤ (((BakeIndexRange V).ix1 + 1 : Int) : K) * Cell) ∧
        ((BakeGridBox V).Min.X < (((BakeIndexRange V).ix0 + 1 : Int) : K) * Cell ∧
          ((BakeIndexRange V).ix1 : K) * Cell < (BakeGridBox V).Max.X)) ∧
      ((((BakeIndexRange V).iy0 : K) * Cell ≤ (BakeGridBox V).Min.Y ∧
          (BakeGridBox V).Max.Y ≤ (((BakeIndexRange V).iy1 + 1 : Int) : K) * Cell) ∧
        ((BakeGridBox V).Min.Y < (((BakeIndexRange V).iy0 + 1 : Int) : K) * Cell ∧
          ((BakeIndexRange V).iy1 : K) * Cell < (BakeGridBox V).Max.Y)) ∧
      ((((BakeIndexRange V).iz0 : K) * Cell ≤ (BakeGridBox V).Min.Z ∧
          (BakeGridBox V).Max.Z ≤ (((BakeIndexRange V).iz1 + 1 : Int) : K) * Cell) ∧
        ((BakeGridBox V).Min.Z < (((BakeIndexRange V).iz0 + 1 : Int) : K) * Cell ∧
          ((BakeIndexRange V).iz1 : K) * Cell < (BakeGridBox V).Max.Z)) ∧
      (BakeIndexRange V).Dim.X = max 0 ((BakeIndexRange V).ix1 - (BakeIndexRange V).ix0 + 1) ∧
      (BakeIndexRange V).Dim.Y = max 0 ((BakeIndexRange V).iy1 - (BakeIndexRange V).iy0 + 1) ∧
      (BakeIndexRange V).Dim.Z = max 0 ((BakeIndexRange V).iz1 - (BakeIndexRange V).iz0 + 1)) := by
  have hmax : ∀ n : Int, FMath.Max 0 n = max 0 n := by
    intro n
    unfold FMath.Max
    split_ifs with h
    · exact (max_eq_left (le_of_lt h)).symm
    · exact (max_eq_right (not_lt.1 h)).symm
  have axis : ∀ a b : K, AxisInInt32 a b Cell →
      (FloorDiv0 a Cell = Int.floor (a / Cell) ∧
        wrapInt32 (CeilDiv0 b Cell - 1) = Int.ceil (b / Cell) - 1) ∧
      ((((FloorDiv0 a Cell : Int) : K) * Cell ≤ a ∧
          b ≤ ((wrapInt32 (CeilDiv0 b Cell - 1) + 1 : Int) : K) * Cell) ∧
        (a < ((FloorDiv0 a Cell + 1 : Int) : K) * Cell ∧
          ((wrapInt32 (CeilDiv0 b Cell - 1) : Int) : K) * Cell < b)) ∧
      wrapInt32 (wrapInt32 (wrapInt32 (CeilDiv0 b Cell - 1) - FloorDiv0 a Cell) + 1)
        = wrapInt32 (CeilDiv0 b Cell - 1) - FloorDiv0 a Cell + 1 := by
    intro a b hab
    obtain ⟨e1, _, e3, e4⟩ := axis_int32_exact a b Cell hab
    obtain ⟨f1, f2⟩ := floor_div_cell a Cell hC
    obtain ⟨c1, c2⟩ := ceil_div_cell b Cell hC
    refine ⟨⟨e1, e3⟩, ?_, ?_⟩
    · rw [e1, e3]
      exact ⟨⟨f1, c1⟩, ⟨f2, c2⟩⟩
    · rw [e4, e3, e1]
  obtain ⟨hex, ⟨hcov, hmin⟩, _⟩ := axis mn mx hfit
  refine ⟨hex, hcov, hmin, ?_, ?_⟩
  · rw [hex.1, hex.2]
    obtain ⟨f1, _⟩ := floor_div_cell mn Cell hC
    obtain ⟨c1, _⟩ := ceil_div_cell mx Cell hC
    rw [sub_add_cancel] at c1
    have h : ((Int.floor (mn / Cell) : Int) : K) * Cell
        ≤ ((Int.ceil (mx / Cell) : Int) : K) * Cell := le_trans f1 (le_trans hmm c1)
    have h2 : ((Int.floor (mn / Cell) : Int) : K) ≤ ((Int.ceil (mx / Cell) : Int) : K) :=
      le_of_mul_le_mul_right h hC
    have h3 : Int.floor (mn / Cell) ≤ Int.ceil (mx / Cell) := by exact_mod_cast h2
    omega
  · intro V hV hX hY hZ
    obtain ⟨_, hx, dx⟩ := axis _ _ hX
    obtain ⟨_, hy, dy⟩ := axis _ _ hY
    obtain ⟨_, hz, dz⟩ := axis _ _ hZ
    unfold BakeIndexRange
    simp only [hV]
    exact ⟨hx, hy, hz, by rw [dx]; exact hmax _, by rw [dy]; exact hmax _,
      by rw [dz]; exact hmax _⟩

/-- C10, witness: the extent [-250, 250] with cell size 100 keeps the `int32`
range and gives i0 = -3 and i1 = 2: the cells -3..2 span [-300, 300], and the cells
-2..2 or -3..1 would not cover the extent.  The box [0,200] x [0,200] x [0,100] of
`exampleWallVolume` gives the X range 0..1 and 2 x 2 x 1 cells. -/
theorem C10_bake_index_range_is_minimal_cover_witness :
    AxisInInt32 (-250 : ℚ) 250 100 ∧
    FloorDiv0 (-250 : ℚ) 100 = -3 ∧ wrapInt32 (CeilDiv0 (250 : ℚ) 100 - 1) = 2 ∧
    ((((FloorDiv0 (-250 : ℚ) 100 : Int) : ℚ) * 100 ≤ -250 ∧
      (250 : ℚ) ≤ ((wrapInt32 (CeilDiv0 (250 : ℚ) 100 - 1) + 1 : Int) : ℚ) * 100) ∧
    ((-250 : ℚ) < ((FloorDiv0 (-250 : ℚ) 100 + 1 : Int) : ℚ) * 100 ∧
      ((wrapInt32 (CeilDiv0 (250 : ℚ) 100 - 1) : Int) : ℚ) * 100 < 250)) ∧
    ((BakeGridBox exampleWallVolume).Min.X = 0 ∧ (BakeGridBox exampleWallVolume).Max.X = 200 ∧
      (BakeIndexRange exampleWallVolume).ix0 = 0 ∧ (BakeIndexRange exampleWallVolume).ix1 = 1 ∧
      (BakeIndexRange exampleWallVolume).Dim = ⟨2, 2, 1⟩) ∧
    ((((BakeIndexRange exampleWallVolume).ix0 : ℚ) * 100 ≤ (BakeGridBox exampleWallVolume).Min.X ∧
        (BakeGridBox exampleWallVolume).Max.X
          ≤ (((BakeIndexRange exampleWallVolume).ix1 + 1 : Int) : ℚ) * 100) ∧
      ((BakeGridBox exampleWallVolume).Min.X
          < (((BakeIndexRange exampleWallVolume).ix0 + 1 : Int) : ℚ) * 100 ∧
        ((BakeIndexRange exampleWallVolume).ix1 : ℚ) * 100
          < (BakeGridBox exampleWallVolume).Max.X)) :=
  ⟨by decide!, by decide!, by decide!,
   ⟨(C10_bake_index_range_is_minimal_cover (-250 : ℚ) 250 100 (by norm_num) (by norm_num)
      (by decide!)).2.1,
    (C10_bake_index_range_is_minimal_cover (-250 : ℚ) 250 100 (by norm_num) (by norm_num)
      (by decide!)).2.2.1⟩,
   by decide!,
   ((C10_bake_index_range_is_minimal_cover (-250 : ℚ) 250 100 (by norm_num)
      (by norm_num) (by decide!)).2.2.2.2 exampleWallVolume rfl (by decide!) (by decide!)
      (by decide!)).1⟩

/-! ### Wall permeability of the bake -/

omit [FloorRing K] in
/-- The neighbour loop adds, to its start values, the clamped permeabilities of the
in-bounds neighbours and their number. -/
theorem foldl_wall_loop (Nx Ny Nz : Int) (f : Int × Int × Int → K)
    (l : List (Int × Int × Int)) (acc : K × Int) :
    l.foldl
      (fun (acc : K × Int) (n : Int × Int × Int) =>
        if n.1 < 0 ∨ n.2.1 < 0 ∨ n.2.2 < 0 ∨ n.1 ≥ Nx ∨ n.2.1 ≥ Ny ∨ n.2.2 ≥ Nz then acc
        else (acc.1 + f n, acc.2 + 1))
      acc
    = (acc.1 + ((l.filter (fun n => decide ((0 ≤ n.1 ∧ n.1 < Nx) ∧ (0 ≤ n.2.1 ∧ n.2.1 < Ny)
          ∧ (0 ≤ n.2.2 ∧ n.2.2 < Nz)))).map f).sum,
       acc.2 + ((l.filter (fun n => decide ((0 ≤ n.1 ∧ n.1 < Nx) ∧ (0 ≤ n.2.1 ∧ n.2.1 < Ny)
          ∧ (0 ≤ n.2.2 ∧ n.2.2 < Nz)))).length : Int)) := by
  induction l generalizing acc with
  | nil => simp
  | cons n l ih =>
    rw [List.foldl_cons, ih]
    by_cases h : n.1 < 0 ∨ n.2.1 < 0 ∨ n.2.2 < 0 ∨ n.1 ≥ Nx ∨ n.2.1 ≥ Ny ∨ n.2.2 ≥ Nz
    · have hp : ¬ ((0 ≤ n.1 ∧ n.1 < Nx) ∧ (0 ≤ n.2.1 ∧ n.2.1 < Ny)
          ∧ (0 ≤ n.2.2 ∧ n.2.2 < Nz)) := by omega
      rw [if_pos h, List.filter_cons_of_neg (by simpa using hp)]
    · have hp : (0 ≤ n.1 ∧ n.1 < Nx) ∧ (0 ≤ n.2.1 ∧ n.2.1 < Ny)
          ∧ (0 ≤ n.2.2 ∧ n.2.2 < Nz) := by omega
      rw [if_neg h, List.filter_cons_of_pos (by simpa using hp)]
      simp only [List.map_cons, List.sum_cons, List.length_cons, Nat.cast_add, Nat.cast_one]
      refine Prod.ext ?_ ?_
      · simp only; ring
      · simp only; ring

omit [FloorRing K] in
/-- The neighbour loop of the bake computes the sum and the number of the
permeabilities of the in-bounds neighbours. -/
theorem BakeWallLoop_eq (E : Engine K) (Sub : UThermoForgeSubsystem K)
    (V : AThermoForgeVolume K) (R : BakeRange) (x y z : Int) :
    BakeWallLoop E Sub V R x y z =
      ((NeighborPermeabilities E Sub V R x y z).sum,
       ((InBoundsNeighbors R.Dim x y z).length : Int)) := by
  unfold BakeWallLoop NeighborPermeabilities InBoundsNeighbors
  simp only
  rw [foldl_wall_loop R.Dim.X R.Dim.Y R.Dim.Z
    (fun n => FMath.Clamp (OcclusionBetween E Sub (Center V R x y z)
      (Center V R n.1 n.2.1 n.2.2) V.EffectiveCellSize) 0 1)]
  simp

omit [FloorRing K] in
/-- The mean of a non-empty list of values in [0, 1] lies in [0, 1]. -/
theorem mean_mem_unit (l : List K) (hl : ∀ a ∈ l, 0 ≤ a ∧ a ≤ 1) (hne : l.length ≠ 0) :
    0 ≤ l.sum / (l.length : K) ∧ l.sum / (l.length : K) ≤ 1 := by
  have hpos : (0 : K) < (l.length : K) := by
    exact_mod_cast Nat.pos_of_ne_zero hne
  have h0 : 0 ≤ l.sum := List.sum_nonneg (fun a ha => (hl a ha).1)
  have h1 : l.sum ≤ (l.length : K) := by
    have := List.sum_le_card_nsmul l 1 (fun a ha => (hl a ha).2)
    simpa using this
  exact ⟨div_nonneg h0 (le_of_lt hpos), (div_le_one hpos).2 h1⟩

omit [FloorRing K] in
/-- The cell loop of the bake is one loop over the cells in visiting order. -/
theorem BakeCells_eq_foldl (E : Engine K) (Sub : UThermoForgeSubsystem K)
    (V : AThermoForgeVolume K) (R : BakeRange) :
    BakeCells E Sub V R =
      (BakeCellOrder R.Dim).foldl (fun A c => BakeCellStep E Sub V R A c.1 c.2.1 c.2.2)
        { Sky := List.replicate (BakeCellCount R.Dim).toNat 0,
          Wall := List.replicate (BakeCellCount R.Dim).toNat 0,
          Indoor := List.replicate (BakeCellCount R.Dim).toNat 0 } := by
  unfold BakeCells BakeCellOrder
  simp only [foldl_flatMap_eq, List.foldl_map]

omit [FloorRing K] in
/-- The wall array after a run of cell steps is the wall array written cell by
cell. -/
theorem foldl_BakeCellStep_Wall (E : Engine K) (Sub : UThermoForgeSubsystem K)
    (V : AThermoForgeVolume K) (R : BakeRange) (cells : List (Int × Int × Int))
    (A : BakeArrays K) :
    (cells.foldl (fun A c => BakeCellStep E Sub V R A c.1 c.2.1 c.2.2) A).Wall =
      cells.foldl
        (fun W c => W.set (Index R.Dim.X R.Dim.Y c.1 c.2.1 c.2.2).toNat
          (BakeWallPerm E Sub V R c.1 c.2.1 c.2.2))
        A.Wall := by
  induction cells generalizing A with
  | nil => rfl
  | cons c cells ih =>
    rw [List.foldl_cons, List.foldl_cons, ih]
    rfl

omit [FloorRing K] in
/-- The slot of an in-range cell in the wall array of a bake holds the wall
permeability computed for that cell, and the array has one slot per cell. -/
theorem BakeCells_Wall_getD (E : Engine K) (Sub : UThermoForgeSubsystem K)
    (V : AThermoForgeVolume K) (R : BakeRange) (x y z : Int)
    (hx0 : 0 ≤ x) (hx : x < R.Dim.X) (hy0 : 0 ≤ y) (hy : y < R.Dim.Y)
    (hz0 : 0 ≤ z) (hz : z < R.Dim.Z)
    (hN : R.Dim.X * R.Dim.Y * R.Dim.Z ≤ 2147483647) :
    (BakeCells E Sub V R).Wall.getD (Index R.Dim.X R.Dim.Y x y z).toNat 0
      = BakeWallPerm E Sub V R x y z ∧
    ((BakeCells E Sub V R).Wall.length : Int) = R.Dim.X * R.Dim.Y * R.Dim.Z := by
  have hNx : 1 ≤ R.Dim.X := by omega
  have hNy : 1 ≤ R.Dim.Y := by omega
  have hNz : 1 ≤ R.Dim.Z := by omega
  have hcount := BakeCellCount_eq R.Dim.X R.Dim.Y R.Dim.Z hNx hNy hNz hN
  have horder := BakeCellOrder_map_Index R.Dim.X R.Dim.Y R.Dim.Z hNx hNy hNz hN
  have hdim : (⟨R.Dim.X, R.Dim.Y, R.Dim.Z⟩ : FIntVector) = R.Dim := rfl
  rw [hdim] at hcount horder
  obtain ⟨_, r2, r3, _⟩ := Index_in_range R.Dim.X R.Dim.Y R.Dim.Z x y z hN hx0 hx hy0 hy hz0 hz
  have r1 := (Index_in_range R.Dim.X R.Dim.Y R.Dim.Z x y z hN hx0 hx hy0 hy hz0 hz).1
  have hpos : 0 ≤ R.Dim.X * R.Dim.Y * R.Dim.Z := by omega
  have hnd : ((BakeCellOrder R.Dim).map
      (fun c => (Index R.Dim.X R.Dim.Y c.1 c.2.1 c.2.2).toNat)).Nodup := by
    have e : (BakeCellOrder R.Dim).map (fun c => (Index R.Dim.X R.Dim.Y c.1 c.2.1 c.2.2).toNat)
        = ((BakeCellOrder R.Dim).map (fun c => Index R.Dim.X R.Dim.Y c.1 c.2.1 c.2.2)).map
            Int.toNat := by
      rw [List.map_map]; rfl
    rw [e, horder, List.map_map]
    have e2 : (Int.toNat ∘ fun (i : Nat) => (i : Int)) = id := by
      funext i; simp
    rw [e2, List.map_id]
    exact List.nodup_range _
  have hmem : (x, y, z) ∈ BakeCellOrder R.Dim :=
    (mem_BakeCellOrder R.Dim.X R.Dim.Y R.Dim.Z (x, y, z)).2 ⟨⟨hx0, hx⟩, ⟨hy0, hy⟩, ⟨hz0, hz⟩⟩
  have hlen : (Index R.Dim.X R.Dim.Y x y z).toNat
      < (List.replicate (BakeCellCount R.Dim).toNat (0 : K)).length := by
    rw [List.length_replicate, hcount, r1]
    omega
  have key := foldl_set_getD
    (fun c : Int × Int × Int => (Index R.Dim.X R.Dim.Y c.1 c.2.1 c.2.2).toNat)
    (fun c => BakeWallPerm E Sub V R c.1 c.2.1 c.2.2) (0 : K) (BakeCellOrder R.Dim) hnd
    (List.replicate (BakeCellCount R.Dim).toNat (0 : K)) (x, y, z) hmem hlen
  rw [BakeCells_eq_foldl, foldl_BakeCellStep_Wall]
  refine ⟨key.1, ?_⟩
  rw [key.2, List.length_replicate, hcount]
  omega

omit [FloorRing K] in
/-- C9: in the bake, for every cell (x, y, z) of the grid, the wall permeability
`wallPerm` is the arithmetic mean of the between-points permeabilities
(`OcclusionBetween` from the centre of the cell to the centre of the neighbour,
each clamped to [0, 1]) to exactly those of the 6 axis neighbours (x±1, y, z),
(x, y±1, z), (x, y, z±1) that lie inside the grid bounds, and is 1 when no neighbour
is in bounds, which happens only for a 1 x 1 x 1 grid; it lies in [0, 1]; and, the
cell count being within the `int32` range, it is the value stored in the slot
`Index(x, y, z)` of the array `Wall`. -/
theorem C9_wall_permeability_is_neighbour_mean (E : Engine K)
    (Sub : UThermoForgeSubsystem K) (V : AThermoForgeVolume K) (R : BakeRange) (x y z : Int)
    (hx0 : 0 ≤ x) (hx : x < R.Dim.X) (hy0 : 0 ≤ y) (hy : y < R.Dim.Y)
    (hz0 : 0 ≤ z) (hz : z < R.Dim.Z) :
    (BakeWallPerm E Sub V R x y z =
      if (InBoundsNeighbors R.Dim x y z).length = 0 then 1
      else (NeighborPermeabilities E Sub V R x y z).sum
        / ((InBoundsNeighbors R.Dim x y z).length : K)) ∧
    (∀ n, n ∈ InBoundsNeighbors R.Dim x y z ↔
      n ∈ [(x - 1, y, z), (x + 1, y, z), (x, y - 1, z), (x, y + 1, z), (x, y, z - 1),
        (x, y, z + 1)] ∧
      (0 ≤ n.1 ∧ n.1 < R.Dim.X) ∧ (0 ≤ n.2.1 ∧ n.2.1 < R.Dim.Y)
        ∧ (0 ≤ n.2.2 ∧ n.2.2 < R.Dim.Z)) ∧
    ((InBoundsNeighbors R.Dim x y z).length = 0 ↔
      R.Dim.X = 1 ∧ R.Dim.Y = 1 ∧ R.Dim.Z = 1) ∧
    (0 ≤ BakeWallPerm E Sub V R x y z ∧ BakeWallPerm E Sub V R x y z ≤ 1) ∧
    (R.Dim.X * R.Dim.Y * R.Dim.Z ≤ 2147483647 →
      (BakeCells E Sub V R).Wall.getD (Index R.Dim.X R.Dim.Y x y z).toNat 0
        = BakeWallPerm E Sub V R x y z) := by
  have hmean : BakeWallPerm E Sub V R x y z =
      if (InBoundsNeighbors R.Dim x y z).length = 0 then 1
      else (NeighborPermeabilities E Sub V R x y z).sum
        / ((InBoundsNeighbors R.Dim x y z).length : K) := by
    unfold BakeWallPerm
    simp only [BakeWallLoop_eq]
    by_cases h0 : (InBoundsNeighbors R.Dim x y z).length = 0
    · rw [if_pos h0, h0]
      simp
    · rw [if_neg h0]
      have hpos : ((InBoundsNeighbors R.Dim x y z).length : Int) > 0 := by
        have := Nat.pos_of_ne_zero h0
        exact_mod_cast this
      rw [if_pos hpos]
      simp
  refine ⟨hmean, ?_, ?_, ?_, ?_⟩
  · intro n
    unfold InBoundsNeighbors BakeNeighbors
    rw [List.mem_filter, decide_eq_true_iff]
  · rw [List.length_eq_zero]
    unfold InBoundsNeighbors BakeNeighbors
    rw [List.filter_eq_nil_iff]
    simp only [List.mem_cons, List.mem_singleton, List.not_mem_nil, or_false,
      decide_eq_true_iff, forall_eq_or_imp, forall_eq]
    omega
  · rw [hmean]
    by_cases h0 : (InBoundsNeighbors R.Dim x y z).length = 0
    · rw [if_pos h0]
      exact ⟨zero_le_one, le_refl _⟩
    · rw [if_neg h0]
      have hlen : (NeighborPermeabilities E Sub V R x y z).length
          = (InBoundsNeighbors R.Dim x y z).length := by
        unfold NeighborPermeabilities
        rw [List.length_map]
      rw [← hlen]
      apply mean_mem_unit
      · intro a ha
        unfold NeighborPermeabilities at ha
        obtain ⟨n, _, rfl⟩ := List.mem_map.1 ha
        exact Clamp_zero_one_mem _
      · rw [hlen]; exact h0
  · intro hN
    exact (BakeCells_Wall_getD E Sub V R x y z hx0 hx hy0 hy hz0 hz hN).1

/-- C9, witness: in `exampleWalls` the grid of `exampleWallVolume` has 2 x 2 x 1
cells; the cell (0, 0, 0) has the in-bounds neighbours (1, 0, 0), whose ray is blocked
(permeability 0), and (0, 1, 0), whose ray is free (permeability 1); its wall
permeability is the mean 1/2, stored in slot 0 of `Wall`. -/
theorem C9_wall_permeability_is_neighbour_mean_witness :
    (BakeIndexRange exampleWallVolume).Dim = ⟨2, 2, 1⟩ ∧
    InBoundsNeighbors (BakeIndexRange exampleWallVolume).Dim 0 0 0 = [(1, 0, 0), (0, 1, 0)] ∧
    NeighborPermeabilities exampleEngineLinearExp exampleWalls exampleWallVolume
      (BakeIndexRange exampleWallVolume) 0 0 0 = [0, 1] ∧
    BakeWallPerm exampleEngineLinearExp exampleWalls exampleWallVolume
      (BakeIndexRange exampleWallVolume) 0 0 0 = 1 / 2 ∧
    (BakeCells exampleEngineLinearExp exampleWalls exampleWallVolume
      (BakeIndexRange exampleWallVolume)).Wall.getD
        (Index (BakeIndexRange exampleWallVolume).Dim.X (BakeIndexRange exampleWallVolume).Dim.Y
          0 0 0).toNat 0
      = BakeWallPerm exampleEngineLinearExp exampleWalls exampleWallVolume
          (BakeIndexRange exampleWallVolume) 0 0 0 :=
  ⟨by decide!, by decide!, by decide!, by decide!,
   (C9_wall_permeability_is_neighbour_mean exampleEngineLinearExp exampleWalls
      exampleWallVolume (BakeIndexRange exampleWallVolume) 0 0 0
      (by decide!) (by decide!) (by decide!) (by decide!) (by decide!) (by decide!)).2.2.2.2
      (by decide!)⟩

/-! ### Persistence failure -/

/-- C8, counterexample: in `exampleRebake` the volume references the field of an
earlier bake (sky openness 1/2, wall permeability 1/4, indoor-ness 3/8 in every
cell).  A bake of the now empty scene whose save fails leaves the reference of the
volume as it was, but the referenced field is no longer the one from before the
bake: its arrays are those of the new bake (sky openness 1, wall permeability 1,
indoor-ness 0 in every cell). -/
theorem C8_counterexample_failed_save_overwrites_field :
    (WorldVolumes exampleRebake).map (fun V => V.BakedField) = [some (FieldPackageName "W")] ∧
    exampleRebake.Assets (FieldPackageName "W") = some exampleOldField ∧
    (WorldVolumes (KickstartSamplingFromVolumes exampleEngine exampleRebake
      (fun _ _ => false))).map (fun V => V.BakedField) = [some (FieldPackageName "W")] ∧
    (KickstartSamplingFromVolumes exampleEngine exampleRebake
      (fun _ _ => false)).Assets (FieldPackageName "W")
      = some { exampleOldField with
          SkyView01 := [1, 1, 1, 1], WallPermeability01 := [1, 1, 1, 1],
          Indoorness01 := [0, 0, 0, 0] } ∧
    (KickstartSamplingFromVolumes exampleEngine exampleRebake
      (fun _ _ => false)).Assets (FieldPackageName "W")
      ≠ exampleRebake.Assets (FieldPackageName "W") := by
  decide!

/-- C8, amended: if saving the baked field fails during the bake of a volume, the
volume is unchanged, in particular its `BakedField` reference, and every field
asset under another package name than that of the volume is untouched; the asset
under the package name of the volume (the field the volume references after an
earlier successful bake) holds the data of the new bake: its `Dim`, `CellSizeCm`,
`OriginWS`, `GridRotation` and three arrays are the newly computed ones.  A bake
without cells changes nothing. -/
theorem C8_failed_save_keeps_reference_not_contents (E : Engine K)
    (Sub : UThermoForgeSubsystem K) (SavePackage : String → UThermoForgeFieldAsset K → Bool)
    (Assets : String → Option (UThermoForgeFieldAsset K)) (V : AThermoForgeVolume K)
    (hfail : ∀ F, SavePackage (FieldPackageName V.Name) F = false) :
    (BakeVolume E Sub SavePackage Assets V).1 = V ∧
    (∀ name, name ≠ FieldPackageName V.Name →
      (BakeVolume E Sub SavePackage Assets V).2 name = Assets name) ∧
    (0 < BakeCellCount (BakeIndexRange V).Dim →
      (BakeVolume E Sub SavePackage Assets V).2 (FieldPackageName V.Name) =
        some
          { Dim := (BakeIndexRange V).Dim,
            CellSizeCm := V.EffectiveCellSize,
            OriginWS := V.GridFrame.TransformPosition
              ⟨((BakeIndexRange V).ix0 : K) * V.EffectiveCellSize,
               ((BakeIndexRange V).iy0 : K) * V.EffectiveCellSize,
               ((BakeIndexRange V).iz0 : K) * V.EffectiveCellSize⟩,
            GridRotation := E.Rotator V.GridFrame.Rotation,
            SkyView01 := (BakeCells E Sub V (BakeIndexRange V)).Sky,
            WallPermeability01 := (BakeCells E Sub V (BakeIndexRange V)).Wall,
            Indoorness01 := (BakeCells E Sub V (BakeIndexRange V)).Indoor }) ∧
    (BakeCellCount (BakeIndexRange V).Dim ≤ 0 →
      (BakeVolume E Sub SavePackage Assets V).2 = Assets) := by
  unfold BakeVolume CreateAndSaveFieldAsset
  simp only [hfail, Bool.not_false, if_true]
  refine ⟨?_, ?_, ?_, ?_⟩
  · split_ifs <;> rfl
  · intro name hname
    split_ifs
    · rfl
    · simp only [if_neg hname]
  · intro hpos
    rw [if_neg (not_le.2 hpos)]
    simp
  · intro hle
    rw [if_pos hle]

/-- C8, witness of the amended claim: the bake of `exampleWallVolume` in
`exampleRebake` with a failing save returns the volume unchanged and leaves the new
wall permeabilities in the asset of the volume. -/
theorem C8_failed_save_keeps_reference_not_contents_witness :
    (BakeVolume exampleEngine exampleRebake (fun _ _ => false) exampleRebake.Assets
      exampleWallVolume).1 = exampleWallVolume ∧
    ((BakeVolume exampleEngine exampleRebake (fun _ _ => false) exampleRebake.Assets
      exampleWallVolume).2 (FieldPackageName "W")).map (fun F => F.WallPermeability01)
      = some [1, 1, 1, 1] :=
  ⟨(C8_failed_save_keeps_reference_not_contents exampleEngine exampleRebake
      (fun _ _ => false) exampleRebake.Assets exampleWallVolume (fun _ => rfl)).1,
   by decide!⟩

/-! ### Bake of a volume without cells -/

/-- A grid with a zero dimension has the cell count 0. -/
theorem BakeCellCount_zero_dim (Dim : FIntVector)
    (h0 : Dim.X = 0 ∨ Dim.Y = 0 ∨ Dim.Z = 0) : BakeCellCount Dim = 0 := by
  unfold BakeCellCount wrapInt32
  rcases h0 with h | h | h <;> simp [h]

/-- The loop over the volumes started with a list of already visited volumes: the
visited volumes stay in front, and the loop adds one volume per volume. -/
theorem foldl_bake_acc {A β : Type} (B : A → β → β × A) (l : List β) (acc : List β) (a : A) :
    l.foldl (fun (st : List β × A) V => ((st.1 ++ [(B st.2 V).1]), (B st.2 V).2)) (acc, a)
      = (acc ++ (l.foldl (fun (st : List β × A) V =>
            ((st.1 ++ [(B st.2 V).1]), (B st.2 V).2)) ([], a)).1,
         (l.foldl (fun (st : List β × A) V =>
            ((st.1 ++ [(B st.2 V).1]), (B st.2 V).2)) ([], a)).2) ∧
    (l.foldl (fun (st : List β × A) V => ((st.1 ++ [(B st.2 V).1]),
        (B st.2 V).2)) ([], a)).1.length = l.length := by
  induction l using List.reverseRecOn generalizing acc with
  | nil => simp
  | append_singleton l V ih =>
    simp only [List.foldl_append, List.foldl_cons, List.foldl_nil]
    obtain ⟨e, hl⟩ := ih acc
    rw [e]
    simp [hl]

/-- The bake loop over a list of volumes that holds a volume without cells: the
volumes before it are baked as they are, the volume passes unchanged, and the
volumes after it are baked from the asset table the loop had before it. -/
theorem foldl_bake_skip {A β : Type} (B : A → β → β × A) (pre post : List β) (V : β) (a : A)
    (hV : ∀ a2, B a2 V = (V, a2)) :
    ((pre ++ V :: post).foldl
        (fun (st : List β × A) V => ((st.1 ++ [(B st.2 V).1]), (B st.2 V).2)) ([], a)).2
      = ((pre ++ post).foldl
        (fun (st : List β × A) V => ((st.1 ++ [(B st.2 V).1]), (B st.2 V).2)) ([], a)).2 ∧
    ((pre ++ V :: post).foldl
        (fun (st : List β × A) V => ((st.1 ++ [(B st.2 V).1]), (B st.2 V).2)) ([], a)).1
      = ((pre ++ post).foldl
          (fun (st : List β × A) V => ((st.1 ++ [(B st.2 V).1]), (B st.2 V).2))
          ([], a)).1.take pre.length
        ++ V :: ((pre ++ post).foldl
          (fun (st : List β × A) V => ((st.1 ++ [(B st.2 V).1]), (B st.2 V).2))
          ([], a)).1.drop pre.length := by
  have hpre := (foldl_bake_acc B pre [] a).2
  simp only [List.foldl_append, List.foldl_cons, hV]
  rw [(foldl_bake_acc B post _ _).1]
  rw [(foldl_bake_acc B post
    (pre.foldl (fun (st : List β × A) V => ((st.1 ++ [(B st.2 V).1]), (B st.2 V).2)) ([], a)).1
    _).1]
  refine ⟨rfl, ?_⟩
  simp only
  rw [List.take_left' hpre, List.drop_left' hpre]
  simp


omit [FloorRing K] in
/-- The ambient ray reads the scene (the line trace of the world) and the settings
only. -/
theorem TraceAmbientRay01_same_scene (E : Engine K) (Sub1 Sub2 : UThermoForgeSubsystem K)
    (hW : Sub1.World.map (fun W => W.LineTraceSingleByChannel)
      = Sub2.World.map (fun W => W.LineTraceSingleByChannel))
    (hS : Sub1.Settings = Sub2.Settings) :
    TraceAmbientRay01 E Sub1 = TraceAmbientRay01 E Sub2 := by
  funext P Dir MaxLen
  unfold TraceAmbientRay01
  rw [hS]
  cases h1 : Sub1.World with
  | none =>
    cases h2 : Sub2.World with
    | none => rfl
    | some W2 => rw [h1, h2] at hW; cases hW
  | some W1 =>
    cases h2 : Sub2.World with
    | none => rw [h1, h2] at hW; cases hW
    | some W2 =>
      rw [h1, h2] at hW
      simp only [Option.map_some', Option.some.injEq] at hW
      cases Sub2.Settings with
      | none => rfl
      | some S => simp only [hW]

omit [FloorRing K] in
/-- The occlusion between two points reads the scene and the settings only. -/
theorem OcclusionBetween_same_scene (E : Engine K) (Sub1 Sub2 : UThermoForgeSubsystem K)
    (hW : Sub1.World.map (fun W => W.LineTraceSingleByChannel)
      = Sub2.World.map (fun W => W.LineTraceSingleByChannel))
    (hS : Sub1.Settings = Sub2.Settings) :
    OcclusionBetween E Sub1 = OcclusionBetween E Sub2 := by
  funext A B c
  unfold OcclusionBetween
  rw [hS]
  cases h1 : Sub1.World with
  | none =>
    cases h2 : Sub2.World with
    | none => rfl
    | some W2 => rw [h1, h2] at hW; cases hW
  | some W1 =>
    cases h2 : Sub2.World with
    | none => rw [h1, h2] at hW; cases hW
    | some W2 =>
      rw [h1, h2] at hW
      simp only [Option.map_some', Option.some.injEq] at hW
      cases Sub2.Settings with
      | none => rfl
      | some S => simp only [hW]

/-- One iteration of the bake reads, of the state, the scene and the settings
only. -/
theorem BakeVolume_same_scene (E : Engine K) (Sub1 Sub2 : UThermoForgeSubsystem K)
    (hW : Sub1.World.map (fun W => W.LineTraceSingleByChannel)
      = Sub2.World.map (fun W => W.LineTraceSingleByChannel))
    (hS : Sub1.Settings = Sub2.Settings)
    (SavePackage : String → UThermoForgeFieldAsset K → Bool)
    (Assets : String → Option (UThermoForgeFieldAsset K)) (V : AThermoForgeVolume K) :
    BakeVolume E Sub1 SavePackage Assets V = BakeVolume E Sub2 SavePackage Assets V := by
  have hT := TraceAmbientRay01_same_scene E Sub1 Sub2 hW hS
  have hO := OcclusionBetween_same_scene E Sub1 Sub2 hW hS
  have hC : BakeCells E Sub1 V (BakeIndexRange V) = BakeCells E Sub2 V (BakeIndexRange V) := by
    unfold BakeCells BakeCellStep BakeSkyOpenness BakeWallPerm BakeWallLoop
    rw [hT, hO]
  unfold BakeVolume
  simp only [hC]

/-- The bake with a world and settings present is the loop over the volumes of the
world, one `BakeVolume` per volume. -/
theorem KickstartSamplingFromVolumes_eq (E : Engine K) (Sub : UThermoForgeSubsystem K)
    (W : UWorld K) (S : UThermoForgeProjectSettings K)
    (SavePackage : String → UThermoForgeFieldAsset K → Bool)
    (hW : Sub.World = some W) (hS : Sub.Settings = some S) :
    (KickstartSamplingFromVolumes E Sub SavePackage).Assets
      = (W.Volumes.foldl
          (fun (st : List (AThermoForgeVolume K) × (String → Option (UThermoForgeFieldAsset K)))
              V =>
            ((st.1 ++ [(BakeVolume E Sub SavePackage st.2 V).1]),
              (BakeVolume E Sub SavePackage st.2 V).2))
          ([], Sub.Assets)).2 ∧
    WorldVolumes (KickstartSamplingFromVolumes E Sub SavePackage)
      = (W.Volumes.foldl
          (fun (st : List (AThermoForgeVolume K) × (String → Option (UThermoForgeFieldAsset K)))
              V =>
            ((st.1 ++ [(BakeVolume E Sub SavePackage st.2 V).1]),
              (BakeVolume E Sub SavePackage st.2 V).2))
          ([], Sub.Assets)).1 := by
  unfold KickstartSamplingFromVolumes WorldVolumes
  rw [hW, hS]
  exact ⟨rfl, rfl⟩

/-- C11: baking a volume whose computed grid has a zero dimension on some axis is a
no-op for that volume.  Its cell count `N` is 0, so the iteration takes the
`continue` of line 230: for every scene (line trace), every save outcome and every
table of loaded assets the iteration returns the volume and the table as they are
(no result of a ray or of a save enters, no field is created, `BakedField` is
unchanged, the function is total).  The bake continues with the remaining volumes:
the bake of a world that holds the volume between the volumes `pre` and `post` ends
with the asset table of the bake of the world without it, and with the same
volumes, the volume itself unchanged at its place. -/
theorem C11_bake_of_zero_dimension_volume_is_noop (V : AThermoForgeVolume K)
    (h0 : (BakeIndexRange V).Dim.X = 0 ∨ (BakeIndexRange V).Dim.Y = 0
      ∨ (BakeIndexRange V).Dim.Z = 0) :
    BakeCellCount (BakeIndexRange V).Dim = 0 ∧
    (∀ (E : Engine K) (Sub : UThermoForgeSubsystem K)
        (SavePackage : String → UThermoForgeFieldAsset K → Bool)
        (Assets : String → Option (UThermoForgeFieldAsset K)),
      BakeVolume E Sub SavePackage Assets V = (V, Assets)) ∧
    (∀ (E : Engine K) (Sub : UThermoForgeSubsystem K) (W : UWorld K)
        (SavePackage : String → UThermoForgeFieldAsset K → Bool)
        (pre post : List (AThermoForgeVolume K)),
      (KickstartSamplingFromVolumes E
          { Sub with World := some { W with Volumes := pre ++ V :: post } } SavePackage).Assets
        = (KickstartSamplingFromVolumes E
          { Sub with World := some { W with Volumes := pre ++ post } } SavePackage).Assets ∧
      WorldVolumes (KickstartSamplingFromVolumes E
          { Sub with World := some { W with Volumes := pre ++ V :: post } } SavePackage)
        = (WorldVolumes (KickstartSamplingFromVolumes E
            { Sub with World := some { W with Volumes := pre ++ post } } SavePackage)).take
              pre.length
          ++ V :: (WorldVolumes (KickstartSamplingFromVolumes E
            { Sub with World := some { W with Volumes := pre ++ post } } SavePackage)).drop
              pre.length) := by
  have hN := BakeCellCount_zero_dim (BakeIndexRange V).Dim h0
  have hB : ∀ (E : Engine K) (Sub : UThermoForgeSubsystem K)
      (SavePackage : String → UThermoForgeFieldAsset K → Bool)
      (Assets : String → Option (UThermoForgeFieldAsset K)),
      BakeVolume E Sub SavePackage Assets V = (V, Assets) := by
    intro E Sub SavePackage Assets
    unfold BakeVolume
    simp only [hN, le_refl, if_true]
  refine ⟨hN, hB, ?_⟩
  intro E Sub W SavePackage pre post
  obtain ⟨Wd, Se, SS, SO, As⟩ := Sub
  cases Se with
  | none =>
    unfold KickstartSamplingFromVolumes WorldVolumes
    simp
  | some S =>
    have hcongr : BakeVolume E
        { World := some { W with Volumes := pre ++ V :: post }, Settings := some S,
          SourceSet := SS, SourceObjects := SO, Assets := As } SavePackage
        = BakeVolume E
        { World := some { W with Volumes := pre ++ post }, Settings := some S,
          SourceSet := SS, SourceObjects := SO, Assets := As } SavePackage := by
      funext a V2
      exact BakeVolume_same_scene E _ _ rfl rfl SavePackage a V2
    obtain ⟨a1, v1⟩ := KickstartSamplingFromVolumes_eq E
      { World := some { W with Volumes := pre ++ V :: post }, Settings := some S,
        SourceSet := SS, SourceObjects := SO, Assets := As }
      { W with Volumes := pre ++ V :: post } S SavePackage rfl rfl
    obtain ⟨a2, v2⟩ := KickstartSamplingFromVolumes_eq E
      { World := some { W with Volumes := pre ++ post }, Settings := some S,
        SourceSet := SS, SourceObjects := SO, Assets := As }
      { W with Volumes := pre ++ post } S SavePackage rfl rfl
    rw [a1, v1, a2, v2, hcongr]
    exact foldl_bake_skip
      (fun a V2 => BakeVolume E
        { World := some { W with Volumes := pre ++ post }, Settings := some S,
          SourceSet := SS, SourceObjects := SO, Assets := As }
        SavePackage a V2) pre post V As (fun a2 => hB E _ SavePackage a2)

/-- C11, witness: the grid of `exampleFlatVolume` has the dimensions 0 x 1 x 1.  Its
bake iteration returns it and the asset table unchanged, and the bake of
`exampleFlatThenWall` leaves it without a field while the volume after it is baked
and saved. -/
theorem C11_bake_of_zero_dimension_volume_is_noop_witness :
    (BakeIndexRange exampleFlatVolume).Dim = ⟨0, 1, 1⟩ ∧
    BakeVolume exampleEngine exampleFlatThenWall (fun _ _ => true) exampleFlatThenWall.Assets
      exampleFlatVolume = (exampleFlatVolume, exampleFlatThenWall.Assets) ∧
    (WorldVolumes (KickstartSamplingFromVolumes exampleEngine exampleFlatThenWall
      (fun _ _ => true))).map (fun V => (V.Name, V.BakedField))
      = [("F", none), ("W", some (FieldPackageName "W"))] ∧
    (KickstartSamplingFromVolumes exampleEngine exampleFlatThenWall
      (fun _ _ => true)).Assets (FieldPackageName "F") = none ∧
    ((KickstartSamplingFromVolumes exampleEngine exampleFlatThenWall
      (fun _ _ => true)).Assets (FieldPackageName "W")).map (fun F => F.Dim)
      = some ⟨2, 2, 1⟩ :=
  ⟨by decide!,
   (C11_bake_of_zero_dimension_volume_is_noop exampleFlatVolume (Or.inl (by decide!))).2.1
      exampleEngine exampleFlatThenWall (fun _ _ => true) exampleFlatThenWall.Assets,
   by decide!, by decide!, by decide!⟩

/-! ### Index safety of a hit -/

/-- A clamp into a non-empty integer range lies in the range. -/
theorem Clamp_int_mem (x lo hi : Int) (h : lo ≤ hi) :
    lo ≤ FMath.Clamp x lo hi ∧ FMath.Clamp x lo hi ≤ hi := by
  unfold FMath.Clamp FMath.Max FMath.Min
  split_ifs <;> omega

/-- The members of a hit of `ComputeNearestInVolume`: the grid index is in range on
every axis, and the linear index is the `int32` value of
`ix + iy * Nx + iz * Nx * Ny`. -/
theorem ComputeNearestInVolume_index (E : Engine K) (Sub : UThermoForgeSubsystem K)
    (Vol : AThermoForgeVolume K) (p : FVector K) (h : FThermoForgeGridHit K)
    (F : UThermoForgeFieldAsset K)
    (hc : ComputeNearestInVolume E Sub Vol p = some h)
    (hF : Vol.BakedField.bind Sub.Assets = some F) :
    (0 ≤ h.GridIndex.X ∧ h.GridIndex.X < F.Dim.X) ∧
    (0 ≤ h.GridIndex.Y ∧ h.GridIndex.Y < F.Dim.Y) ∧
    (0 ≤ h.GridIndex.Z ∧ h.GridIndex.Z < F.Dim.Z) ∧
    h.LinearIndex =
      wrapInt32 (wrapInt32 (h.GridIndex.X + wrapInt32 (h.GridIndex.Y * F.Dim.X))
        + wrapInt32 (wrapInt32 (h.GridIndex.Z * F.Dim.X) * F.Dim.Y)) := by
  unfold ComputeNearestInVolume at hc
  rw [hF] at hc
  simp only at hc
  by_cases hD : F.Dim.X ≤ 0 ∨ F.Dim.Y ≤ 0 ∨ F.Dim.Z ≤ 0
  · rw [if_pos hD] at hc; cases hc
  · rw [if_neg hD] at hc
    by_cases hC : F.CellSizeCm ≤ 0
    · rw [if_pos hC] at hc; cases hc
    · rw [if_neg hC] at hc
      simp only [Option.some.injEq] at hc
      subst hc
      simp only
      have bx := Clamp_int_mem
        (FMath.FloorToInt ((FVector.divScalar ((F.GetGridFrame E).Inverse.TransformPosition p)
          F.CellSizeCm).X + 1 / 2)) 0 (F.Dim.X - 1) (by omega)
      have by1 := Clamp_int_mem
        (FMath.FloorToInt ((FVector.divScalar ((F.GetGridFrame E).Inverse.TransformPosition p)
          F.CellSizeCm).Y + 1 / 2)) 0 (F.Dim.Y - 1) (by omega)
      have bz := Clamp_int_mem
        (FMath.FloorToInt ((FVector.divScalar ((F.GetGridFrame E).Inverse.TransformPosition p)
          F.CellSizeCm).Z + 1 / 2)) 0 (F.Dim.Z - 1) (by omega)
      exact ⟨⟨bx.1, by omega⟩, ⟨by1.1, by omega⟩, ⟨bz.1, by omega⟩, trivial⟩

/-- Reading a list after a write at another position. -/
theorem getD_set_of_ne {α : Type} (l : List α) (i j : Nat) (v d : α) (h : i ≠ j) :
    (l.set i v).getD j d = l.getD j d := by
  rw [List.getD_eq_getElem?_getD, List.getD_eq_getElem?_getD, List.getElem?_set_ne h]

/-- Reading a list at the position of a write inside the list. -/
theorem getD_set_of_lt {α : Type} (l : List α) (i : Nat) (v d : α) (h : i < l.length) :
    (l.set i v).getD i d = v := by
  rw [List.getD_eq_getElem?_getD, List.getElem?_set]
  simp [h]

omit [FloorRing K] in
/-- Three arrays written slot by slot, the third from the first two: after a run
over items with distinct slots inside the arrays the lengths are kept, and the slot
of every item of the run holds its two values and the product of their
complements. -/
theorem foldl_three_arrays {C : Type} (idx : C → Nat) (sky wall : C → K) (cells : List C)
    (A : BakeArrays K) (hnd : (cells.map idx).Nodup)
    (hlen : ∀ c ∈ cells,
      idx c < A.Sky.length ∧ idx c < A.Wall.length ∧ idx c < A.Indoor.length) :
    ((cells.foldl
        (fun (A : BakeArrays K) c =>
          ({ Sky := A.Sky.set (idx c) (sky c), Wall := A.Wall.set (idx c) (wall c),
             Indoor := A.Indoor.set (idx c)
              ((1 - (A.Sky.set (idx c) (sky c)).getD (idx c) 0)
                * (1 - (A.Wall.set (idx c) (wall c)).getD (idx c) 0)) } : BakeArrays K))
        A).Sky.length = A.Sky.length ∧
      (cells.foldl
        (fun (A : BakeArrays K) c =>
          ({ Sky := A.Sky.set (idx c) (sky c), Wall := A.Wall.set (idx c) (wall c),
             Indoor := A.Indoor.set (idx c)
              ((1 - (A.Sky.set (idx c) (sky c)).getD (idx c) 0)
                * (1 - (A.Wall.set (idx c) (wall c)).getD (idx c) 0)) } : BakeArrays K))
        A).Wall.length = A.Wall.length ∧
      (cells.foldl
        (fun (A : BakeArrays K) c =>
          ({ Sky := A.Sky.set (idx c) (sky c), Wall := A.Wall.set (idx c) (wall c),
             Indoor := A.Indoor.set (idx c)
              ((1 - (A.Sky.set (idx c) (sky c)).getD (idx c) 0)
                * (1 - (A.Wall.set (idx c) (wall c)).getD (idx c) 0)) } : BakeArrays K))
        A).Indoor.length = A.Indoor.length) ∧
    ∀ c ∈ cells,
      (cells.foldl
        (fun (A : BakeArrays K) c =>
          ({ Sky := A.Sky.set (idx c) (sky c), Wall := A.Wall.set (idx c) (wall c),
             Indoor := A.Indoor.set (idx c)
              ((1 - (A.Sky.set (idx c) (sky c)).getD (idx c) 0)
                * (1 - (A.Wall.set (idx c) (wall c)).getD (idx c) 0)) } : BakeArrays K))
        A).Sky.getD (idx c) 0 = sky c ∧
      (cells.foldl
        (fun (A : BakeArrays K) c =>
          ({ Sky := A.Sky.set (idx c) (sky c), Wall := A.Wall.set (idx c) (wall c),
             Indoor := A.Indoor.set (idx c)
              ((1 - (A.Sky.set (idx c) (sky c)).getD (idx c) 0)
                * (1 - (A.Wall.set (idx c) (wall c)).getD (idx c) 0)) } : BakeArrays K))
        A).Wall.getD (idx c) 0 = wall c ∧
      (cells.foldl
        (fun (A : BakeArrays K) c =>
          ({ Sky := A.Sky.set (idx c) (sky c), Wall := A.Wall.set (idx c) (wall c),
             Indoor := A.Indoor.set (idx c)
              ((1 - (A.Sky.set (idx c) (sky c)).getD (idx c) 0)
                * (1 - (A.Wall.set (idx c) (wall c)).getD (idx c) 0)) } : BakeArrays K))
        A).Indoor.getD (idx c) 0 = (1 - sky c) * (1 - wall c) := by
  induction cells using List.reverseRecOn with
  | nil => exact ⟨⟨rfl, rfl, rfl⟩, fun c hc => by cases hc⟩
  | append_singleton l a ih =>
    rw [List.map_append, List.nodup_append] at hnd
    obtain ⟨hl, _, hdis⟩ := hnd
    obtain ⟨⟨l1, l2, l3⟩, hv⟩ := ih hl (fun c hc => hlen c (List.mem_append_left _ hc))
    obtain ⟨a1, a2, a3⟩ := hlen a (List.mem_append_right _ (List.mem_singleton_self a))
    rw [List.foldl_append, List.foldl_cons, List.foldl_nil]
    simp only [List.length_set]
    refine ⟨⟨l1, l2, l3⟩, ?_⟩
    intro c hc
    rcases List.mem_append.1 hc with h | h
    · have hne : idx a ≠ idx c := by
        intro e
        have hm1 : idx c ∈ l.map idx := List.mem_map.2 ⟨c, h, rfl⟩
        have hm2 : idx c ∈ [a].map idx := List.mem_map.2 ⟨a, List.mem_singleton_self a, e⟩
        exact hdis hm1 hm2
      obtain ⟨v1, v2, v3⟩ := hv c h
      rw [getD_set_of_ne _ _ _ _ _ hne, getD_set_of_ne _ _ _ _ _ hne,
        getD_set_of_ne _ _ _ _ _ hne]
      exact ⟨v1, v2, v3⟩
    · have e : c = a := by simpa using h
      subst e
      rw [getD_set_of_lt _ _ _ _ (by rw [l1]; exact a1),
        getD_set_of_lt _ _ _ _ (by rw [l2]; exact a2),
        getD_set_of_lt _ _ _ _ (by rw [l3]; exact a3)]
      exact ⟨rfl, rfl, rfl⟩

omit [FloorRing K] in
/-- The three arrays after a run of cell steps over cells with distinct slots
inside the arrays: the lengths are kept, and the slot of every cell of the run holds
the sky openness at the centre of the cell, the wall permeability of the cell, and
the indoorness (1 - sky) * (1 - wall). -/
theorem foldl_BakeCellStep_arrays (E : Engine K) (Sub : UThermoForgeSubsystem K)
    (V : AThermoForgeVolume K) (R : BakeRange) (cells : List (Int × Int × Int))
    (A : BakeArrays K)
    (hnd : (cells.map (fun c => (Index R.Dim.X R.Dim.Y c.1 c.2.1 c.2.2).toNat)).Nodup)
    (hlen : ∀ c ∈ cells,
      (Index R.Dim.X R.Dim.Y c.1 c.2.1 c.2.2).toNat < A.Sky.length ∧
      (Index R.Dim.X R.Dim.Y c.1 c.2.1 c.2.2).toNat < A.Wall.length ∧
      (Index R.Dim.X R.Dim.Y c.1 c.2.1 c.2.2).toNat < A.Indoor.length) :
    ((cells.foldl (fun A c => BakeCellStep E Sub V R A c.1 c.2.1 c.2.2) A).Sky.length
        = A.Sky.length ∧
      (cells.foldl (fun A c => BakeCellStep E Sub V R A c.1 c.2.1 c.2.2) A).Wall.length
        = A.Wall.length ∧
      (cells.foldl (fun A c => BakeCellStep E Sub V R A c.1 c.2.1 c.2.2) A).Indoor.length
        = A.Indoor.length) ∧
    ∀ c ∈ cells,
      (cells.foldl (fun A c => BakeCellStep E Sub V R A c.1 c.2.1 c.2.2) A).Sky.getD
          (Index R.Dim.X R.Dim.Y c.1 c.2.1 c.2.2).toNat 0
        = BakeSkyOpenness E Sub (Center V R c.1 c.2.1 c.2.2) ∧
      (cells.foldl (fun A c => BakeCellStep E Sub V R A c.1 c.2.1 c.2.2) A).Wall.getD
          (Index R.Dim.X R.Dim.Y c.1 c.2.1 c.2.2).toNat 0
        = BakeWallPerm E Sub V R c.1 c.2.1 c.2.2 ∧
      (cells.foldl (fun A c => BakeCellStep E Sub V R A c.1 c.2.1 c.2.2) A).Indoor.getD
          (Index R.Dim.X R.Dim.Y c.1 c.2.1 c.2.2).toNat 0
        = (1 - BakeSkyOpenness E Sub (Center V R c.1 c.2.1 c.2.2))
          * (1 - BakeWallPerm E Sub V R c.1 c.2.1 c.2.2) := by
  have hstep : (fun (A : BakeArrays K) (c : Int × Int × Int) =>
        BakeCellStep E Sub V R A c.1 c.2.1 c.2.2)
      = (fun (A : BakeArrays K) (c : Int × Int × Int) =>
          ({ Sky := A.Sky.set (Index R.Dim.X R.Dim.Y c.1 c.2.1 c.2.2).toNat
                (BakeSkyOpenness E Sub (Center V R c.1 c.2.1 c.2.2)),
             Wall := A.Wall.set (Index R.Dim.X R.Dim.Y c.1 c.2.1 c.2.2).toNat
                (BakeWallPerm E Sub V R c.1 c.2.1 c.2.2),
             Indoor := A.Indoor.set (Index R.Dim.X R.Dim.Y c.1 c.2.1 c.2.2).toNat
              ((1 - (A.Sky.set (Index R.Dim.X R.Dim.Y c.1 c.2.1 c.2.2).toNat
                      (BakeSkyOpenness E Sub (Center V R c.1 c.2.1 c.2.2))).getD
                    (Index R.Dim.X R.Dim.Y c.1 c.2.1 c.2.2).toNat 0)
                * (1 - (A.Wall.set (Index R.Dim.X R.Dim.Y c.1 c.2.1 c.2.2).toNat
                      (BakeWallPerm E Sub V R c.1 c.2.1 c.2.2)).getD
                    (Index R.Dim.X R.Dim.Y c.1 c.2.1 c.2.2).toNat 0)) } : BakeArrays K)) := by
    funext A c
    rfl
  rw [hstep]
  exact foldl_three_arrays
    (fun (c : Int × Int × Int) => (Index R.Dim.X R.Dim.Y c.1 c.2.1 c.2.2).toNat)
    (fun (c : Int × Int × Int) => BakeSkyOpenness E Sub (Center V R c.1 c.2.1 c.2.2))
    (fun (c : Int × Int × Int) => BakeWallPerm E Sub V R c.1 c.2.1 c.2.2) cells A hnd hlen

omit [FloorRing K] in
/-- The three arrays of a bake whose cell count fits `int32`: each has one slot per
cell, and the slot `Index (x, y, z)` of an in-range cell holds the sky openness at
the centre of the cell, the wall permeability of the cell and the indoorness
(1 - sky) * (1 - wall). -/
theorem BakeCells_arrays (E : Engine K) (Sub : UThermoForgeSubsystem K)
    (V : AThermoForgeVolume K) (R : BakeRange)
    (hNx : 1 ≤ R.Dim.X) (hNy : 1 ≤ R.Dim.Y) (hNz : 1 ≤ R.Dim.Z)
    (hN : R.Dim.X * R.Dim.Y * R.Dim.Z ≤ 2147483647) :
    (((BakeCells E Sub V R).Sky.length : Int) = R.Dim.X * R.Dim.Y * R.Dim.Z ∧
      ((BakeCells E Sub V R).Wall.length : Int) = R.Dim.X * R.Dim.Y * R.Dim.Z ∧
      ((BakeCells E Sub V R).Indoor.length : Int) = R.Dim.X * R.Dim.Y * R.Dim.Z) ∧
    ∀ x y z : Int, 0 ≤ x → x < R.Dim.X → 0 ≤ y → y < R.Dim.Y → 0 ≤ z → z < R.Dim.Z →
      (BakeCells E Sub V R).Sky.getD (Index R.Dim.X R.Dim.Y x y z).toNat 0
        = BakeSkyOpenness E Sub (Center V R x y z) ∧
      (BakeCells E Sub V R).Wall.getD (Index R.Dim.X R.Dim.Y x y z).toNat 0
        = BakeWallPerm E Sub V R x y z ∧
      (BakeCells E Sub V R).Indoor.getD (Index R.Dim.X R.Dim.Y x y z).toNat 0
        = (1 - BakeSkyOpenness E Sub (Center V R x y z))
          * (1 - BakeWallPerm E Sub V R x y z) := by
  have hcount := BakeCellCount_eq R.Dim.X R.Dim.Y R.Dim.Z hNx hNy hNz hN
  have horder := BakeCellOrder_map_Index R.Dim.X R.Dim.Y R.Dim.Z hNx hNy hNz hN
  have hdim : (⟨R.Dim.X, R.Dim.Y, R.Dim.Z⟩ : FIntVector) = R.Dim := rfl
  rw [hdim] at hcount horder
  have hpos : 0 < R.Dim.X * R.Dim.Y * R.Dim.Z := mul_pos (mul_pos (by omega) (by omega)) (by omega)
  have hnd : ((BakeCellOrder R.Dim).map
      (fun c => (Index R.Dim.X R.Dim.Y c.1 c.2.1 c.2.2).toNat)).Nodup := by
    have e : (BakeCellOrder R.Dim).map (fun c => (Index R.Dim.X R.Dim.Y c.1 c.2.1 c.2.2).toNat)
        = ((BakeCellOrder R.Dim).map (fun c => Index R.Dim.X R.Dim.Y c.1 c.2.1 c.2.2)).map
            Int.toNat := by
      rw [List.map_map]; rfl
    rw [e, horder, List.map_map]
    have e2 : (Int.toNat ∘ fun (i : Nat) => (i : Int)) = id := by
      funext i; simp
    rw [e2, List.map_id]
    exact List.nodup_range _
  have hlen : ∀ c ∈ BakeCellOrder R.Dim,
      (Index R.Dim.X R.Dim.Y c.1 c.2.1 c.2.2).toNat
        < (List.replicate (BakeCellCount R.Dim).toNat (0 : K)).length := by
    intro c hc
    obtain ⟨⟨hx0, hx⟩, ⟨hy0, hy⟩, ⟨hz0, hz⟩⟩ :=
      (mem_BakeCellOrder R.Dim.X R.Dim.Y R.Dim.Z c).1 hc
    obtain ⟨r1, r2, r3, _⟩ :=
      Index_in_range R.Dim.X R.Dim.Y R.Dim.Z c.1 c.2.1 c.2.2 hN hx0 hx hy0 hy hz0 hz
    rw [List.length_replicate, hcount, r1]
    omega
  obtain ⟨⟨l1, l2, l3⟩, hv⟩ := foldl_BakeCellStep_arrays E Sub V R (BakeCellOrder R.Dim)
    { Sky := List.replicate (BakeCellCount R.Dim).toNat 0,
      Wall := List.replicate (BakeCellCount R.Dim).toNat 0,
      Indoor := List.replicate (BakeCellCount R.Dim).toNat 0 }
    hnd (fun c hc => ⟨hlen c hc, hlen c hc, hlen c hc⟩)
  rw [← BakeCells_eq_foldl] at l1 l2 l3 hv
  simp only [List.length_replicate, hcount] at l1 l2 l3
  refine ⟨⟨by omega, by omega, by omega⟩, ?_⟩
  intro x y z hx0 hx hy0 hy hz0 hz
  exact hv (x, y, z)
    ((mem_BakeCellOrder R.Dim.X R.Dim.Y R.Dim.Z (x, y, z)).2 ⟨⟨hx0, hx⟩, ⟨hy0, hy⟩, ⟨hz0, hz⟩⟩)

/-- The field asset under the package name of a volume after an iteration of the
bake with at least one cell, whatever the save answers: the dimensions of the index
range and the three arrays of the cell loop. -/
theorem BakeVolume_asset (E : Engine K) (Sub : UThermoForgeSubsystem K)
    (SavePackage : String → UThermoForgeFieldAsset K → Bool)
    (Assets : String → Option (UThermoForgeFieldAsset K)) (V : AThermoForgeVolume K)
    (hpos : 0 < BakeCellCount (BakeIndexRange V).Dim) :
    (BakeVolume E Sub SavePackage Assets V).2 (FieldPackageName V.Name) =
      some
        { Dim := (BakeIndexRange V).Dim,
          CellSizeCm := V.EffectiveCellSize,
          OriginWS := V.GridFrame.TransformPosition
            ⟨((BakeIndexRange V).ix0 : K) * V.EffectiveCellSize,
             ((BakeIndexRange V).iy0 : K) * V.EffectiveCellSize,
             ((BakeIndexRange V).iz0 : K) * V.EffectiveCellSize⟩,
          GridRotation := E.Rotator V.GridFrame.Rotation,
          SkyView01 := (BakeCells E Sub V (BakeIndexRange V)).Sky,
          WallPermeability01 := (BakeCells E Sub V (BakeIndexRange V)).Wall,
          Indoorness01 := (BakeCells E Sub V (BakeIndexRange V)).Indoor } := by
  unfold BakeVolume CreateAndSaveFieldAsset
  simp only [if_neg (not_le.2 hpos)]
  split_ifs <;> simp

/-- C16, counterexample: in `exampleOverflow` the field has the dimensions
65536 x 65536 x 1.  For the point (6553550, 6553550, 50) `ComputeNearestInVolume`
returns a found hit with `GridIndex` (65535, 65535, 0), whose index
65535 + 65535 * 65536 = 4294967295 does not fit `int32`: the `LinearIndex` of the
hit is -1, outside [0, Dx * Dy * Dz). -/
theorem C16_counterexample_linear_index_overflows :
    (ComputeNearestInVolume exampleEngine exampleOverflow
        (exampleVolume "G" true ⟨100, 100, 50⟩ ⟨100, 100, 50⟩) ⟨6553550, 6553550, 50⟩).map
      (fun h => (h.bFound, h.GridIndex, h.LinearIndex))
      = some (true, ⟨65535, 65535, 0⟩, -1) ∧
    (65535 + 65535 * 65536 + 0 * 65536 * 65536 : Int) = 4294967295 ∧
    ¬ (0 ≤ (-1 : Int) ∧ (-1 : Int) < 65536 * 65536 * 1) := by
  decide!

/-- C16, amended: every found hit produced by `ComputeNearestInVolume` has its
`GridIndex` inside the dimensions, and it is index-safe and uses the layout of the
bake when the cell count of the field fits `int32`.  For a field with dimensions
(Dx, Dy, Dz) the `GridIndex` (ix, iy, iz) of the hit satisfies 0 <= ix < Dx,
0 <= iy < Dy, 0 <= iz < Dz.  If Dx * Dy * Dz <= 2^31 - 1, the `LinearIndex` is
ix + iy * Dx + iz * Dx * Dy, equals the baked-field formula (iz * Dy + iy) * Dx + ix,
that is `Index` of the bake at (ix, iy, iz), and lies in [0, Dx * Dy * Dz); it is a
valid index into every array of Dx * Dy * Dz entries.  A field written by the bake
(an iteration of the bake with at least one cell, whatever the save answers) has
three arrays of Dx * Dy * Dz entries each, so the `LinearIndex` is a valid index into
all three, and the slots it addresses hold what the bake computed for the cell
(ix, iy, iz): the sky openness at the centre of the cell, the wall permeability of
the cell and the indoorness (1 - sky) * (1 - wall). -/
theorem C16_hit_is_index_safe (E : Engine K) (Sub : UThermoForgeSubsystem K)
    (Vol : AThermoForgeVolume K) (p : FVector K) (h : FThermoForgeGridHit K)
    (F : UThermoForgeFieldAsset K)
    (hc : ComputeNearestInVolume E Sub Vol p = some h)
    (hF : Vol.BakedField.bind Sub.Assets = some F) :
    ((0 ≤ h.GridIndex.X ∧ h.GridIndex.X < F.Dim.X) ∧
      (0 ≤ h.GridIndex.Y ∧ h.GridIndex.Y < F.Dim.Y) ∧
      (0 ≤ h.GridIndex.Z ∧ h.GridIndex.Z < F.Dim.Z)) ∧
    (F.Dim.X * F.Dim.Y * F.Dim.Z ≤ 2147483647 →
      h.LinearIndex
        = h.GridIndex.X + h.GridIndex.Y * F.Dim.X + h.GridIndex.Z * F.Dim.X * F.Dim.Y ∧
      h.LinearIndex = (h.GridIndex.Z * F.Dim.Y + h.GridIndex.Y) * F.Dim.X + h.GridIndex.X ∧
      h.LinearIndex = Index F.Dim.X F.Dim.Y h.GridIndex.X h.GridIndex.Y h.GridIndex.Z ∧
      (0 ≤ h.LinearIndex ∧ h.LinearIndex < F.Dim.X * F.Dim.Y * F.Dim.Z) ∧
      (∀ arr : List K, (arr.length : Int) = F.Dim.X * F.Dim.Y * F.Dim.Z →
        h.LinearIndex.toNat < arr.length) ∧
      (∀ (E2 : Engine K) (Sub2 : UThermoForgeSubsystem K)
          (SavePackage : String → UThermoForgeFieldAsset K → Bool)
          (Assets : String → Option (UThermoForgeFieldAsset K)) (V2 : AThermoForgeVolume K),
        0 < BakeCellCount (BakeIndexRange V2).Dim →
        (BakeVolume E2 Sub2 SavePackage Assets V2).2 (FieldPackageName V2.Name) = some F →
        (((F.SkyView01.length : Int) = F.Dim.X * F.Dim.Y * F.Dim.Z ∧
            (F.WallPermeability01.length : Int) = F.Dim.X * F.Dim.Y * F.Dim.Z ∧
            (F.Indoorness01.length : Int) = F.Dim.X * F.Dim.Y * F.Dim.Z) ∧
          (h.LinearIndex.toNat < F.SkyView01.length ∧
            h.LinearIndex.toNat < F.WallPermeability01.length ∧
            h.LinearIndex.toNat < F.Indoorness01.length) ∧
          F.SkyView01.getD h.LinearIndex.toNat 0
            = BakeSkyOpenness E2 Sub2
                (Center V2 (BakeIndexRange V2) h.GridIndex.X h.GridIndex.Y h.GridIndex.Z) ∧
          F.WallPermeability01.getD h.LinearIndex.toNat 0
            = BakeWallPerm E2 Sub2 V2 (BakeIndexRange V2)
                h.GridIndex.X h.GridIndex.Y h.GridIndex.Z ∧
          F.Indoorness01.getD h.LinearIndex.toNat 0
            = (1 - BakeSkyOpenness E2 Sub2
                (Center V2 (BakeIndexRange V2) h.GridIndex.X h.GridIndex.Y h.GridIndex.Z))
              * (1 - BakeWallPerm E2 Sub2 V2 (BakeIndexRange V2)
                  h.GridIndex.X h.GridIndex.Y h.GridIndex.Z)))) := by
  obtain ⟨⟨hx0, hx⟩, ⟨hy0, hy⟩, ⟨hz0, hz⟩, hL⟩ := ComputeNearestInVolume_index E Sub Vol p h F hc hF
  refine ⟨⟨⟨hx0, hx⟩, ⟨hy0, hy⟩, ⟨hz0, hz⟩⟩, ?_⟩
  intro hN
  obtain ⟨r1, r2, r3, _, _, _⟩ := Index_in_range F.Dim.X F.Dim.Y F.Dim.Z
    h.GridIndex.X h.GridIndex.Y h.GridIndex.Z hN hx0 hx hy0 hy hz0 hz
  have hA : 0 ≤ h.GridIndex.Y * F.Dim.X := mul_nonneg hy0 (by omega)
  have hC : 0 ≤ h.GridIndex.Z * F.Dim.X := mul_nonneg hz0 (by omega)
  have hCD : h.GridIndex.Z * F.Dim.X * 1 ≤ h.GridIndex.Z * F.Dim.X * F.Dim.Y :=
    mul_le_mul_of_nonneg_left (by omega) hC
  have e : (h.GridIndex.Z * F.Dim.Y + h.GridIndex.Y) * F.Dim.X + h.GridIndex.X
      = h.GridIndex.X + h.GridIndex.Y * F.Dim.X + h.GridIndex.Z * F.Dim.X * F.Dim.Y := by ring
  have hlin : h.LinearIndex
      = h.GridIndex.X + h.GridIndex.Y * F.Dim.X + h.GridIndex.Z * F.Dim.X * F.Dim.Y := by
    rw [hL, wrapInt32_eq (h.GridIndex.Y * F.Dim.X) (by omega) (by omega),
      wrapInt32_eq (h.GridIndex.X + h.GridIndex.Y * F.Dim.X) (by omega) (by omega),
      wrapInt32_eq (h.GridIndex.Z * F.Dim.X) (by omega) (by omega),
      wrapInt32_eq (h.GridIndex.Z * F.Dim.X * F.Dim.Y) (by omega) (by omega),
      wrapInt32_eq _ (by omega) (by omega)]
  have hform : h.LinearIndex
      = (h.GridIndex.Z * F.Dim.Y + h.GridIndex.Y) * F.Dim.X + h.GridIndex.X := by
    rw [hlin, e]
  have hidx : h.LinearIndex
      = Index F.Dim.X F.Dim.Y h.GridIndex.X h.GridIndex.Y h.GridIndex.Z := by
    rw [r1, hform]
  have hrange : 0 ≤ h.LinearIndex ∧ h.LinearIndex < F.Dim.X * F.Dim.Y * F.Dim.Z := by
    rw [hform]; exact ⟨r2, r3⟩
  refine ⟨hlin, hform, hidx, hrange, fun arr harr => by omega, ?_⟩
  intro E2 Sub2 SavePackage Assets V2 hpos hbake
  have hF2 := Option.some.inj ((BakeVolume_asset E2 Sub2 SavePackage Assets V2 hpos).symm.trans
    hbake)
  have hDim : (BakeIndexRange V2).Dim = F.Dim := congrArg UThermoForgeFieldAsset.Dim hF2
  have hSky : (BakeCells E2 Sub2 V2 (BakeIndexRange V2)).Sky = F.SkyView01 :=
    congrArg UThermoForgeFieldAsset.SkyView01 hF2
  have hWall : (BakeCells E2 Sub2 V2 (BakeIndexRange V2)).Wall = F.WallPermeability01 :=
    congrArg UThermoForgeFieldAsset.WallPermeability01 hF2
  have hIndoor : (BakeCells E2 Sub2 V2 (BakeIndexRange V2)).Indoor = F.Indoorness01 :=
    congrArg UThermoForgeFieldAsset.Indoorness01 hF2
  obtain ⟨⟨l1, l2, l3⟩, hv⟩ := BakeCells_arrays E2 Sub2 V2 (BakeIndexRange V2)
    (by rw [hDim]; omega) (by rw [hDim]; omega) (by rw [hDim]; omega) (by rw [hDim]; exact hN)
  obtain ⟨v1, v2, v3⟩ := hv h.GridIndex.X h.GridIndex.Y h.GridIndex.Z
    hx0 (by rw [hDim]; exact hx) hy0 (by rw [hDim]; exact hy) hz0 (by rw [hDim]; exact hz)
  rw [hDim] at l1 l2 l3 v1 v2 v3
  rw [hSky] at l1 v1
  rw [hWall] at l2 v2
  rw [hIndoor] at l3 v3
  rw [← hidx] at v1 v2 v3
  exact ⟨⟨l1, l2, l3⟩, ⟨by omega, by omega, by omega⟩, v1, v2, v3⟩

/-- C16, witness: `exampleBaked` is `exampleRebake` after its bake, which wrote
`exampleNewField` (2 x 2 x 1 cells, three arrays of 4 entries).  The hit for the
point (150, 150, 50) is the cell (1, 1, 0) with linear index 3 = (0 * 2 + 1) * 2 + 1,
below 4; it is a valid index into the three arrays, and the slots hold the sky
openness, the wall permeability and the indoorness the bake computed for the
cell. -/
theorem C16_hit_is_index_safe_witness :
    ComputeNearestInVolume exampleEngine exampleBaked exampleWallVolume ⟨150, 150, 50⟩
      = some exampleHit ∧
    exampleHit.GridIndex = ⟨1, 1, 0⟩ ∧ exampleHit.LinearIndex = 3 ∧
    exampleHit.LinearIndex
      = Index exampleNewField.Dim.X exampleNewField.Dim.Y exampleHit.GridIndex.X
          exampleHit.GridIndex.Y exampleHit.GridIndex.Z ∧
    (0 ≤ exampleHit.LinearIndex ∧
      exampleHit.LinearIndex
        < exampleNewField.Dim.X * exampleNewField.Dim.Y * exampleNewField.Dim.Z) ∧
    (exampleHit.LinearIndex.toNat < exampleNewField.SkyView01.length ∧
      exampleHit.LinearIndex.toNat < exampleNewField.WallPermeability01.length ∧
      exampleHit.LinearIndex.toNat < exampleNewField.Indoorness01.length) ∧
    exampleNewField.WallPermeability01.getD exampleHit.LinearIndex.toNat 0
      = BakeWallPerm exampleEngine exampleRebake exampleWallVolume
          (BakeIndexRange exampleWallVolume) exampleHit.GridIndex.X exampleHit.GridIndex.Y
          exampleHit.GridIndex.Z :=
  ⟨by decide!, rfl, rfl,
   ((C16_hit_is_index_safe exampleEngine exampleBaked exampleWallVolume ⟨150, 150, 50⟩
      exampleHit exampleNewField (by decide!) (by decide!)).2 (by decide!)).2.2.1,
   ((C16_hit_is_index_safe exampleEngine exampleBaked exampleWallVolume ⟨150, 150, 50⟩
      exampleHit exampleNewField (by decide!) (by decide!)).2 (by decide!)).2.2.2.1,
   ((((C16_hit_is_index_safe exampleEngine exampleBaked exampleWallVolume ⟨150, 150, 50⟩
      exampleHit exampleNewField (by decide!) (by decide!)).2 (by decide!)).2.2.2.2.2
      exampleEngine exampleRebake (fun _ _ => true) exampleRebake.Assets exampleWallVolume
      (by decide!) (by decide!)).2.1),
   ((((C16_hit_is_index_safe exampleEngine exampleBaked exampleWallVolume ⟨150, 150, 50⟩
      exampleHit exampleNewField (by decide!) (by decide!)).2 (by decide!)).2.2.2.2.2
      exampleEngine exampleRebake (fun _ _ => true) exampleRebake.Assets exampleWallVolume
      (by decide!) (by decide!)).2.2.2.1)⟩

/-! ### Source registry -/

omit [LinearOrderedField K] [FloorRing K] in
/-- The count loop and the enumeration loop of the registry: the enumeration is
the list of the weak pointers that resolve, the count is its length. -/
theorem foldl_sources (O : Nat → Option (UThermoForgeSourceComponent K)) (l : List Nat)
    (n : Int) (acc : List Nat) :
    l.foldl (fun Count W => if (O W).isSome then Count + 1 else Count) n
      = n + ((l.filter (fun W => (O W).isSome)).length : Int) ∧
    l.foldl (fun OutSources W => if (O W).isSome then OutSources ++ [W] else OutSources) acc
      = acc ++ l.filter (fun W => (O W).isSome) := by
  induction l generalizing n acc with
  | nil => simp
  | cons W l ih =>
    simp only [List.foldl_cons]
    by_cases h : (O W).isSome = true
    · have e : List.filter (fun W => (O W).isSome) (W :: l)
          = W :: List.filter (fun W => (O W).isSome) l := List.filter_cons_of_pos h
      rw [if_pos h, if_pos h, e, (ih (n + 1) (acc ++ [W])).1, (ih (n + 1) (acc ++ [W])).2]
      refine ⟨?_, by simp⟩
      simp only [List.length_cons, Nat.cast_add, Nat.cast_one]
      ring
    · have e : List.filter (fun W => (O W).isSome) (W :: l)
          = List.filter (fun W => (O W).isSome) l := List.filter_cons_of_neg h
      rw [if_neg h, if_neg h, e]
      exact ih n acc

omit [LinearOrderedField K] [FloorRing K] in
/-- `GetAllSources` lists the weak pointers of the registry that resolve, and
`GetSourceCount` is the length of that list. -/
theorem GetAllSources_eq (Sub : UThermoForgeSubsystem K) :
    GetAllSources Sub = Sub.SourceSet.filter (fun W => (Sub.SourceObjects W).isSome) ∧
    GetSourceCount Sub = ((GetAllSources Sub).length : Int) := by
  have h := foldl_sources Sub.SourceObjects Sub.SourceSet 0 []
  unfold GetAllSources GetSourceCount
  rw [h.1, h.2]
  simp

omit [LinearOrderedField K] [FloorRing K] in
/-- The compaction keeps the live, world-attached entries, in order. -/
theorem CompactSources_eq (Sub : UThermoForgeSubsystem K) :
    (CompactSources Sub).SourceSet = Sub.SourceSet.filter (LiveAttached Sub) ∧
    (CompactSources Sub).SourceObjects = Sub.SourceObjects := by
  unfold CompactSources LiveAttached
  exact ⟨rfl, rfl⟩

omit [LinearOrderedField K] [FloorRing K] in
/-- Registering a live source: the registry afterwards holds the live,
world-attached entries of the registry with the source added, the table of
components is the same. -/
theorem RegisterSource_live (Sub : UThermoForgeSubsystem K) (W : Nat)
    (hv : (Sub.SourceObjects W).isSome = true) :
    RegisterSource Sub (some W) =
      { Sub with
        SourceSet := (if W ∈ Sub.SourceSet then Sub.SourceSet else Sub.SourceSet ++ [W]).filter
          (LiveAttached Sub) } := by
  unfold RegisterSource CompactSources LiveAttached
  have : (Sub.SourceObjects W).isNone = false := by
    cases h : Sub.SourceObjects W with
    | none => rw [h] at hv; cases hv
    | some S => rfl
  simp only [this, Bool.false_eq_true, if_false]

omit [LinearOrderedField K] [FloorRing K] in
/-- A live, world-attached pointer resolves. -/
theorem LiveAttached_isSome (Sub : UThermoForgeSubsystem K) (W : Nat)
    (hL : LiveAttached Sub W = true) : (Sub.SourceObjects W).isSome = true := by
  unfold LiveAttached at hL
  cases h : Sub.SourceObjects W with
  | none => rw [h] at hL; cases hL
  | some S => rfl

omit [LinearOrderedField K] [FloorRing K] in
/-- The two mutators of the registry keep it free of duplicates. -/
theorem registry_nodup (Sub : UThermoForgeSubsystem K) (src : Option Nat)
    (hnd : Sub.SourceSet.Nodup) :
    (RegisterSource Sub src).SourceSet.Nodup ∧ (UnregisterSource Sub src).SourceSet.Nodup := by
  constructor
  · unfold RegisterSource CompactSources
    cases src with
    | none => exact hnd
    | some W =>
      simp only
      split_ifs with h1 h2
      · exact hnd
      · exact hnd.filter _
      · apply List.Nodup.filter
        rw [List.nodup_append]
        refine ⟨hnd, List.nodup_singleton W, ?_⟩
        intro a ha hb
        rw [List.mem_singleton] at hb
        subst hb
        exact h2 ha
  · unfold UnregisterSource CompactSources
    cases src with
    | none => exact hnd
    | some W => exact (hnd.filter _).filter _

omit [LinearOrderedField K] [FloorRing K] in
/-- C14: `RegisterSource` is idempotent.  For every registry state and every live,
world-attached source, registering it a second time leaves the state as the first
registration left it (the membership of the registry is unchanged), and the source
is a member; registering the same source twice into an empty registry yields the
registry with that one entry and `GetSourceCount() == 1`; and the registry never
holds two entries for the same source: `RegisterSource` and `UnregisterSource`, for
any pointer, keep a registry without duplicates free of duplicates. -/
theorem C14_register_source_is_idempotent (Sub : UThermoForgeSubsystem K) (W : Nat)
    (hL : LiveAttached Sub W = true) :
    RegisterSource (RegisterSource Sub (some W)) (some W) = RegisterSource Sub (some W) ∧
    W ∈ (RegisterSource Sub (some W)).SourceSet ∧
    (Sub.SourceSet = [] →
      (RegisterSource (RegisterSource Sub (some W)) (some W)).SourceSet = [W] ∧
      GetSourceCount (RegisterSource (RegisterSource Sub (some W)) (some W)) = 1 ∧
      GetAllSources (RegisterSource (RegisterSource Sub (some W)) (some W)) = [W]) ∧
    (∀ (Sub2 : UThermoForgeSubsystem K) (src : Option Nat), Sub2.SourceSet.Nodup →
      (RegisterSource Sub2 src).SourceSet.Nodup ∧
      (UnregisterSource Sub2 src).SourceSet.Nodup) := by
  have hv := LiveAttached_isSome Sub W hL
  have e1 := RegisterSource_live Sub W hv
  have hmem : W ∈ (RegisterSource Sub (some W)).SourceSet := by
    rw [e1]
    simp only
    rw [List.mem_filter]
    refine ⟨?_, hL⟩
    split_ifs with h
    · exact h
    · simp
  have hO : (RegisterSource Sub (some W)).SourceObjects = Sub.SourceObjects := by rw [e1]
  have hv2 : ((RegisterSource Sub (some W)).SourceObjects W).isSome = true := by rw [hO]; exact hv
  have hLA : LiveAttached (RegisterSource Sub (some W)) = LiveAttached Sub := by
    funext W2
    unfold LiveAttached
    rw [hO]
  have e2 : RegisterSource (RegisterSource Sub (some W)) (some W)
      = RegisterSource Sub (some W) := by
    rw [RegisterSource_live (RegisterSource Sub (some W)) W hv2, if_pos hmem, hLA]
    rw [e1]
    simp only [List.filter_filter, Bool.and_self]
  refine ⟨e2, hmem, ?_, fun Sub2 src hnd => registry_nodup Sub2 src hnd⟩
  intro hempty
  have e3 : (RegisterSource Sub (some W)).SourceSet = [W] := by
    rw [e1, hempty]
    simp [hL]
  have hall := GetAllSources_eq (RegisterSource Sub (some W))
  rw [e2]
  refine ⟨e3, ?_, ?_⟩
  · rw [hall.2, hall.1, e3]
    simp [hv2]
  · rw [hall.1, e3]
    simp [hv2]

/-- C14, witness: registering the live, world-attached source 7 twice into the
empty registry of `exampleEmptyRegistry` yields the registry [7] and the count 1. -/
theorem C14_register_source_is_idempotent_witness :
    LiveAttached exampleEmptyRegistry 7 = true ∧
    (RegisterSource (RegisterSource exampleEmptyRegistry (some 7)) (some 7)).SourceSet = [7] ∧
    GetSourceCount (RegisterSource (RegisterSource exampleEmptyRegistry (some 7)) (some 7))
      = 1 ∧
    GetAllSources (RegisterSource (RegisterSource exampleEmptyRegistry (some 7)) (some 7))
      = [7] :=
  ⟨by decide!,
   (C14_register_source_is_idempotent exampleEmptyRegistry 7 (by decide!)).2.2.1 rfl⟩

/-- C15, counterexample: the registry of `exampleDetached` holds the live source 7,
which has lost its world; the source 9 is not in the registry.  Before the call
`GetSourceCount()` is 1 and `GetAllSources()` is [7]; after `UnregisterSource` of the
absent source 9 they are 0 and []. -/
theorem C15_counterexample_unregister_absent_drops_detached :
    9 ∉ exampleDetached.SourceSet ∧
    GetSourceCount exampleDetached = 1 ∧ GetAllSources exampleDetached = [7] ∧
    GetSourceCount (UnregisterSource exampleDetached (some 9)) = 0 ∧
    GetAllSources (UnregisterSource exampleDetached (some 9)) = [] ∧
    GetSourceCount (UnregisterSource exampleDetached (some 9))
      ≠ GetSourceCount exampleDetached := by
  decide!

omit [LinearOrderedField K] [FloorRing K] in
/-- C15, amended: unregistering a source that is not in the registry removes no
live, world-attached source.  For every registry state and every source absent from
it, after `UnregisterSource` the value of `GetAllSources()` is the previous value
restricted to the sources that are attached to a world, and `GetSourceCount()` is
its length; both are the same as before the call when every live source of the
registry is attached to a world.  (The compaction pass of the call drops the live
sources that have lost their world.)  A null pointer changes nothing. -/
theorem C15_unregister_absent_keeps_attached_sources (Sub : UThermoForgeSubsystem K)
    (W : Nat) (habs : W ∉ Sub.SourceSet) :
    GetAllSources (UnregisterSource Sub (some W))
      = (GetAllSources Sub).filter (LiveAttached Sub) ∧
    GetSourceCount (UnregisterSource Sub (some W))
      = (((GetAllSources Sub).filter (LiveAttached Sub)).length : Int) ∧
    ((∀ W2 ∈ GetAllSources Sub, LiveAttached Sub W2 = true) →
      GetAllSources (UnregisterSource Sub (some W)) = GetAllSources Sub ∧
      GetSourceCount (UnregisterSource Sub (some W)) = GetSourceCount Sub) ∧
    UnregisterSource Sub none = Sub := by
  have hrem : Sub.SourceSet.filter (fun W2 => decide (W2 ≠ W)) = Sub.SourceSet := by
    rw [List.filter_eq_self]
    intro a ha
    rw [decide_eq_true_iff]
    intro e
    exact habs (e ▸ ha)
  have hU : UnregisterSource Sub (some W)
      = { Sub with SourceSet := Sub.SourceSet.filter (LiveAttached Sub) } := by
    unfold UnregisterSource CompactSources LiveAttached
    simp only [hrem]
  have hA := GetAllSources_eq Sub
  have hB := GetAllSources_eq (UnregisterSource Sub (some W))
  have hall : GetAllSources (UnregisterSource Sub (some W))
      = (GetAllSources Sub).filter (LiveAttached Sub) := by
    rw [hB.1, hA.1, hU]
    simp only [List.filter_filter]
    congr 1
    funext W2
    exact Bool.and_comm _ _
  refine ⟨hall, by rw [hB.2, hall], ?_, rfl⟩
  intro hatt
  have hsame : GetAllSources (UnregisterSource Sub (some W)) = GetAllSources Sub := by
    rw [hall, List.filter_eq_self]
    exact hatt
  exact ⟨hsame, by rw [hB.2, hsame, ← hA.2]⟩

/-- C15, witness of the amended claim: in `exampleNoField` the registry holds the
live, world-attached source 7; unregistering the absent source 9 leaves
`GetAllSources()` = [7] and `GetSourceCount()` = 1. -/
theorem C15_unregister_absent_keeps_attached_sources_witness :
    9 ∉ exampleNoField.SourceSet ∧
    GetAllSources exampleNoField = [7] ∧ GetSourceCount exampleNoField = 1 ∧
    GetAllSources (UnregisterSource exampleNoField (some 9)) = GetAllSources exampleNoField ∧
    GetSourceCount (UnregisterSource exampleNoField (some 9))
      = GetSourceCount exampleNoField :=
  ⟨by decide!, by decide!, by decide!,
   (C15_unregister_absent_keeps_attached_sources exampleNoField 9 (by decide!)).2.2.1
      (by decide!)⟩

/-! ### Hour of the day and the selected cell -/

/-- One iteration of the first loop of the query at another query time: the state
is the same up to the time stamp stored in a found hit. -/
theorem QueryContainingStep_retime (E : Engine K) (Sub : UThermoForgeSubsystem K)
    (p : FVector K) (t t2 : FDateTime K) (st : FThermoForgeGridHit K × Bool)
    (V : AThermoForgeVolume K) :
    QueryContainingStep E Sub p t2
        ((if st.2 = true then { st.1 with QueryTimeUTC := t2 } else st.1), st.2) V
      = ((if (QueryContainingStep E Sub p t st V).2 = true
            then { (QueryContainingStep E Sub p t st V).1 with QueryTimeUTC := t2 }
            else (QueryContainingStep E Sub p t st V).1),
         (QueryContainingStep E Sub p t st V).2) := by
  unfold QueryContainingStep
  obtain ⟨h, b⟩ := st
  cases h1 : (V.BakedField.bind Sub.Assets).isNone with
  | true => simp
  | false =>
    cases h2 : VolumeContainsPoint V p with
    | false => simp
    | true =>
      cases hc : ComputeNearestInVolume E Sub V p with
      | none => simp
      | some Hit0 =>
        cases b with
        | false => simp
        | true =>
          by_cases hlt : Hit0.DistanceSq < h.DistanceSq
          · simp [hlt]
          · simp [hlt]

/-- One iteration of the second loop of the query at another query time. -/
theorem QueryAnyStep_retime (E : Engine K) (Sub : UThermoForgeSubsystem K)
    (p : FVector K) (t t2 : FDateTime K) (Best : FThermoForgeGridHit K)
    (V : AThermoForgeVolume K) :
    QueryAnyStep E Sub p t2
        (if Best.bFound = true then { Best with QueryTimeUTC := t2 } else Best) V
      = (if (QueryAnyStep E Sub p t Best V).bFound = true
          then { (QueryAnyStep E Sub p t Best V) with QueryTimeUTC := t2 }
          else QueryAnyStep E Sub p t Best V) := by
  unfold QueryAnyStep
  cases h1 : (V.BakedField.bind Sub.Assets).isNone with
  | true => simp
  | false =>
    cases hc : ComputeNearestInVolume E Sub V p with
    | none => simp
    | some Hit0 =>
      have hb := (ComputeNearestInVolume_some E Sub V p Hit0 hc).1
      cases hB : Best.bFound with
      | false =>
        simp [hb]
        intro hB2
        rw [hB] at hB2
        cases hB2
      | true =>
        by_cases hlt : Hit0.DistanceSq < Best.DistanceSq
        · simp [hlt, hb]
        · simp [hlt, hB]

/-- In the first loop of the query the flag `FoundInContaining` is the found flag
of `Best`. -/
theorem foldl_QueryContainingStep_found (E : Engine K) (Sub : UThermoForgeSubsystem K)
    (p : FVector K) (t : FDateTime K) (l : List (AThermoForgeVolume K))
    (st : FThermoForgeGridHit K × Bool) (hst : st.1.bFound = st.2) :
    (l.foldl (QueryContainingStep E Sub p t) st).1.bFound
      = (l.foldl (QueryContainingStep E Sub p t) st).2 := by
  induction l generalizing st with
  | nil => exact hst
  | cons V l ih =>
    rw [List.foldl_cons]
    apply ih
    unfold QueryContainingStep
    cases h1 : (V.BakedField.bind Sub.Assets).isNone with
    | true => simpa using hst
    | false =>
      cases h2 : VolumeContainsPoint V p with
      | false => simpa using hst
      | true =>
        cases hc : ComputeNearestInVolume E Sub V p with
        | none => simpa using hst
        | some Hit0 =>
          have hb := (ComputeNearestInVolume_some E Sub V p Hit0 hc).1
          simp only [Bool.false_eq_true, if_false, Bool.not_true]
          split_ifs
          · exact hb
          · exact hst

/-- The first loop of the query at another query time. -/
theorem foldl_QueryContainingStep_retime (E : Engine K) (Sub : UThermoForgeSubsystem K)
    (p : FVector K) (t t2 : FDateTime K) (l : List (AThermoForgeVolume K))
    (st : FThermoForgeGridHit K × Bool) :
    l.foldl (QueryContainingStep E Sub p t2)
        ((if st.2 = true then { st.1 with QueryTimeUTC := t2 } else st.1), st.2)
      = ((if (l.foldl (QueryContainingStep E Sub p t) st).2 = true
            then { (l.foldl (QueryContainingStep E Sub p t) st).1 with QueryTimeUTC := t2 }
            else (l.foldl (QueryContainingStep E Sub p t) st).1),
         (l.foldl (QueryContainingStep E Sub p t) st).2) := by
  induction l generalizing st with
  | nil => rfl
  | cons V l ih =>
    rw [List.foldl_cons, List.foldl_cons, QueryContainingStep_retime E Sub p t t2 st V, ih]

/-- The second loop of the query at another query time. -/
theorem foldl_QueryAnyStep_retime (E : Engine K) (Sub : UThermoForgeSubsystem K)
    (p : FVector K) (t t2 : FDateTime K) (l : List (AThermoForgeVolume K))
    (Best : FThermoForgeGridHit K) :
    l.foldl (QueryAnyStep E Sub p t2)
        (if Best.bFound = true then { Best with QueryTimeUTC := t2 } else Best)
      = (if (l.foldl (QueryAnyStep E Sub p t) Best).bFound = true
          then { (l.foldl (QueryAnyStep E Sub p t) Best) with QueryTimeUTC := t2 }
          else l.foldl (QueryAnyStep E Sub p t) Best) := by
  induction l generalizing Best with
  | nil => rfl
  | cons V l ih =>
    rw [List.foldl_cons, List.foldl_cons, QueryAnyStep_retime E Sub p t t2 Best V, ih]

/-- The cell the query selects does not depend on the query time: at another time
the selection is the same hit with the other time stamp. -/
theorem QuerySelect_retime (E : Engine K) (Sub : UThermoForgeSubsystem K)
    (p : FVector K) (t t2 : FDateTime K) :
    QuerySelect E Sub p t2
      = (if (QuerySelect E Sub p t).bFound = true
          then { QuerySelect E Sub p t with QueryTimeUTC := t2 }
          else QuerySelect E Sub p t) := by
  unfold QuerySelect
  cases hW : Sub.World with
  | none => simp [FThermoForgeGridHit.Default]
  | some W =>
    simp only
    have h1 := foldl_QueryContainingStep_retime E Sub p t t2 W.Volumes
      (FThermoForgeGridHit.Default E, false)
    have hf := foldl_QueryContainingStep_found E Sub p t W.Volumes
      (FThermoForgeGridHit.Default E, false) rfl
    simp only [Bool.false_eq_true, if_false] at h1
    rw [h1]
    cases hst : (W.Volumes.foldl (QueryContainingStep E Sub p t)
        (FThermoForgeGridHit.Default E, false)).2 with
    | true =>
      rw [hst] at hf
      simp [hf]
    | false =>
      rw [hst] at hf
      simp only [Bool.false_eq_true, if_false, Bool.not_false, if_true]
      have h2 := foldl_QueryAnyStep_retime E Sub p t t2 W.Volumes
        (W.Volumes.foldl (QueryContainingStep E Sub p t)
          (FThermoForgeGridHit.Default E, false)).1
      rw [hf] at h2
      simp only [Bool.false_eq_true, if_false] at h2
      exact h2

/-- At 00:00 UTC the hour of the day of the query is 0. -/
theorem QueryTimeHours_midnight (d : Int) :
    QueryTimeHours (⟨d, 0⟩ : FDateTime K) = 0 := by
  simp [QueryTimeHours, FMath.Fmod]

/-- At 12:00 UTC (43200 seconds of the day) the hour of the day of the query is 12. -/
theorem QueryTimeHours_noon (d : Int) :
    QueryTimeHours (⟨d, 43200⟩ : FDateTime K) = 12 := by
  have hq : ((43200 : K) / 3600 / 24) = 1 / 2 := by norm_num
  have hfl : Int.floor ((1 : K) / 2) = 0 := by
    rw [Int.floor_eq_zero_iff]
    constructor <;> norm_num
  have h12 : ((43200 : K) / 3600) = 12 := by norm_num
  simp only [QueryTimeHours, FMath.Fmod, hq, hfl, h12]
  norm_num

/-- With a cosine within [-1, 1] the seasonal position lies in [0, 1]. -/
theorem SeasonAlpha01_mem (E : Engine K) (hcos : ∀ x, -1 ≤ E.Cos x ∧ E.Cos x ≤ 1)
    (d : Int) : 0 ≤ SeasonAlpha01 E d ∧ SeasonAlpha01 E d ≤ 1 := by
  unfold SeasonAlpha01
  simp only
  obtain ⟨h1, h2⟩ := hcos (2 * E.PI *
    (((d : K) - 355) / 365 - FMath.FloorToFloat (((d : K) - 355) / 365)))
  constructor <;> linarith

/-- The temperature of a found hit with settings present: the desired ambient at
the selected cell plus the solar term and the source term of the composition at the
centre of the selected cell. -/
theorem QueryNearestBakedGridPoint_temperature (E : Engine K)
    (Sub : UThermoForgeSubsystem K) (S : UThermoForgeProjectSettings K)
    (hS : Sub.Settings = some S) (p : FVector K) (t : FDateTime K)
    (hb : (QuerySelect E Sub p t).bFound = true) :
    (QueryNearestBakedGridPoint E Sub p t).CurrentTempC =
      QueryDesiredAmbientC E Sub (QuerySelect E Sub p t)
      + ComposeSolar S (ComposeSkyWall E Sub (QuerySelect E Sub p t).CellCenterWS).1
          S.PreviewWeatherAlpha
      + ComposeSourceSum E Sub S (QuerySelect E Sub p t).CellCenterWS
          (ComposeSkyWall E Sub (QuerySelect E Sub p t).CellCenterWS).2 := by
  unfold QueryNearestBakedGridPoint
  simp only [hb, if_true]
  unfold QueryBaselineTotalC QueryBaselineAmbientC
  simp only [ComputeCurrentTemperatureAt_some E Sub S hS, hS, FMath.Lerp]
  ring

/-- The desired ambient of a hit with settings present, at a given hour of the day. -/
theorem QueryDesiredAmbientC_some (E : Engine K) (Sub : UThermoForgeSubsystem K)
    (S : UThermoForgeProjectSettings K) (hS : Sub.Settings = some S)
    (Best : FThermoForgeGridHit K) :
    QueryDesiredAmbientC E Sub Best =
      S.AdjustForAltitude
        (FMath.Lerp S.WinterAverageC S.SummerAverageC
            (SeasonAlpha01 E Best.QueryTimeUTC.DayOfYear)
          + 1 / 2 * FMath.Lerp S.WinterDayNightDeltaC S.SummerDayNightDeltaC
              (SeasonAlpha01 E Best.QueryTimeUTC.DayOfYear)
            * E.Cos (2 * E.PI * ((QueryTimeHours Best.QueryTimeUTC - 12) / 24)))
        Best.CellCenterWS.Z := by
  unfold QueryDesiredAmbientC
  rw [hS]

/-- The cosine and the constant pi of the reals satisfy what the comparison of
midnight and noon asks of an engine. -/
theorem real_cosine_engine (E : Engine ℝ) (hC : E.Cos = Real.cos) (hP : E.PI = Real.pi) :
    E.Cos 0 = 1 ∧ E.Cos (-E.PI) = -1 ∧ ∀ x, -1 ≤ E.Cos x ∧ E.Cos x ≤ 1 := by
  rw [hC, hP]
  refine ⟨Real.cos_zero, ?_, fun x => ⟨Real.neg_one_le_cos x, Real.cos_le_one x⟩⟩
  rw [Real.cos_neg, Real.cos_pi]

/-- C12: desired-ambient phase.  For every position with a found hit and every day
of the year, the temperature `QueryNearestBakedGridPoint` composes at 00:00 UTC is
strictly lower than the one it composes at 12:00 UTC of the same day, given positive
configured winter and summer day-night deltas and an altitude adjustment that is
strictly increasing in the sea-level temperature.  The engine cosine is asked to be
1 at 0, -1 at `-PI` and within [-1, 1] (as the real cosine is).  Both queries select
the same cell, and the inequality holds for every set of sources and every preview
weather alpha, in particular without sources and with weather alpha 1. -/
theorem C12_midnight_is_colder_than_noon (E : Engine K) (Sub : UThermoForgeSubsystem K)
    (S : UThermoForgeProjectSettings K) (p : FVector K) (doy : Int)
    (hS : Sub.Settings = some S)
    (hWinter : 0 < S.WinterDayNightDeltaC) (hSummer : 0 < S.SummerDayNightDeltaC)
    (hAlt : ∀ z a b, a < b → S.AdjustForAltitude a z < S.AdjustForAltitude b z)
    (hcos0 : E.Cos 0 = 1) (hcospi : E.Cos (-E.PI) = -1)
    (hcos : ∀ x, -1 ≤ E.Cos x ∧ E.Cos x ≤ 1)
    (hf : (QueryNearestBakedGridPoint E Sub p ⟨doy, 0⟩).bFound = true) :
    (QueryNearestBakedGridPoint E Sub p ⟨doy, 43200⟩).bFound = true ∧
    (QueryNearestBakedGridPoint E Sub p ⟨doy, 43200⟩).Volume
      = (QueryNearestBakedGridPoint E Sub p ⟨doy, 0⟩).Volume ∧
    (QueryNearestBakedGridPoint E Sub p ⟨doy, 43200⟩).LinearIndex
      = (QueryNearestBakedGridPoint E Sub p ⟨doy, 0⟩).LinearIndex ∧
    (QueryNearestBakedGridPoint E Sub p ⟨doy, 0⟩).CurrentTempC
      < (QueryNearestBakedGridPoint E Sub p ⟨doy, 43200⟩).CurrentTempC := by
  obtain ⟨fF, fV, _, fL, _, _, _⟩ := QueryNearestBakedGridPoint_fields E Sub p ⟨doy, 0⟩
  obtain ⟨gF, gV, _, gL, _, _, _⟩ := QueryNearestBakedGridPoint_fields E Sub p ⟨doy, 43200⟩
  have hb : (QuerySelect E Sub p ⟨doy, 0⟩).bFound = true := by rw [← fF]; exact hf
  have hsel : QuerySelect E Sub p ⟨doy, 43200⟩
      = { QuerySelect E Sub p ⟨doy, 0⟩ with QueryTimeUTC := ⟨doy, 43200⟩ } := by
    rw [QuerySelect_retime E Sub p ⟨doy, 0⟩ ⟨doy, 43200⟩, if_pos hb]
  have ht : (QuerySelect E Sub p ⟨doy, 0⟩).QueryTimeUTC = ⟨doy, 0⟩ := by
    have h := congrArg FThermoForgeGridHit.QueryTimeUTC
      (QuerySelect_retime E Sub p ⟨doy, 0⟩ ⟨doy, 0⟩)
    rw [if_pos hb] at h
    exact h
  have hb2 : (QuerySelect E Sub p ⟨doy, 43200⟩).bFound = true := by rw [hsel]; exact hb
  refine ⟨by rw [gF]; exact hb2, by rw [gV, fV, hsel], by rw [gL, fL, hsel], ?_⟩
  rw [QueryNearestBakedGridPoint_temperature E Sub S hS p ⟨doy, 0⟩ hb,
    QueryNearestBakedGridPoint_temperature E Sub S hS p ⟨doy, 43200⟩ hb2,
    QueryDesiredAmbientC_some E Sub S hS, QueryDesiredAmbientC_some E Sub S hS, hsel]
  simp only [ht, QueryTimeHours_midnight, QueryTimeHours_noon]
  have e0 : 2 * E.PI * (((0 : K) - 12) / 24) = -E.PI := by ring
  have e12 : 2 * E.PI * (((12 : K) - 12) / 24) = 0 := by ring
  rw [e0, e12, hcos0, hcospi]
  obtain ⟨a0, a1⟩ := SeasonAlpha01_mem E hcos doy
  have hD : 0 < FMath.Lerp S.WinterDayNightDeltaC S.SummerDayNightDeltaC
      (SeasonAlpha01 E doy) := by
    unfold FMath.Lerp
    rcases le_total S.WinterDayNightDeltaC S.SummerDayNightDeltaC with h | h
    · have := mul_nonneg a0 (sub_nonneg.2 h)
      linarith
    · have := mul_nonneg (sub_nonneg.2 a1) (sub_nonneg.2 h)
      nlinarith
  have := hAlt (QuerySelect E Sub p ⟨doy, 0⟩).CellCenterWS.Z
    (FMath.Lerp S.WinterAverageC S.SummerAverageC (SeasonAlpha01 E doy)
      + 1 / 2 * FMath.Lerp S.WinterDayNightDeltaC S.SummerDayNightDeltaC
          (SeasonAlpha01 E doy) * -1)
    (FMath.Lerp S.WinterAverageC S.SummerAverageC (SeasonAlpha01 E doy)
      + 1 / 2 * FMath.Lerp S.WinterDayNightDeltaC S.SummerDayNightDeltaC
          (SeasonAlpha01 E doy) * 1)
    (by linarith)
  linarith

/-- C12, witness: in `exampleOneVolume` (winter delta 8, summer delta 10, identity
altitude adjustment) the hit at (10, 50, 50) on day 172 is found; the temperature of
the query at 00:00 is 23 + 3/4 and lies below the one at 12:00, 33 + 3/4. -/
theorem C12_midnight_is_colder_than_noon_witness :
    (QueryNearestBakedGridPoint exampleEngineTwoValueCos exampleOneVolume ⟨10, 50, 50⟩
      exampleMidnight).bFound = true ∧
    (QueryNearestBakedGridPoint exampleEngineTwoValueCos exampleOneVolume ⟨10, 50, 50⟩
      exampleMidnight).CurrentTempC = 23 + 3 / 4 ∧
    (QueryNearestBakedGridPoint exampleEngineTwoValueCos exampleOneVolume ⟨10, 50, 50⟩
      exampleMidday).CurrentTempC = 33 + 3 / 4 ∧
    (QueryNearestBakedGridPoint exampleEngineTwoValueCos exampleOneVolume ⟨10, 50, 50⟩
      ⟨172, 0⟩).CurrentTempC
      < (QueryNearestBakedGridPoint exampleEngineTwoValueCos exampleOneVolume ⟨10, 50, 50⟩
          ⟨172, 43200⟩).CurrentTempC :=
  ⟨by decide!, by decide!, by decide!,
   (C12_midnight_is_colder_than_noon exampleEngineTwoValueCos exampleOneVolume
      exampleSettings ⟨10, 50, 50⟩ 172 rfl (by decide!) (by decide!)
      (fun _ _ _ h => h) (by decide!) (by decide!)
      (fun x => by
        show (-1 : ℚ) ≤ (if x = 0 then 1 else -1) ∧ (if x = 0 then (1 : ℚ) else -1) ≤ 1
        split_ifs <;> constructor <;> norm_num)
      (by decide!)).2.2.2⟩

/-! ### Seasonal position -/

/-- On day 355 the year position is 0 and the seasonal position is the winter pole,
for every engine whose cosine is 1 at 0. -/
theorem SeasonAlpha01_day_355 (E : Engine K) (h0 : E.Cos 0 = 1) :
    SeasonAlpha01 E 355 = 0 := by
  simp [SeasonAlpha01, FMath.FloorToFloat, h0]

/-- On day 172 the year position is 182/365: the quotient -183/365 has floor -1. -/
theorem SeasonAlpha01_day_172 (E : Engine K) :
    SeasonAlpha01 E 172 = 1 / 2 * (1 - E.Cos (2 * E.PI * (182 / 365))) := by
  have hfl : Int.floor ((((172 : Int) : K) - 355) / 365) = -1 := by
    rw [Int.floor_eq_iff]
    constructor <;> push_cast <;> norm_num
  have hy : (((172 : Int) : K) - 355) / 365 - ((-1 : Int) : K) = 182 / 365 := by
    push_cast
    norm_num
  simp only [SeasonAlpha01, FMath.FloorToFloat, hfl, hy]

/-- On day 173 the year position is 183/365. -/
theorem SeasonAlpha01_day_173 (E : Engine K) :
    SeasonAlpha01 E 173 = 1 / 2 * (1 - E.Cos (2 * E.PI * (183 / 365))) := by
  have hfl : Int.floor ((((173 : Int) : K) - 355) / 365) = -1 := by
    rw [Int.floor_eq_iff]
    constructor <;> push_cast <;> norm_num
  have hy : (((173 : Int) : K) - 355) / 365 - ((-1 : Int) : K) = 183 / 365 := by
    push_cast
    norm_num
  simp only [SeasonAlpha01, FMath.FloorToFloat, hfl, hy]

/-- The cosine of pi/365 lies strictly between 1 - 1/10000 and 1. -/
theorem cos_pi_div_365_bounds :
    (9999 : ℝ) / 10000 < Real.cos (Real.pi / 365) ∧ Real.cos (Real.pi / 365) < 1 := by
  have hpos : (0 : ℝ) < Real.pi / 365 := by positivity
  have h3 : Real.pi < 4 := Real.pi_lt_four
  constructor
  · have h : 1 - (Real.pi / 365) ^ 2 / 2 ≤ Real.cos (Real.pi / 365) :=
      Real.one_sub_sq_div_two_le_cos
    have hsq : (Real.pi / 365) ^ 2 < (4 / 365) ^ 2 := by
      apply pow_lt_pow_left₀ (by linarith) hpos.le (by norm_num)
    have : ((4 : ℝ) / 365) ^ 2 / 2 < 1 / 10000 := by norm_num
    linarith
  · have h := Real.cos_lt_cos_of_nonneg_of_le_pi_div_two (le_refl (0 : ℝ))
      (show Real.pi / 365 ≤ Real.pi / 2 by linarith [Real.pi_pos]) hpos
    rwa [Real.cos_zero] at h

/-- With the real cosine the seasonal position of day 172 is
`1/2 * (1 + cos (pi / 365))`. -/
theorem SeasonAlpha01_day_172_real (E : Engine ℝ) (hC : E.Cos = Real.cos)
    (hP : E.PI = Real.pi) :
    SeasonAlpha01 E 172 = 1 / 2 * (1 + Real.cos (Real.pi / 365)) := by
  rw [SeasonAlpha01_day_172, hC, hP]
  have e : 2 * Real.pi * (182 / 365) = Real.pi - Real.pi / 365 := by ring
  rw [e, Real.cos_pi_sub]
  ring

/-- C13, counterexample: with the cosine and the constant pi of the reals the
seasonal position of day-of-year 172 is not 1. -/
theorem C13_counterexample_day_172_is_not_summer_pole :
    SeasonAlpha01
      ({ PI := Real.pi, Cos := Real.cos, Exp := Real.exp, Sqrt := Real.sqrt, DoubleMax := 0,
         Quaternion := fun _ => FQuat.Identity, Rotator := fun _ => ⟨0, 0, 0⟩ } : Engine ℝ)
      172 ≠ 1 := by
  rw [SeasonAlpha01_day_172_real _ rfl rfl]
  have h := cos_pi_div_365_bounds.2
  intro hc
  linarith

/-- C13: the seasonal position computed in `QueryNearestBakedGridPoint`, with the
cosine and the constant pi of the reals.  On day-of-year 355 it is 0, the winter
pole.  On day-of-year 172 it is `1/2 * (1 + cos (pi / 365))`: within 1/10000 of the
summer pole 1 and strictly below it.  Day 173 has the same value: the summer pole
of the ramp lies at year position 1/2, half-way between the days 172 and 173. -/
theorem C13_season_alpha_at_anchor_days (E : Engine ℝ) (hC : E.Cos = Real.cos)
    (hP : E.PI = Real.pi) :
    SeasonAlpha01 E 355 = 0 ∧
    SeasonAlpha01 E 172 = 1 / 2 * (1 + Real.cos (Real.pi / 365)) ∧
    9999 / 10000 < SeasonAlpha01 E 172 ∧
    SeasonAlpha01 E 172 < 1 ∧
    SeasonAlpha01 E 173 = SeasonAlpha01 E 172 := by
  have h172 := SeasonAlpha01_day_172_real E hC hP
  obtain ⟨b1, b2⟩ := cos_pi_div_365_bounds
  refine ⟨SeasonAlpha01_day_355 E (by rw [hC]; exact Real.cos_zero), h172, ?_, ?_, ?_⟩
  · rw [h172]; linarith
  · rw [h172]; linarith
  · rw [h172, SeasonAlpha01_day_173, hC, hP]
    have e : 2 * Real.pi * (183 / 365) = Real.pi / 365 + Real.pi := by ring
    rw [e, Real.cos_add_pi]
    ring

/-- C13, witness: the engine of the reals with the real cosine. -/
theorem C13_season_alpha_at_anchor_days_witness :
    SeasonAlpha01
      ({ PI := Real.pi, Cos := Real.cos, Exp := Real.exp, Sqrt := Real.sqrt, DoubleMax := 0,
         Quaternion := fun _ => FQuat.Identity, Rotator := fun _ => ⟨0, 0, 0⟩ } : Engine ℝ)
      355 = 0 ∧
    SeasonAlpha01
      ({ PI := Real.pi, Cos := Real.cos, Exp := Real.exp, Sqrt := Real.sqrt, DoubleMax := 0,
         Quaternion := fun _ => FQuat.Identity, Rotator := fun _ => ⟨0, 0, 0⟩ } : Engine ℝ)
      172 < 1 :=
  ⟨(C13_season_alpha_at_anchor_days _ rfl rfl).1,
   (C13_season_alpha_at_anchor_days _ rfl rfl).2.2.2.1⟩

end Proofs

end ThermoForge
